import Mathlib

/-!
# SmartBandage: the I2C transaction scheduler and the peripheral manager

A shallow embedding of the asynchronous bus-transaction scheduler
(`Application/i2c.c`) and of the peripheral manager with its multiplexer
arbiter (`Application/peripheralManager.c`) of the SmartBandage firmware,
followed by theorems about them.

Conventions of the embedding

* A C pointer is an `Option`: `none` is `NULL`, `some a` is the address `a`.
  A non-null `SB_i2cTransaction*` is looked up in `I2C_State.mem`.
* A `Semaphore_Handle` owned by `I2C_Core` is an `Option Nat`: `none` is a
  `NULL` handle (what `Semaphore_create` returns on failure), `some c` is a
  live semaphore whose count is `c`.  Counts are unbounded naturals.
* A call that does not return is `none`: it blocks forever on a semaphore,
  or it uses a `NULL` handle.  Every other call is `some result`.
* Each function is one atomic step on `I2C_State`.  A `Semaphore_pend` that
  finds the count at zero times out when the timeout is finite and blocks
  when it is `BIOS_WAIT_FOREVER`; obtaining the semaphore after another task
  posted it is the same step taken from the later state.
* The source is modelled with `I2C_ENABLE_TIMEOUT` defined.
-/

namespace SmartBandage

/-- Error kinds of `SB_Error` that the sources under study use. -/
inductive SB_Error
  | NoError
  | UnknownError
  | InvalidParameter
  | ResourceNotInitialized
  | OutOfMemory
  | OperationTimeout
  | SemaphorePendTimeout
  | OSResourceInitializationError
  | I2CInitializationFailedError
  deriving DecidableEq, Repr

/-- The `I2C_Transaction` of the bus driver: buffers are pointers. -/
structure I2C_Transaction where
  writeBuf : Option Nat
  writeCount : Nat
  readBuf : Option Nat
  readCount : Nat
  slaveAddress : Nat
  deriving DecidableEq, Repr

/-- The `SB_i2cTransaction` a caller owns: `baseTransaction` is a pointer to
an `I2C_Transaction` (the pointee is kept in place), `completionSemaphore` a
pointer to the caller's semaphore (an index into `I2C_State.sems`). -/
structure SB_i2cTransaction where
  baseTransaction : Option I2C_Transaction
  completionSemaphore : Option Nat
  completionResult : SB_Error
  deriving DecidableEq, Repr

/-- The `I2C_queuedTransaction` queue entry: `transaction` is a pointer. -/
structure I2C_queuedTransaction where
  transaction : Option Nat
  deriving DecidableEq, Repr

/-- The bus driver object behind a non-null `I2C_Handle`: the number of
transfers it was handed and has not completed, and whether its interrupt
routine pointer `hwi.__f1` is set. -/
structure I2C_Driver where
  pending : Nat
  hwiFxn : Bool
  deriving DecidableEq, Repr

/-- Calls that leave the module, in the order they happen: `Queue_enqueue` of
an entry for transaction `t`, `I2C_transfer` of the base transaction of `t`,
and `Semaphore_post` on the completion semaphore `s` of `t`. -/
inductive I2C_Event
  | enqueue (t : Nat)
  | transfer (t : Nat)
  | signal (t : Nat) (s : Nat)
  deriving DecidableEq, Repr

/-- The static `initialized` flag, the `I2C_Core` struct, the task-local
`clockStarted`, the caller memory the module reaches through pointers
(`mem`, `sems`) and the record of calls made (`trace`). -/
structure I2C_State where
  initialized : Bool
  handle : Option I2C_Driver
  i2cQueue : List I2C_queuedTransaction
  i2cQueueSem : Option Nat
  i2cDataAvailSem : Option Nat
  i2cProcSem : Option Nat
  currentTransaction : Option Nat
  timeoutClock : Bool
  clockStarted : Bool
  mem : Nat → SB_i2cTransaction
  sems : Nat → Nat
  trace : List I2C_Event

/-- The value `~(0)` of a 32-bit timeout. -/
def BIOS_WAIT_FOREVER : Nat := 0xFFFFFFFF

/-- `Semaphore_create(count, ...)`: the handle of a fresh semaphore, or `NULL`
when the system cannot allocate one (`ok = false`). -/
def Semaphore_create (ok : Bool) (count : Nat) : Option Nat :=
  if ok then some count else none

/-- `Semaphore_pend(sem, timeout)`: the returned flag and the semaphore
afterwards; `none` when the call does not return. -/
def Semaphore_pend (sem : Option Nat) (timeout : Nat) : Option (Bool × Option Nat) :=
  match sem with
  | none => none
  | some (c + 1) => some (true, some c)
  | some 0 => if timeout = BIOS_WAIT_FOREVER then none else some (false, some 0)

/-- `Semaphore_post(sem)`: the semaphore afterwards; `none` on a `NULL` handle. -/
def Semaphore_post (sem : Option Nat) : Option (Option Nat) :=
  match sem with
  | none => none
  | some c => some (some (c + 1))

/-- `I2C_transfer(handle, transaction)` in callback mode: the driver takes the
transfer and returns at once; `none` on a `NULL` handle. -/
def I2C_transfer (handle : Option I2C_Driver) : Option (Option I2C_Driver) :=
  match handle with
  | none => none
  | some d => some (some { d with pending := d.pending + 1 })

/-- `Queue_empty(queue)`. -/
def Queue_empty (queue : List I2C_queuedTransaction) : Bool :=
  queue.isEmpty

/-- `Queue_get(queue)`: the entry taken from the front (`NULL` when there is
none) and the queue that remains. -/
def Queue_get (queue : List I2C_queuedTransaction) :
    Option I2C_queuedTransaction × List I2C_queuedTransaction :=
  (queue.head?, queue.tail)

/-- What the system calls of `SB_i2cInit` answer: whether `I2C_open`, the
three `Semaphore_create` calls and `Task_create` succeed. -/
structure I2C_InitEnv where
  i2cOpen : Bool
  queueSem : Bool
  dataAvailSem : Bool
  procSem : Bool
  taskCreate : Bool
  deriving DecidableEq, Repr

/-- `SB_i2cInit` (i2c.c:141-205).  `I2C_init` and the parameter set-up leave
the state alone.  An `I2C_open` that succeeds gives a driver with nothing
pending and its interrupt routine set; its result is stored unchecked.  The
started task constructs the timeout clock, not yet running, before its loop. -/
def SB_i2cInit (st : I2C_State) (env : I2C_InitEnv) : Option (SB_Error × I2C_State) :=
  let st := { st with currentTransaction := none }
  let st := { st with
    handle := if env.i2cOpen then some { pending := 0, hwiFxn := true } else none }
  let st := { st with i2cQueue := [] }
  let st := { st with
    i2cQueueSem := Semaphore_create env.queueSem 1
    i2cDataAvailSem := Semaphore_create env.dataAvailSem 0 }
  let st := { st with i2cProcSem := Semaphore_create env.procSem 0 }
  if st.i2cQueueSem = none ∨ st.i2cDataAvailSem = none ∨ st.i2cProcSem = none then
    some (SB_Error.OSResourceInitializationError, st)
  else if env.taskCreate = false then
    some (SB_Error.I2CInitializationFailedError, st)
  else
    let st := { st with timeoutClock := false, clockStarted := false }
    match Semaphore_post st.i2cProcSem with
    | none => none
    | some procSem => some (SB_Error.NoError, { st with i2cProcSem := procSem, initialized := true })

/-- `SB_i2cQueueTransaction` (i2c.c:211-240).  `mallocOk` tells whether
`malloc` returns a non-null entry. -/
def SB_i2cQueueTransaction (st : I2C_State) (transaction : Option Nat) (timeout : Nat)
    (mallocOk : Bool) : Option (SB_Error × I2C_State) :=
  if st.initialized = false then
    some (SB_Error.ResourceNotInitialized, st)
  else
    match transaction with
    | none => some (SB_Error.InvalidParameter, st)
    | some t =>
      if (st.mem t).baseTransaction = none ∨ (st.mem t).completionSemaphore = none then
        some (SB_Error.InvalidParameter, st)
      else
        match Semaphore_pend st.i2cQueueSem timeout with
        | none => none
        | some (false, queueSem) =>
          some (SB_Error.OperationTimeout, { st with i2cQueueSem := queueSem })
        | some (true, queueSem) =>
          if mallocOk = false then
            match Semaphore_post queueSem with
            | none => none
            | some queueSem => some (SB_Error.OutOfMemory, { st with i2cQueueSem := queueSem })
          else
            let qp : I2C_queuedTransaction := { transaction := some t }
            let st := { st with
              i2cQueueSem := queueSem
              i2cQueue := st.i2cQueue ++ [qp]
              trace := st.trace ++ [I2C_Event.enqueue t] }
            match Semaphore_post st.i2cDataAvailSem with
            | none => none
            | some dataAvail =>
              let st := { st with i2cDataAvailSem := dataAvail }
              match Semaphore_post st.i2cQueueSem with
              | none => none
              | some queueSem => some (SB_Error.NoError, { st with i2cQueueSem := queueSem })

/-- `SB_i2cTransferCompleteHandler` (i2c.c:242-258), the transfer callback
registered with the bus driver. -/
def SB_i2cTransferCompleteHandler (st : I2C_State) (result : Bool) : Option I2C_State :=
  match Semaphore_post st.i2cProcSem with
  | none => none
  | some procSem =>
    let st := { st with i2cProcSem := procSem }
    let st := { st with timeoutClock := false }
    match st.currentTransaction with
    | none => some st
    | some t =>
      let st := { st with
        mem := Function.update st.mem t
          { st.mem t with
            completionResult := if result then SB_Error.NoError else SB_Error.UnknownError } }
      let st :=
        match (st.mem t).completionSemaphore with
        | none => st
        | some s =>
          { st with
            sems := Function.update st.sems s (st.sems s + 1)
            trace := st.trace ++ [I2C_Event.signal t s] }
      some { st with currentTransaction := none }

/-- Modelled from the spec: the interrupt routine of the bus driver, reached
through `obj->hwi.__f1`, is not part of the sources.  After the forced stop
condition it does what the spec's timeout path says: it ends the transfer in
progress and runs the completion sequence the driver produces on failure,
that is the registered callback with result `false`. -/
def I2C_hwiFxn (st : I2C_State) (d : I2C_Driver) : Option I2C_State :=
  SB_i2cTransferCompleteHandler { st with handle := some { d with pending := d.pending - 1 } } false

/-- `SB_i2cTransactionTimeoutHandler` (i2c.c:262-286), the expiry function of
the one-shot timeout clock.  `I2CMasterControl` acts on the bus only. -/
def SB_i2cTransactionTimeoutHandler (st : I2C_State) : Option I2C_State :=
  match st.currentTransaction with
  | none => some st
  | some _ =>
    match st.handle with
    | none => none
    | some d => if d.hwiFxn then I2C_hwiFxn st d else some st

/-- One pass of the `while (1)` body of `SB_i2cTask` (i2c.c:82-138), from the
pend on the processing permit to the `continue` or the `I2C_transfer` that
ends it.  A `while (!Semaphore_pend(..., BIOS_WAIT_FOREVER))` loop whose pend
answered `false` would spin without end. -/
def SB_i2cTask_iteration (st : I2C_State) : Option I2C_State :=
  match Semaphore_pend st.i2cProcSem BIOS_WAIT_FOREVER with
  | none => none
  | some (false, _) => none
  | some (true, procSem) =>
    let st := { st with i2cProcSem := procSem }
    match Semaphore_pend st.i2cDataAvailSem BIOS_WAIT_FOREVER with
    | none => none
    | some (false, dataAvail) =>
      let st := { st with i2cDataAvailSem := dataAvail }
      (Semaphore_post st.i2cProcSem).map fun procSem => { st with i2cProcSem := procSem }
    | some (true, dataAvail) =>
      let st := { st with i2cDataAvailSem := dataAvail }
      match Semaphore_pend st.i2cQueueSem BIOS_WAIT_FOREVER with
      | none => none
      | some (false, _) => none
      | some (true, queueSem) =>
        let st := { st with i2cQueueSem := queueSem }
        if Queue_empty st.i2cQueue then
          (Semaphore_post st.i2cProcSem).map fun procSem => { st with i2cProcSem := procSem }
        else
          let qp := (Queue_get st.i2cQueue).1
          let st := { st with i2cQueue := (Queue_get st.i2cQueue).2 }
          match Semaphore_post st.i2cQueueSem with
          | none => none
          | some queueSem =>
            let st := { st with i2cQueueSem := queueSem }
            match qp with
            | none =>
              (Semaphore_post st.i2cProcSem).map fun procSem => { st with i2cProcSem := procSem }
            | some qp =>
              let st := { st with currentTransaction := qp.transaction }
              match st.currentTransaction with
              | none =>
                (Semaphore_post st.i2cProcSem).map fun procSem =>
                  { st with i2cProcSem := procSem }
              | some t =>
                if (st.mem t).baseTransaction = none ∨
                    (st.mem t).completionSemaphore = none then
                  (Semaphore_post st.i2cProcSem).map fun procSem =>
                    { st with i2cProcSem := procSem }
                else
                  let st := { st with timeoutClock := true, clockStarted := true }
                  match I2C_transfer st.handle with
                  | none => none
                  | some handle =>
                    some { st with
                      handle := handle
                      trace := st.trace ++ [I2C_Event.transfer t] }

/-- Modelled from the spec: the bus driver is not part of the sources.  Per
the spec's `BusHardwareDriver` it calls `onComplete` for a transfer it was
handed: the step is possible only while a transfer is pending, and the
transfer is then no longer pending. -/
def I2C_driverComplete (st : I2C_State) (result : Bool) : Option I2C_State :=
  match st.handle with
  | none => none
  | some d =>
    if d.pending = 0 then none
    else
      SB_i2cTransferCompleteHandler
        { st with handle := some { d with pending := d.pending - 1 } } result

/-- Completion callbacks arriving one after the other, with the given driver
results. -/
def SB_i2cTransferCompleteHandler_each (st : I2C_State) : List Bool → Option I2C_State
  | [] => some st
  | result :: rest =>
    match SB_i2cTransferCompleteHandler st result with
    | none => none
    | some st => SB_i2cTransferCompleteHandler_each st rest

/-- The atomic steps of the scheduler: a call of `SB_i2cQueueTransaction`, a
pass of the driver task, a completion callback from the bus driver, and a
call of the timeout handler (allowed at any moment, not only when the clock
is running). -/
inductive I2C_Step
  | enqueue (transaction : Option Nat) (timeout : Nat) (mallocOk : Bool)
  | task
  | complete (result : Bool)
  | timeout
  deriving DecidableEq, Repr

/-- The state after one step; `none` when the step cannot finish from `st`. -/
def I2C_step (st : I2C_State) : I2C_Step → Option I2C_State
  | I2C_Step.enqueue transaction timeout mallocOk =>
    (SB_i2cQueueTransaction st transaction timeout mallocOk).map Prod.snd
  | I2C_Step.task => SB_i2cTask_iteration st
  | I2C_Step.complete result => I2C_driverComplete st result
  | I2C_Step.timeout => SB_i2cTransactionTimeoutHandler st

/-- The state after a sequence of steps, each taken from the state the
previous one left. -/
def I2C_run (st : I2C_State) : List I2C_Step → Option I2C_State
  | [] => some st
  | s :: rest =>
    match I2C_step st s with
    | none => none
    | some st => I2C_run st rest

/-- The transactions whose entries were put on the queue, in call order. -/
def enqueuedOf : List I2C_Event → List Nat
  | [] => []
  | I2C_Event.enqueue t :: rest => t :: enqueuedOf rest
  | _ :: rest => enqueuedOf rest

/-- The transactions handed to the bus driver, in call order. -/
def transferredOf : List I2C_Event → List Nat
  | [] => []
  | I2C_Event.transfer t :: rest => t :: transferredOf rest
  | _ :: rest => transferredOf rest

/-- The transactions whose completion semaphore was posted, in call order. -/
def signaledOf : List I2C_Event → List Nat
  | [] => []
  | I2C_Event.signal t _ :: rest => t :: signaledOf rest
  | _ :: rest => signaledOf rest

/-- The number of transfers handed to the bus driver and not yet completed. -/
def busPending (st : I2C_State) : Nat :=
  match st.handle with
  | none => 0
  | some d => d.pending

/-- The count of the processing permit (`0` while the handle is `NULL`). -/
def procPermits (st : I2C_State) : Nat :=
  match st.i2cProcSem with
  | none => 0
  | some c => c

/-- The condition under which `SB_i2cQueueTransaction` and the driver task
refuse a transaction pointer: it is null, or its base transaction or its
completion semaphore is null. -/
def transactionRejected (st : I2C_State) (transaction : Option Nat) : Prop :=
  transaction = none ∨
    ∃ t, transaction = some t ∧
      ((st.mem t).baseTransaction = none ∨ (st.mem t).completionSemaphore = none)


/-- Caller memory in which address `1` holds the configuration transaction
that `applyTempSensorConfiguration` builds (peripheralManager.c:75-82): three
bytes to write from `txBuf`, nothing to read, `readBuf = NULL`, and the
completion semaphore `&PMGR.i2cDeviceSem`.  Address `2` holds a transaction
whose base transaction pointer is null, address `3` the temperature read
transaction of `readSensorData` (peripheralManager.c:271-277); every other
address is zeroed. -/
def sampleMem : Nat → SB_i2cTransaction := fun a =>
  if a = 1 then
    { baseTransaction := some
        { writeBuf := some 100, writeCount := 3, readBuf := none, readCount := 0,
          slaveAddress := 0x18 }
      completionSemaphore := some 0
      completionResult := SB_Error.NoError }
  else if a = 2 then
    { baseTransaction := none, completionSemaphore := some 0,
      completionResult := SB_Error.NoError }
  else if a = 3 then
    { baseTransaction := some
        { writeBuf := some 200, writeCount := 1, readBuf := some 201, readCount := 2,
          slaveAddress := 0x18 }
      completionSemaphore := some 0
      completionResult := SB_Error.NoError }
  else
    { baseTransaction := none, completionSemaphore := none,
      completionResult := SB_Error.NoError }

/-- The state at start-up: `initialized` is `false` and `I2C_Core` is zeroed. -/
def bootState : I2C_State :=
  { initialized := false, handle := none, i2cQueue := [], i2cQueueSem := none,
    i2cDataAvailSem := none, i2cProcSem := none, currentTransaction := none,
    timeoutClock := false, clockStarted := false, mem := sampleMem, sems := fun _ => 0,
    trace := [] }

/-- Every system call of `SB_i2cInit` succeeds. -/
def initEnvOk : I2C_InitEnv :=
  { i2cOpen := true, queueSem := true, dataAvailSem := true, procSem := true,
    taskCreate := true }

/-- The state a successful `SB_i2cInit` leaves when run from `bootState`. -/
def readyState : I2C_State :=
  { bootState with
    initialized := true, handle := some { pending := 0, hwiFxn := true },
    i2cQueueSem := some 1, i2cDataAvailSem := some 0, i2cProcSem := some 1 }


/-- The state `readyState` reaches by accepting the transaction at address
`1` and letting the driver task hand it to the bus driver. -/
def busyState : I2C_State :=
  { readyState with
    handle := some { pending := 1, hwiFxn := true }, i2cProcSem := some 0,
    currentTransaction := some 1, timeoutClock := true, clockStarted := true,
    trace := [I2C_Event.enqueue 1, I2C_Event.transfer 1] }

/-- A run in which the transactions at `1` and `3` are accepted in this order
while the first is in flight; the first transfer completes, the second runs
into the timeout. -/
def sampleRun : List I2C_Step :=
  [I2C_Step.enqueue (some 1) 5 true, I2C_Step.task, I2C_Step.enqueue (some 3) 5 true,
    I2C_Step.enqueue (some 2) 5 true, I2C_Step.complete true, I2C_Step.task,
    I2C_Step.timeout]

/-- The steps of the scheduler with a late completion added: besides the
steps of `I2C_Step`, a call of the registered callback
`SB_i2cTransferCompleteHandler` that the bus driver makes for a transfer
which the timeout has already completed, at a moment when the driver has no
transfer pending for it. -/
inductive I2C_LateStep
  | step (s : I2C_Step)
  | lateComplete (result : Bool)
  deriving DecidableEq, Repr

/-- Modelled from the spec: the bus driver is not part of the sources.  The
spec's design notes say that a genuine late completion can still arrive
after a timeout has completed the transaction; the callback then runs on the
state as it is, and no transfer of the driver ends with it. -/
def I2C_lateStep (st : I2C_State) : I2C_LateStep → Option I2C_State
  | I2C_LateStep.step s => I2C_step st s
  | I2C_LateStep.lateComplete result => SB_i2cTransferCompleteHandler st result

/-- The state after a sequence of steps, late completions among them. -/
def I2C_lateRun (st : I2C_State) : List I2C_LateStep → Option I2C_State
  | [] => some st
  | s :: rest =>
    match I2C_lateStep st s with
    | none => none
    | some st => I2C_lateRun st rest

/-- A run with a late completion: the transaction at `1` is accepted and
handed to the bus driver, its transfer runs into the timeout, and the
driver's own completion callback arrives afterwards; then the transactions
at `3` and at `1` are accepted and the driver task makes two passes. -/
def lateRun : List I2C_LateStep :=
  [I2C_LateStep.step (I2C_Step.enqueue (some 1) 5 true), I2C_LateStep.step I2C_Step.task,
    I2C_LateStep.step I2C_Step.timeout, I2C_LateStep.lateComplete true,
    I2C_LateStep.step (I2C_Step.enqueue (some 3) 5 true),
    I2C_LateStep.step (I2C_Step.enqueue (some 1) 5 true),
    I2C_LateStep.step I2C_Step.task, I2C_LateStep.step I2C_Step.task]

/-- What every state of the scheduler satisfies between steps once
`SB_i2cInit` has succeeded: the queue semaphore is free, the data-available
count is the queue length, every queued entry points to a transaction with
base transaction and completion semaphore, the driver's interrupt routine is
set, and either the slot is empty with the permit available and nothing
pending at the driver, or the slot holds such a transaction with the permit
taken and exactly one transfer pending. -/
def I2C_Inv (st : I2C_State) : Prop :=
  st.initialized = true ∧
  st.i2cQueueSem = some 1 ∧
  st.i2cDataAvailSem = some st.i2cQueue.length ∧
  (∀ qp ∈ st.i2cQueue, ∃ t, qp.transaction = some t ∧
    (st.mem t).baseTransaction ≠ none ∧ (st.mem t).completionSemaphore ≠ none) ∧
  (∀ d, st.handle = some d → d.hwiFxn = true) ∧
  ((st.currentTransaction = none ∧ st.i2cProcSem = some 1 ∧ busPending st = 0) ∨
    (∃ t, st.currentTransaction = some t ∧ st.i2cProcSem = some 0 ∧ busPending st = 1 ∧
      (st.mem t).baseTransaction ≠ none ∧ (st.mem t).completionSemaphore ≠ none))

/-- The order kept by the scheduler, read off the trace: the transactions
handed to the bus driver, followed by those still queued, are the accepted
transactions in order of acceptance; the transactions whose completion was
signaled, followed by the one in the current slot, are the transactions
handed to the bus driver in order. -/
def I2C_Fifo (st : I2C_State) : Prop :=
  transferredOf st.trace ++ st.i2cQueue.filterMap (fun qp => qp.transaction)
    = enqueuedOf st.trace ∧
  signaledOf st.trace ++ st.currentTransaction.toList = transferredOf st.trace

/-! ## The peripheral manager (`Application/peripheralManager.c`)

The polling half of `PMGR` is `PMGR_State`, the multiplexer half is
`MUX_State`.  Constants, tables and build flags that the headers define are
the fields of `PMGR_Config`.  What the bus and the system clock answer during
one call is a `PMGR_Bus`: the manager waits for every transaction it queues,
so it sees the scheduler only through completion results and received bytes.
Calls that leave the manager are recorded in `PMGR_State.trace`.  The attempt
counter is an unbounded natural. -/

/-- Values of `SB_PeripheralState.currentState` that the sources use. -/
inductive PState
  | PState_OK
  | PState_Intermittent
  | PState_Failed
  | PState_FailedConfig
  deriving DecidableEq, Repr

/-- The `SB_PeripheralState` of one device. -/
structure SB_PeripheralState where
  currentState : PState
  numReadAttempts : Nat
  lastError : SB_Error
  deriving DecidableEq, Repr

/-- The `MCP9808_DEVICE` record of a temperature sensor. -/
structure MCP9808_DEVICE where
  Address : Nat
  Configuration : Nat
  Resolution : Nat
  Temperature : Nat
  deriving DecidableEq, Repr

/-- The `HDC1050_DEVICE` record of the humidity sensor. -/
structure HDC1050_DEVICE where
  address : Nat
  configuration : Nat
  readReadyTime : Nat
  humidity : Nat
  temperature : Nat
  deriving DecidableEq, Repr

/-- The `TCA9554A_DEVICE` record of the IO expander. -/
structure TCA9554A_DEVICE where
  address : Nat
  configuration : Nat
  deriving DecidableEq, Repr

/-- The `SB_MUXState` applied to the multiplexers in one port write. -/
structure SB_MUXState where
  iomuxOutput : Nat
  pwrmuxOutput : Nat
  pwrmuxOutputEnable : Nat
  deriving DecidableEq, Repr

/-- Build flags, constants and tables of the headers, which the sources use
by name: the two register images are the values of the expressions at
peripheralManager.c:59-63 and 110-115. -/
structure PMGR_Config where
  IOEXPANDER_PRESENT : Bool
  LAUNCHPAD : Bool
  SB_NUM_MCP9808_SENSORS : Nat
  PERIPHERAL_MAX_READ_ATTEMPTS : Nat
  Mcp9808Addresses : Nat → Nat
  HDC1050_I2C_ADDRESS : Nat
  I2C_DBGIOEXP_ADDR : Nat
  HDC1050_READ_WAIT_TICKS : Nat
  SYSDSBL_REFRESH_CLOCK_PERIOD : Nat
  mcp9808Configuration : Nat
  MCP9808_RESOLUTION_0P0625 : Nat
  hdc1050Configuration : Nat
  tca9554aConfiguration : Nat
  Board_IOMUX_SYSDISBL_N : Nat
  Board_PWRMUX_PERIPHERAL_VCC : Nat
  MUX_ENABLE : Nat
  MUX_DISABLE : Nat

/-- What the bus and the clock answer during one configuration or read
phase: the completion result of each transaction, the bytes received from
temperature sensor `i`, the values the humidity driver decodes, the result of
each IO expander pin change, and the tick counts that `Clock_getTicks`
returns. -/
structure PMGR_Bus where
  ioexpanderConfig : SB_Error
  tempConfig : Nat → SB_Error
  tempResolution : Nat → SB_Error
  humidityConfig : SB_Error
  startConversion : SB_Error
  ticksAtStart : Nat
  tempRead : Nat → SB_Error
  rxBuf : Nat → Nat × Nat
  ticksAtRead : Nat
  humidityRead : SB_Error
  humidity : Nat
  humidityTemperature : Nat
  pinStatus : SB_Error

/-- The telemetry channels passed to `SB_Profile_Set16bParameter`. -/
inductive SB_Characteristic
  | SB_CHARACTERISTIC_TEMPERATURE
  | SB_CHARACTERISTIC_HUMIDITY
  deriving DecidableEq, Repr

/-- The IO expander pins `IOEXP_I2CSTATUS_PIN_TEMP(i)` and
`IOEXP_I2CSTATUS_PIN_HUMIDITY`. -/
inductive PMGR_Pin
  | IOEXP_I2CSTATUS_PIN_TEMP (i : Nat)
  | IOEXP_I2CSTATUS_PIN_HUMIDITY
  deriving DecidableEq, Repr

/-- Calls that leave the manager: the transactions it queues (IO expander
configuration; configuration, resolution and read of temperature sensor `i`;
configuration, conversion start and read of the humidity sensor), IO expander
pin changes, telemetry calls, sleeps, and changes of peripheral power. -/
inductive PMGR_Event
  | ioexpanderConfig
  | tempConfig (i : Nat)
  | tempResolution (i : Nat)
  | humidityConfig
  | startConversion
  | setPinStatus (pin : PMGR_Pin) (status : Bool)
  | tempRead (i : Nat)
  | humidityRead
  | publish (characteristic : SB_Characteristic) (value : Nat) (index : Nat)
  | sleep (ticks : Nat)
  | power (enable : Bool)
  deriving DecidableEq, Repr

/-- The device tables and health records of `PMGR`, and the calls made. -/
structure PMGR_State where
  mcp9808Devices : Nat → MCP9808_DEVICE
  mcp9808DeviceStates : Nat → SB_PeripheralState
  hdc1050Device : HDC1050_DEVICE
  hdc1050DeviceState : SB_PeripheralState
  ioexpanderDevice : TCA9554A_DEVICE
  ioexpanderDeviceState : SB_PeripheralState
  trace : List PMGR_Event

/-- A `for (i = 0; i < n; ++i)` loop over a state. -/
def forLoop {σ : Type} (body : Nat → σ → σ) : Nat → σ → σ
  | 0, s => s
  | n + 1, s => body n (forLoop body n s)

/-- `applyTempSensorConfiguration` (peripheralManager.c:54-103): it queues the
configuration and the resolution transaction, waits for both, and returns the
completion result of the configuration transaction. -/
def applyTempSensorConfiguration (cfg : PMGR_Config) (bus : PMGR_Bus) (deviceNo : Nat)
    (s : PMGR_State) : SB_Error × PMGR_State :=
  let s := { s with
    mcp9808Devices := Function.update s.mcp9808Devices deviceNo
      { s.mcp9808Devices deviceNo with Configuration := cfg.mcp9808Configuration } }
  let s := { s with
    mcp9808Devices := Function.update s.mcp9808Devices deviceNo
      { s.mcp9808Devices deviceNo with Resolution := cfg.MCP9808_RESOLUTION_0P0625 } }
  let s := { s with trace := s.trace ++ [PMGR_Event.tempConfig deviceNo] }
  let s := { s with trace := s.trace ++ [PMGR_Event.tempResolution deviceNo] }
  (bus.tempConfig deviceNo, s)

/-- `applyHumiditySensorConfiguration` (peripheralManager.c:105-138). -/
def applyHumiditySensorConfiguration (cfg : PMGR_Config) (bus : PMGR_Bus) (s : PMGR_State) :
    SB_Error × PMGR_State :=
  let s := { s with
    hdc1050Device := { s.hdc1050Device with configuration := cfg.hdc1050Configuration } }
  let s := { s with trace := s.trace ++ [PMGR_Event.humidityConfig] }
  (bus.humidityConfig, s)

/-- `applyIOExpanderConfiguration` (peripheralManager.c:141-177). -/
def applyIOExpanderConfiguration (cfg : PMGR_Config) (bus : PMGR_Bus) (s : PMGR_State) :
    SB_Error × PMGR_State :=
  let s := { s with
    ioexpanderDevice := { s.ioexpanderDevice with configuration := cfg.tca9554aConfiguration } }
  let s := { s with trace := s.trace ++ [PMGR_Event.ioexpanderConfig] }
  (bus.ioexpanderConfig, s)

/-- Modelled from the spec: `hdc1050_startTempHumidityConversion` is in
`Devices/hdc1050.c`, not in the sources.  It issues the start command of the
"start conversion, ready after fixed delay" device and returns its result. -/
def hdc1050_startTempHumidityConversion (bus : PMGR_Bus) (s : PMGR_State) :
    SB_Error × PMGR_State :=
  (bus.startConversion, { s with trace := s.trace ++ [PMGR_Event.startConversion] })

/-- Modelled from the spec: `hdc1050_readTempHumidity` is in
`Devices/hdc1050.c`, not in the sources.  It issues the follow-up read
command and returns its result; on success the device record holds the
values read. -/
def hdc1050_readTempHumidity (bus : PMGR_Bus) (s : PMGR_State) : SB_Error × PMGR_State :=
  let s := { s with trace := s.trace ++ [PMGR_Event.humidityRead] }
  if bus.humidityRead = SB_Error.NoError then
    (bus.humidityRead,
      { s with
        hdc1050Device :=
          { s.hdc1050Device with
            humidity := bus.humidity, temperature := bus.humidityTemperature } })
  else (bus.humidityRead, s)

/-- Modelled from the spec: `tca9554a_setPinStatus` is in
`Devices/tca9554a.c`, not in the sources.  It asserts or de-asserts the
per-device enable line through the IO expander and returns the result. -/
def tca9554a_setPinStatus (bus : PMGR_Bus) (pin : PMGR_Pin) (status : Bool)
    (s : PMGR_State) :
    SB_Error × PMGR_State :=
  (bus.pinStatus, { s with trace := s.trace ++ [PMGR_Event.setPinStatus pin status] })

/-- The body of the temperature sensor loop of `initPeripherals`
(peripheralManager.c:202-223) for device `i`. -/
def initPeripherals_mcp9808 (cfg : PMGR_Config) (bus : PMGR_Bus) (i : Nat) (s : PMGR_State) :
    PMGR_State :=
  if (s.mcp9808DeviceStates i).currentState ≠ PState.PState_Failed then
    let s := { s with
      mcp9808Devices := Function.update s.mcp9808Devices i
        { s.mcp9808Devices i with Address := cfg.Mcp9808Addresses i } }
    let r := applyTempSensorConfiguration cfg bus i s
    let s := { r.2 with
      mcp9808DeviceStates := Function.update r.2.mcp9808DeviceStates i
        { r.2.mcp9808DeviceStates i with lastError := r.1 } }
    if SB_Error.NoError = (s.mcp9808DeviceStates i).lastError then
      { s with
        mcp9808DeviceStates := Function.update s.mcp9808DeviceStates i
          { s.mcp9808DeviceStates i with currentState := PState.PState_OK } }
    else
      let s := { s with
        mcp9808DeviceStates := Function.update s.mcp9808DeviceStates i
          { s.mcp9808DeviceStates i with currentState := PState.PState_Intermittent } }
      let s := { s with
        mcp9808DeviceStates := Function.update s.mcp9808DeviceStates i
          { s.mcp9808DeviceStates i with
            numReadAttempts := (s.mcp9808DeviceStates i).numReadAttempts + 1 } }
      if (s.mcp9808DeviceStates i).numReadAttempts > cfg.PERIPHERAL_MAX_READ_ATTEMPTS then
        { s with
          mcp9808DeviceStates := Function.update s.mcp9808DeviceStates i
            { s.mcp9808DeviceStates i with currentState := PState.PState_Failed } }
      else s
  else s

/-- The humidity sensor part of `initPeripherals` (peripheralManager.c:228-258):
configuration, then the start of the conversion. -/
def initPeripherals_hdc1050 (cfg : PMGR_Config) (bus : PMGR_Bus) (s : PMGR_State) :
    PMGR_State :=
  let s := { s with
    hdc1050Device := { s.hdc1050Device with address := cfg.HDC1050_I2C_ADDRESS } }
  let r := applyHumiditySensorConfiguration cfg bus s
  let s := { r.2 with hdc1050DeviceState := { r.2.hdc1050DeviceState with lastError := r.1 } }
  let s :=
    if s.hdc1050DeviceState.lastError = SB_Error.NoError then
      { s with
        hdc1050DeviceState :=
          { s.hdc1050DeviceState with currentState := PState.PState_OK } }
    else
      { s with
        hdc1050DeviceState :=
          { s.hdc1050DeviceState with currentState := PState.PState_FailedConfig } }
  let r := hdc1050_startTempHumidityConversion bus s
  let s := { r.2 with hdc1050DeviceState := { r.2.hdc1050DeviceState with lastError := r.1 } }
  if s.hdc1050DeviceState.lastError = SB_Error.NoError then
    { s with
      hdc1050Device :=
        { s.hdc1050Device with
          readReadyTime := cfg.HDC1050_READ_WAIT_TICKS + bus.ticksAtStart } }
  else
    let s := { s with
      hdc1050DeviceState :=
        { s.hdc1050DeviceState with
          numReadAttempts := s.hdc1050DeviceState.numReadAttempts + 1 } }
    if s.hdc1050DeviceState.numReadAttempts > cfg.PERIPHERAL_MAX_READ_ATTEMPTS then
      { s with
        hdc1050DeviceState :=
          { s.hdc1050DeviceState with currentState := PState.PState_Failed } }
    else s

/-- `initPeripherals` (peripheralManager.c:180-261). -/
def initPeripherals (cfg : PMGR_Config) (bus : PMGR_Bus) (s : PMGR_State) :
    SB_Error × PMGR_State :=
  let sensors (s : PMGR_State) : SB_Error × PMGR_State :=
    let s := forLoop (initPeripherals_mcp9808 cfg bus) cfg.SB_NUM_MCP9808_SENSORS s
    let s := initPeripherals_hdc1050 cfg bus s
    (SB_Error.NoError, s)
  if cfg.IOEXPANDER_PRESENT then
    let s := { s with
      ioexpanderDevice := { s.ioexpanderDevice with address := cfg.I2C_DBGIOEXP_ADDR } }
    let r := applyIOExpanderConfiguration cfg bus s
    let s := { r.2 with
      ioexpanderDeviceState := { r.2.ioexpanderDeviceState with lastError := r.1 } }
    if SB_Error.NoError = s.ioexpanderDeviceState.lastError then
      sensors
        { s with
          ioexpanderDeviceState :=
            { s.ioexpanderDeviceState with currentState := PState.PState_OK } }
    else
      let s := { s with
        ioexpanderDeviceState :=
          { s.ioexpanderDeviceState with currentState := PState.PState_FailedConfig } }
      (s.ioexpanderDeviceState.lastError, s)
  else sensors s

/-- The expression `0x0FFF & ((rxBuf[0] << 8) | (rxBuf[1]))` of
peripheralManager.c:314 on the two received bytes. -/
def readSensorData_decode (rx0 rx1 : Nat) : Nat :=
  0x0FFF &&& ((rx0 <<< 8) ||| rx1)

/-- The body of the temperature sensor loop of `readSensorData`
(peripheralManager.c:283-336) for device `i`; `rxBuf` holds bytes. -/
def readSensorData_mcp9808 (cfg : PMGR_Config) (bus : PMGR_Bus) (i : Nat) (s : PMGR_State) :
    PMGR_State :=
  if (s.mcp9808DeviceStates i).currentState = PState.PState_OK ∨
      (s.mcp9808DeviceStates i).currentState = PState.PState_Intermittent then
    let s :=
      if cfg.LAUNCHPAD then s
      else (tca9554a_setPinStatus bus (PMGR_Pin.IOEXP_I2CSTATUS_PIN_TEMP i) true s).2
    let s := { s with trace := s.trace ++ [PMGR_Event.tempRead i] }
    let s :=
      if cfg.LAUNCHPAD then s
      else (tca9554a_setPinStatus bus (PMGR_Pin.IOEXP_I2CSTATUS_PIN_TEMP i) false s).2
    if bus.tempRead i = SB_Error.NoError then
      let s := { s with
        mcp9808Devices := Function.update s.mcp9808Devices i
          { s.mcp9808Devices i with
            Temperature :=
              readSensorData_decode ((bus.rxBuf i).1 % 256) ((bus.rxBuf i).2 % 256) } }
      { s with
        trace := s.trace ++
          [PMGR_Event.publish SB_Characteristic.SB_CHARACTERISTIC_TEMPERATURE
            (s.mcp9808Devices i).Temperature i] }
    else
      let s := { s with
        mcp9808DeviceStates := Function.update s.mcp9808DeviceStates i
          { s.mcp9808DeviceStates i with currentState := PState.PState_Intermittent } }
      let s := { s with
        mcp9808DeviceStates := Function.update s.mcp9808DeviceStates i
          { s.mcp9808DeviceStates i with
            numReadAttempts := (s.mcp9808DeviceStates i).numReadAttempts + 1 } }
      if (s.mcp9808DeviceStates i).numReadAttempts > cfg.PERIPHERAL_MAX_READ_ATTEMPTS then
        { s with
          mcp9808DeviceStates := Function.update s.mcp9808DeviceStates i
            { s.mcp9808DeviceStates i with currentState := PState.PState_Failed } }
      else s
  else s

/-- The humidity sensor part of `readSensorData` (peripheralManager.c:343-393). -/
def readSensorData_hdc1050 (cfg : PMGR_Config) (bus : PMGR_Bus) (s : PMGR_State) :
    PMGR_State :=
  if s.hdc1050DeviceState.currentState = PState.PState_OK ∨
      s.hdc1050DeviceState.currentState = PState.PState_Intermittent then
    let currentTime := bus.ticksAtRead
    let s :=
      if s.hdc1050Device.readReadyTime > currentTime then
        { s with
          trace := s.trace ++ [PMGR_Event.sleep (s.hdc1050Device.readReadyTime - currentTime)] }
      else s
    let s :=
      if cfg.LAUNCHPAD then s
      else (tca9554a_setPinStatus bus PMGR_Pin.IOEXP_I2CSTATUS_PIN_HUMIDITY true s).2
    let r := hdc1050_readTempHumidity bus s
    let s := { r.2 with hdc1050DeviceState := { r.2.hdc1050DeviceState with lastError := r.1 } }
    let s :=
      if s.hdc1050DeviceState.lastError = SB_Error.NoError then
        let s := { s with
          trace := s.trace ++
            [PMGR_Event.publish SB_Characteristic.SB_CHARACTERISTIC_HUMIDITY
              s.hdc1050Device.humidity 0] }
        { s with
          trace := s.trace ++
            [PMGR_Event.publish SB_Characteristic.SB_CHARACTERISTIC_TEMPERATURE
              s.hdc1050Device.temperature 3] }
      else
        let s := { s with
          hdc1050DeviceState :=
            { s.hdc1050DeviceState with
              numReadAttempts := s.hdc1050DeviceState.numReadAttempts + 1 } }
        if s.hdc1050DeviceState.numReadAttempts > cfg.PERIPHERAL_MAX_READ_ATTEMPTS then
          { s with
            hdc1050DeviceState :=
              { s.hdc1050DeviceState with currentState := PState.PState_Failed } }
        else s
    if cfg.LAUNCHPAD then s
    else (tca9554a_setPinStatus bus PMGR_Pin.IOEXP_I2CSTATUS_PIN_HUMIDITY false s).2
  else s

/-- `readSensorData` (peripheralManager.c:263-396). -/
def readSensorData (cfg : PMGR_Config) (bus : PMGR_Bus) (s : PMGR_State) :
    SB_Error × PMGR_State :=
  let s := forLoop (readSensorData_mcp9808 cfg bus) cfg.SB_NUM_MCP9808_SENSORS s
  let s := readSensorData_hdc1050 cfg bus s
  (SB_Error.NoError, s)

/-- `SB_setPeripheralsEnable` (peripheralManager.c:557-569): one call of
`PIN_setOutputValue` on the peripheral power pin; `pinOk` tells whether it
reports `PIN_SUCCESS`. -/
def SB_setPeripheralsEnable (pinOk : Bool) (enable : Bool) (s : PMGR_State) :
    SB_Error × PMGR_State :=
  let s := { s with trace := s.trace ++ [PMGR_Event.power (enable != false)] }
  if pinOk then (SB_Error.NoError, s) else (SB_Error.UnknownError, s)

/-- What the environment answers during one pass of the loop of
`SB_peripheralManagerTask`: the results of the two writes to the power pin,
and the answers of bus and clock in the configuration and in the read phase. -/
structure PMGR_Cycle where
  enableOk : Bool
  initBus : PMGR_Bus
  readBus : PMGR_Bus
  disableOk : Bool

/-- One pass of the `while (1)` loop of `SB_peripheralManagerTask`
(peripheralManager.c:423-446).  `SB_DEBUG` tells whether the debug build is
compiled, which sleeps `NTICKS_PER_MILLSECOND` ticks before the power is
switched off (lines 437-440); the return values of the four calls are
discarded. -/
def SB_peripheralManagerTask_iteration (cfg : PMGR_Config) (SB_DEBUG : Bool)
    (NTICKS_PER_MILLSECOND : Nat) (s : PMGR_State) (c : PMGR_Cycle) : PMGR_State :=
  let s := (SB_setPeripheralsEnable c.enableOk true s).2
  let s := (initPeripherals cfg c.initBus s).2
  let s := (readSensorData cfg c.readBus s).2
  let s :=
    if SB_DEBUG then { s with trace := s.trace ++ [PMGR_Event.sleep NTICKS_PER_MILLSECOND] }
    else s
  let s := (SB_setPeripheralsEnable c.disableOk false s).2
  { s with trace := s.trace ++ [PMGR_Event.sleep 100000] }

/-- `SB_peripheralManagerTask` (peripheralManager.c:398-447): the state when
the task has made the passes of its loop that `cycles` lists, or, when the
start-up call of `initPeripherals` (line 406) returns an error, the state in
which the task exits. -/
def SB_peripheralManagerTask (cfg : PMGR_Config) (SB_DEBUG : Bool)
    (NTICKS_PER_MILLSECOND : Nat) (startBus : PMGR_Bus) (cycles : List PMGR_Cycle)
    (s : PMGR_State) : PMGR_State :=
  let r := initPeripherals cfg startBus s
  if SB_Error.NoError ≠ r.1 then r.2
  else cycles.foldl (SB_peripheralManagerTask_iteration cfg SB_DEBUG NTICKS_PER_MILLSECOND) r.2

/-- The calls made between state `s` and a later state `s'`. -/
def traceSince (s s' : PMGR_State) : List PMGR_Event :=
  s'.trace.drop s.trace.length

/-- Whether a call is a transaction on the bus or a pin change of the IO
expander, that is, a call to a powered peripheral. -/
def isDeviceCall : PMGR_Event → Bool
  | PMGR_Event.publish _ _ _ => false
  | PMGR_Event.sleep _ => false
  | PMGR_Event.power _ => false
  | _ => true

/-- Whether a call belongs to a configuration phase. -/
def isConfigCall : PMGR_Event → Bool
  | PMGR_Event.ioexpanderConfig => true
  | PMGR_Event.tempConfig _ => true
  | PMGR_Event.tempResolution _ => true
  | PMGR_Event.humidityConfig => true
  | PMGR_Event.startConversion => true
  | _ => false

/-- Whether a call belongs to a read phase. -/
def isReadCall : PMGR_Event → Bool
  | PMGR_Event.setPinStatus _ _ => true
  | PMGR_Event.tempRead _ => true
  | PMGR_Event.humidityRead => true
  | PMGR_Event.publish _ _ _ => true
  | PMGR_Event.sleep _ => true
  | _ => false

/-- Whether a call is one that a read phase makes besides its sleep and the
read of the humidity sensor: a pin change of the IO expander, the read of a
temperature sensor, or a telemetry call. -/
def isOtherReadCall : PMGR_Event → Bool
  | PMGR_Event.setPinStatus _ _ => true
  | PMGR_Event.tempRead _ => true
  | PMGR_Event.publish _ _ _ => true
  | _ => false

/-- Whether a call is a sleep. -/
def isSleep : PMGR_Event → Bool
  | PMGR_Event.sleep _ => true
  | _ => false

/-- Whether peripheral power is enabled after the calls of a trace, when it
was `enabled` before them: the argument of the last call of
`SB_setPeripheralsEnable`. -/
def powerAfter (enabled : Bool) : List PMGR_Event → Bool
  | [] => enabled
  | PMGR_Event.power enable :: rest => powerAfter enable rest
  | _ :: rest => powerAfter enabled rest

/-- Whether every call to a peripheral in a trace comes after a call
`SB_setPeripheralsEnable(true)` with no `SB_setPeripheralsEnable(false)` in
between, when power was `enabled` before the trace. -/
def poweredCalls (enabled : Bool) : List PMGR_Event → Bool
  | [] => true
  | PMGR_Event.power enable :: rest => poweredCalls enable rest
  | e :: rest => (!isDeviceCall e || enabled) && poweredCalls enabled rest

/-- The ticks slept in a trace. -/
def ticksSlept : List PMGR_Event → Nat
  | [] => 0
  | PMGR_Event.sleep ticks :: rest => ticks + ticksSlept rest
  | _ :: rest => ticksSlept rest

/-- The multiplexer half of `PMGR`: the arbiter semaphore, the one-shot
`sysdisblClock` (`none` when stopped, `some d` when running with expiry at
tick `d`), the system tick count, the port writes made on `MUXPins` in call
order, and whether `CONN_STATE_RD` was reconfigured as a low current sink. -/
structure MUX_State where
  muxSemaphore : Option Nat
  sysdisblClock : Option Nat
  ticks : Nat
  portWrites : List SB_MUXState
  connStateSink : Bool
  deriving DecidableEq, Repr

/-- What the system calls of `SB_peripheralInit` answer. -/
structure PMGR_InitEnv where
  powerPin : Bool
  muxPins : Bool
  analogPins : Bool
  muxSemaphore : Bool
  sysdisblClock : Bool
  taskCreate : Bool
  deriving DecidableEq, Repr

/-- `SB_peripheralInit` (peripheralManager.c:449-552) on the multiplexer half;
the creation of `PMGR.i2cDeviceSem`, whose result the function does not look
at, lies outside it.  The clock is constructed stopped. -/
def SB_peripheralInit (st : MUX_State) (env : PMGR_InitEnv) : SB_Error × MUX_State :=
  if env.powerPin = false then (SB_Error.OSResourceInitializationError, st)
  else if env.muxPins = false then (SB_Error.OSResourceInitializationError, st)
  else if env.analogPins = false then (SB_Error.OSResourceInitializationError, st)
  else
    let st := { st with muxSemaphore := Semaphore_create env.muxSemaphore 1 }
    if env.sysdisblClock = false then (SB_Error.OSResourceInitializationError, st)
    else
      let st := { st with sysdisblClock := none }
      if env.taskCreate = false then (SB_Error.OSResourceInitializationError, st)
      else (SB_Error.NoError, st)

/-- `_applyFullMuxState` (peripheralManager.c:590-613): one call of
`PIN_setPortOutputValue` with the port value of `muxState`; `pinOk` tells
whether it reports `PIN_SUCCESS`. -/
def _applyFullMuxState (st : MUX_State) (muxState : SB_MUXState) (pinOk : Bool) :
    SB_Error × MUX_State :=
  let st := { st with portWrites := st.portWrites ++ [muxState] }
  if pinOk then (SB_Error.NoError, st) else (SB_Error.UnknownError, st)

/-- `applyFullMuxState` (peripheralManager.c:574-584).  The first component
is the value returned, `none` when the call does not return. -/
def applyFullMuxState (st : MUX_State) (muxState : SB_MUXState) (timeout : Nat)
    (pinOk : Bool) : Option SB_Error × MUX_State :=
  match Semaphore_pend st.muxSemaphore timeout with
  | none => (none, st)
  | some (false, sem) => (some SB_Error.SemaphorePendTimeout, { st with muxSemaphore := sem })
  | some (true, sem) =>
    let st := { st with muxSemaphore := sem }
    let r := _applyFullMuxState st muxState pinOk
    match Semaphore_post r.2.muxSemaphore with
    | none => (none, r.2)
    | some sem => (some r.1, { r.2 with muxSemaphore := sem })

/-- `SB_sysDisableRefresh` (peripheralManager.c:620-642).  `Util_startClock`
starts the one-shot clock, which then expires `SYSDSBL_REFRESH_CLOCK_PERIOD`
ticks after the current tick. -/
def SB_sysDisableRefresh (cfg : PMGR_Config) (st : MUX_State) (semaphoreTimeout : Nat)
    (pinOk : Bool) : Option SB_Error × MUX_State :=
  let refreshState : SB_MUXState :=
    { iomuxOutput := cfg.Board_IOMUX_SYSDISBL_N
      pwrmuxOutput := cfg.Board_PWRMUX_PERIPHERAL_VCC
      pwrmuxOutputEnable := cfg.MUX_ENABLE }
  match Semaphore_pend st.muxSemaphore semaphoreTimeout with
  | none => (none, st)
  | some (false, sem) => (some SB_Error.UnknownError, { st with muxSemaphore := sem })
  | some (true, sem) =>
    let st := { st with muxSemaphore := sem }
    let r := _applyFullMuxState st refreshState pinOk
    if r.1 ≠ SB_Error.NoError then
      match Semaphore_post r.2.muxSemaphore with
      | none => (none, r.2)
      | some sem => (some r.1, { r.2 with muxSemaphore := sem })
    else
      (some SB_Error.NoError,
        { r.2 with sysdisblClock := some (r.2.ticks + cfg.SYSDSBL_REFRESH_CLOCK_PERIOD) })

/-- `SB_sysdisblClockHandler` (peripheralManager.c:644-646); `none` on a
`NULL` semaphore handle. -/
def SB_sysdisblClockHandler (st : MUX_State) : Option MUX_State :=
  match Semaphore_post st.muxSemaphore with
  | none => none
  | some sem => some { st with muxSemaphore := sem }

/-- `SB_sysDisableShutdown` (peripheralManager.c:651-685).  After a successful
port write the function reconfigures `CONN_STATE_RD` and enters `while (1)`:
it does not return. -/
def SB_sysDisableShutdown (cfg : PMGR_Config) (st : MUX_State) (pinOk : Bool) :
    Option SB_Error × MUX_State :=
  let shutdownState : SB_MUXState :=
    { iomuxOutput := cfg.Board_IOMUX_SYSDISBL_N
      pwrmuxOutput := cfg.Board_PWRMUX_PERIPHERAL_VCC
      pwrmuxOutputEnable := cfg.MUX_DISABLE }
  match Semaphore_pend st.muxSemaphore BIOS_WAIT_FOREVER with
  | none => (none, st)
  | some (false, sem) => (some SB_Error.UnknownError, { st with muxSemaphore := sem })
  | some (true, sem) =>
    let st := { st with muxSemaphore := sem }
    let r := _applyFullMuxState st shutdownState pinOk
    if r.1 ≠ SB_Error.NoError then
      match Semaphore_post r.2.muxSemaphore with
      | none => (none, r.2)
      | some sem => (some r.1, { r.2 with muxSemaphore := sem })
    else
      (none, { r.2 with connStateSink := true })

/-- The atomic steps of the arbiter: a call of one of its three operations,
the passing of one tick, and the expiry of `sysdisblClock`. -/
inductive MUX_Step
  | apply (muxState : SB_MUXState) (timeout : Nat) (pinOk : Bool)
  | refresh (semaphoreTimeout : Nat) (pinOk : Bool)
  | shutdown (pinOk : Bool)
  | tick
  | expire
  deriving DecidableEq, Repr

/-- Modelled from the spec: the clock module is not part of the sources.  A
one-shot timer armed for a fixed settle period runs its expiry function once,
not before that period has elapsed, and is stopped afterwards. -/
def MUX_expire (st : MUX_State) : Option MUX_State :=
  match st.sysdisblClock with
  | none => none
  | some d =>
    if d ≤ st.ticks then SB_sysdisblClockHandler { st with sysdisblClock := none } else none

/-- The state after one step of the arbiter; `none` when the step is not
possible in `st`.  A call that does not return leaves the state it reached. -/
def MUX_step (cfg : PMGR_Config) (st : MUX_State) : MUX_Step → Option MUX_State
  | MUX_Step.apply muxState timeout pinOk => some (applyFullMuxState st muxState timeout pinOk).2
  | MUX_Step.refresh semaphoreTimeout pinOk =>
    some (SB_sysDisableRefresh cfg st semaphoreTimeout pinOk).2
  | MUX_Step.shutdown pinOk => some (SB_sysDisableShutdown cfg st pinOk).2
  | MUX_Step.tick => some { st with ticks := st.ticks + 1 }
  | MUX_Step.expire => MUX_expire st

/-- The state after a sequence of steps of the arbiter. -/
def MUX_run (cfg : PMGR_Config) (st : MUX_State) : List MUX_Step → Option MUX_State
  | [] => some st
  | step :: rest =>
    match MUX_step cfg st step with
    | none => none
    | some st => MUX_run cfg st rest

/-- A failed result at one of the two places that talk to temperature sensor
`i`: its configuration in `initPeripherals` or its read in `readSensorData`. -/
inductive TempSite
  | configuration
  | read
  deriving DecidableEq, Repr

/-- One pass of the loop body of the given place for temperature sensor `i`,
with the bus answers of that pass. -/
def tempAttempt (cfg : PMGR_Config) (i : Nat) (s : PMGR_State) (a : TempSite × PMGR_Bus) :
    PMGR_State :=
  match a.1 with
  | TempSite.configuration => initPeripherals_mcp9808 cfg a.2 i s
  | TempSite.read => readSensorData_mcp9808 cfg a.2 i s

/-- The transaction of the pass for temperature sensor `i` completes with an
error. -/
def tempAttemptFails (i : Nat) (a : TempSite × PMGR_Bus) : Prop :=
  match a.1 with
  | TempSite.configuration => a.2.tempConfig i ≠ SB_Error.NoError
  | TempSite.read => a.2.tempRead i ≠ SB_Error.NoError

/-- The health update written at a failed temperature read
(peripheralManager.c:322-324), on the record alone. -/
def tempReadFailure (cfg : PMGR_Config) (p : SB_PeripheralState) : SB_PeripheralState :=
  let p := { p with currentState := PState.PState_Intermittent }
  let p := { p with numReadAttempts := p.numReadAttempts + 1 }
  if p.numReadAttempts > cfg.PERIPHERAL_MAX_READ_ATTEMPTS then
    { p with currentState := PState.PState_Failed }
  else p

/-- The health update written at a failed temperature configuration
(peripheralManager.c:209-211), on the record alone. -/
def tempConfigFailure (cfg : PMGR_Config) (p : SB_PeripheralState) : SB_PeripheralState :=
  let p := { p with currentState := PState.PState_Intermittent }
  let p := { p with numReadAttempts := p.numReadAttempts + 1 }
  if p.numReadAttempts > cfg.PERIPHERAL_MAX_READ_ATTEMPTS then
    { p with currentState := PState.PState_Failed }
  else p

/-- The health update written at a failed humidity read
(peripheralManager.c:372-373), on the record alone. -/
def humidityReadFailure (cfg : PMGR_Config) (p : SB_PeripheralState) : SB_PeripheralState :=
  let p := { p with numReadAttempts := p.numReadAttempts + 1 }
  if p.numReadAttempts > cfg.PERIPHERAL_MAX_READ_ATTEMPTS then
    { p with currentState := PState.PState_Failed }
  else p

/-- Whether an event is a telemetry call on the temperature channel with
device index `i`. -/
def isTemperaturePublish (i : Nat) : PMGR_Event → Bool
  | PMGR_Event.publish SB_Characteristic.SB_CHARACTERISTIC_TEMPERATURE _ index => index == i
  | _ => false

/-- Sample constants: three temperature sensors, threshold `2`, IO expander
present. -/
def sampleCfg : PMGR_Config :=
  { IOEXPANDER_PRESENT := true, LAUNCHPAD := false, SB_NUM_MCP9808_SENSORS := 3,
    PERIPHERAL_MAX_READ_ATTEMPTS := 2, Mcp9808Addresses := fun i => 0x18 + i,
    HDC1050_I2C_ADDRESS := 0x40, I2C_DBGIOEXP_ADDR := 0x38, HDC1050_READ_WAIT_TICKS := 650,
    SYSDSBL_REFRESH_CLOCK_PERIOD := 15, mcp9808Configuration := 0x0002,
    MCP9808_RESOLUTION_0P0625 := 3, hdc1050Configuration := 0x1000,
    tca9554aConfiguration := 0x03, Board_IOMUX_SYSDISBL_N := 5,
    Board_PWRMUX_PERIPHERAL_VCC := 0, MUX_ENABLE := 0, MUX_DISABLE := 1 }

/-- Sample answers: every transaction completes with `NoError` and every
temperature sensor returns the fixture bytes `0x0B, 0x90`. -/
def sampleBus : PMGR_Bus :=
  { ioexpanderConfig := SB_Error.NoError, tempConfig := fun _ => SB_Error.NoError,
    tempResolution := fun _ => SB_Error.NoError, humidityConfig := SB_Error.NoError,
    startConversion := SB_Error.NoError, ticksAtStart := 1000,
    tempRead := fun _ => SB_Error.NoError, rxBuf := fun _ => (0x0B, 0x90),
    ticksAtRead := 1200, humidityRead := SB_Error.NoError, humidity := 0x8000,
    humidityTemperature := 0x6000, pinStatus := SB_Error.NoError }

/-- Sample answers in which every transaction to a sensor completes with
`UnknownError`. -/
def failingBus : PMGR_Bus :=
  { sampleBus with
    tempConfig := fun _ => SB_Error.UnknownError, humidityConfig := SB_Error.UnknownError,
    startConversion := SB_Error.UnknownError, tempRead := fun _ => SB_Error.UnknownError,
    humidityRead := SB_Error.UnknownError }

/-- A manager state in which every device is `PState_OK` with attempt counter
`0` and nothing has been called yet. -/
def samplePMGR : PMGR_State :=
  { mcp9808Devices := fun _ =>
      { Address := 0, Configuration := 0, Resolution := 0, Temperature := 0 }
    mcp9808DeviceStates := fun _ =>
      { currentState := PState.PState_OK, numReadAttempts := 0, lastError := SB_Error.NoError }
    hdc1050Device :=
      { address := 0, configuration := 0, readReadyTime := 0, humidity := 0, temperature := 0 }
    hdc1050DeviceState :=
      { currentState := PState.PState_OK, numReadAttempts := 0, lastError := SB_Error.NoError }
    ioexpanderDevice := { address := 0, configuration := 0 }
    ioexpanderDeviceState :=
      { currentState := PState.PState_OK, numReadAttempts := 0, lastError := SB_Error.NoError }
    trace := [] }

/-- Every system call of `SB_peripheralInit` succeeds. -/
def pmgrInitEnvOk : PMGR_InitEnv :=
  { powerPin := true, muxPins := true, analogPins := true, muxSemaphore := true,
    sysdisblClock := true, taskCreate := true }

/-- The multiplexer half at start-up, at tick `100`. -/
def bootMux : MUX_State :=
  { muxSemaphore := none, sysdisblClock := none, ticks := 100, portWrites := [],
    connStateSink := false }

/-- The multiplexer half after a successful `SB_peripheralInit`. -/
def readyMux : MUX_State :=
  { bootMux with muxSemaphore := some 1 }

/-- A multiplexer state to apply. -/
def sampleMuxState : SB_MUXState :=
  { iomuxOutput := 2, pwrmuxOutput := 1, pwrmuxOutputEnable := 0 }

/-- Whether a call is addressed to temperature sensor `i`: one of its
transactions or a change of its enable line. -/
def tempEvent (i : Nat) : PMGR_Event → Bool
  | PMGR_Event.tempConfig j => j == i
  | PMGR_Event.tempResolution j => j == i
  | PMGR_Event.tempRead j => j == i
  | PMGR_Event.setPinStatus (PMGR_Pin.IOEXP_I2CSTATUS_PIN_TEMP j) _ => j == i
  | _ => false

/-- Whether a call is a transaction addressed to the humidity sensor. -/
def hdcEvent : PMGR_Event → Bool
  | PMGR_Event.humidityConfig => true
  | PMGR_Event.startConversion => true
  | PMGR_Event.humidityRead => true
  | _ => false

/-- What the manager holds about temperature sensor `i`: its device record,
its health record, and the calls addressed to it so far. -/
def tempView (i : Nat) (s : PMGR_State) : MCP9808_DEVICE × SB_PeripheralState × List PMGR_Event :=
  (s.mcp9808Devices i, s.mcp9808DeviceStates i, s.trace.filter (tempEvent i))

/-- The records of temperature sensor `i` and the telemetry calls made so far
on the temperature channel with index `i`. -/
def pubView (i : Nat) (s : PMGR_State) : MCP9808_DEVICE × SB_PeripheralState × List PMGR_Event :=
  (s.mcp9808Devices i, s.mcp9808DeviceStates i, s.trace.filter (isTemperaturePublish i))

/-- What the manager holds about the humidity sensor: its device record, its
health record, and the transactions addressed to it so far. -/
def hdcView (s : PMGR_State) : HDC1050_DEVICE × SB_PeripheralState × List PMGR_Event :=
  (s.hdc1050Device, s.hdc1050DeviceState, s.trace.filter hdcEvent)

/-- The escalation rule in the words of the spec's data model, with threshold
`N` and the counter read before the failure is counted: a failure while the
counter is below `N` gives `Intermittent`, a failure when the counter has
reached `N` gives `Failed`. -/
def specEscalation (N : Nat) (p : SB_PeripheralState) : SB_PeripheralState :=
  if p.numReadAttempts < N then
    { p with currentState := PState.PState_Intermittent, numReadAttempts := p.numReadAttempts + 1 }
  else
    { p with currentState := PState.PState_Failed, numReadAttempts := p.numReadAttempts + 1 }

/-- The sample state with the humidity sensor `PState_Failed`. -/
def failedHumidity : PMGR_State :=
  { samplePMGR with
    hdc1050DeviceState :=
      { currentState := PState.PState_Failed, numReadAttempts := 3,
        lastError := SB_Error.UnknownError } }

/-- The state `readyState` with one queued entry, for the transaction at
address `2`, whose base transaction pointer is null. -/
def malformedState : I2C_State :=
  { readyState with
    i2cQueue := [{ transaction := some 2 }], i2cDataAvailSem := some 1 }

/-- The number of successful pends on the arbiter lock in one step: each of
the three operations pends once (peripheralManager.c:576, 625, 656). -/
def MUX_acquires (st : MUX_State) : MUX_Step → Nat
  | MUX_Step.apply _ timeout _ =>
    match Semaphore_pend st.muxSemaphore timeout with
    | some (true, _) => 1
    | _ => 0
  | MUX_Step.refresh semaphoreTimeout _ =>
    match Semaphore_pend st.muxSemaphore semaphoreTimeout with
    | some (true, _) => 1
    | _ => 0
  | MUX_Step.shutdown _ =>
    match Semaphore_pend st.muxSemaphore BIOS_WAIT_FOREVER with
    | some (true, _) => 1
    | _ => 0
  | MUX_Step.tick => 0
  | MUX_Step.expire => 0

/-- The number of posts to the arbiter lock in one step: `applyFullMuxState`
posts after its write (peripheralManager.c:581), `SB_sysDisableRefresh` and
`SB_sysDisableShutdown` post only when their write failed (lines 633, 668),
and the expiry of the clock runs `SB_sysdisblClockHandler`, which posts
(line 645). -/
def MUX_releases (st : MUX_State) : MUX_Step → Nat
  | MUX_Step.apply _ timeout _ =>
    match Semaphore_pend st.muxSemaphore timeout with
    | some (true, sem) => if Semaphore_post sem = none then 0 else 1
    | _ => 0
  | MUX_Step.refresh semaphoreTimeout pinOk =>
    match Semaphore_pend st.muxSemaphore semaphoreTimeout with
    | some (true, sem) => if pinOk then 0 else if Semaphore_post sem = none then 0 else 1
    | _ => 0
  | MUX_Step.shutdown pinOk =>
    match Semaphore_pend st.muxSemaphore BIOS_WAIT_FOREVER with
    | some (true, sem) => if pinOk then 0 else if Semaphore_post sem = none then 0 else 1
    | _ => 0
  | MUX_Step.tick => 0
  | MUX_Step.expire => if MUX_expire st = none then 0 else 1

/-- The number of successful pends on the arbiter lock along a run. -/
def MUX_acquired (cfg : PMGR_Config) (st : MUX_State) : List MUX_Step → Nat
  | [] => 0
  | step :: rest =>
    match MUX_step cfg st step with
    | none => 0
    | some st' => MUX_acquires st step + MUX_acquired cfg st' rest

/-- The number of posts to the arbiter lock along a run. -/
def MUX_released (cfg : PMGR_Config) (st : MUX_State) : List MUX_Step → Nat
  | [] => 0
  | step :: rest =>
    match MUX_step cfg st step with
    | none => 0
    | some st' => MUX_releases st step + MUX_released cfg st' rest

/-- A run of the arbiter: a refresh, an attempt to apply a state while the
settle period runs, fifteen ticks, the expiry of the clock, and a shutdown. -/
def sampleMuxRun : List MUX_Step :=
  [MUX_Step.refresh 10 true, MUX_Step.apply sampleMuxState 10 true] ++
    List.replicate 15 MUX_Step.tick ++ [MUX_Step.expire, MUX_Step.shutdown true]

/-- The state that `sampleMuxRun` reaches from `readyMux`. -/
def shutMux : MUX_State :=
  { muxSemaphore := some 0, sysdisblClock := none, ticks := 115,
    portWrites :=
      [{ iomuxOutput := sampleCfg.Board_IOMUX_SYSDISBL_N
         pwrmuxOutput := sampleCfg.Board_PWRMUX_PERIPHERAL_VCC
         pwrmuxOutputEnable := sampleCfg.MUX_ENABLE },
       { iomuxOutput := sampleCfg.Board_IOMUX_SYSDISBL_N
         pwrmuxOutput := sampleCfg.Board_PWRMUX_PERIPHERAL_VCC
         pwrmuxOutputEnable := sampleCfg.MUX_DISABLE }],
    connStateSink := true }

/-- A pass of the loop in which every call succeeds. -/
def sampleCycle : PMGR_Cycle :=
  { enableOk := true, initBus := sampleBus, readBus := sampleBus, disableOk := true }

/-! ## Semaphores -/

@[simp] theorem Semaphore_pend_null (timeout : Nat) : Semaphore_pend none timeout = none := rfl

@[simp] theorem Semaphore_pend_succ (c timeout : Nat) :
    Semaphore_pend (some (c + 1)) timeout = some (true, some c) := rfl

@[simp] theorem Semaphore_pend_zero (timeout : Nat) :
    Semaphore_pend (some 0) timeout
      = if timeout = BIOS_WAIT_FOREVER then none else some (false, some 0) := rfl

@[simp] theorem Semaphore_post_null : Semaphore_post none = none := rfl

@[simp] theorem Semaphore_post_some (c : Nat) :
    Semaphore_post (some c) = some (some (c + 1)) := rfl

/-- A pend answers `true` exactly on a live semaphore with a positive count,
which it lowers by one. -/
theorem Semaphore_pend_true {sem sem' : Option Nat} {timeout : Nat}
    (h : Semaphore_pend sem timeout = some (true, sem')) :
    ∃ c, sem = some (c + 1) ∧ sem' = some c := by
  cases sem with
  | none => simp at h
  | some c =>
    cases c with
    | zero =>
      simp only [Semaphore_pend_zero] at h
      split at h <;> simp at h
    | succ c =>
      simp only [Semaphore_pend_succ, Option.some.injEq, Prod.mk.injEq, true_and] at h
      exact ⟨c, rfl, h.symm⟩

/-! ## `SB_i2cQueueTransaction` -/

/-- Every way in which `SB_i2cQueueTransaction` returns. -/
theorem SB_i2cQueueTransaction_some {st st' : I2C_State} {transaction : Option Nat}
    {timeout : Nat} {mallocOk : Bool} {e : SB_Error}
    (h : SB_i2cQueueTransaction st transaction timeout mallocOk = some (e, st')) :
    (e = SB_Error.ResourceNotInitialized ∧ st' = st ∧ st.initialized = false) ∨
    (e = SB_Error.InvalidParameter ∧ st' = st ∧ st.initialized = true ∧
      transactionRejected st transaction) ∨
    (e = SB_Error.OperationTimeout ∧ st' = st ∧ st.initialized = true ∧
      ¬ transactionRejected st transaction ∧ st.i2cQueueSem = some 0 ∧
      timeout ≠ BIOS_WAIT_FOREVER) ∨
    (e = SB_Error.OutOfMemory ∧ st' = st ∧ st.initialized = true ∧
      ¬ transactionRejected st transaction ∧ mallocOk = false ∧
      ∃ c, st.i2cQueueSem = some (c + 1)) ∨
    (e = SB_Error.NoError ∧ st.initialized = true ∧ mallocOk = true ∧
      ∃ t c d, transaction = some t ∧ (st.mem t).baseTransaction ≠ none ∧
        (st.mem t).completionSemaphore ≠ none ∧ st.i2cQueueSem = some (c + 1) ∧
        st.i2cDataAvailSem = some d ∧
        st' = { st with
          i2cQueue := st.i2cQueue ++ [{ transaction := some t }]
          i2cDataAvailSem := some (d + 1)
          trace := st.trace ++ [I2C_Event.enqueue t] }) := by
  obtain ⟨ini, hdl, q, qs, ds, ps, cur, tc, cs, mem, sems, tr⟩ := st
  unfold SB_i2cQueueTransaction at h
  simp only at h
  cases ini with
  | false =>
    simp only [if_true, Option.some.injEq, Prod.mk.injEq] at h
    exact Or.inl ⟨h.1.symm, h.2.symm, rfl⟩
  | true =>
    simp only [Bool.true_eq_false, if_false] at h
    right
    cases transaction with
    | none =>
      simp only [Option.some.injEq, Prod.mk.injEq] at h
      exact Or.inl ⟨h.1.symm, h.2.symm, rfl, Or.inl rfl⟩
    | some t =>
      by_cases hv : (mem t).baseTransaction = none ∨ (mem t).completionSemaphore = none
      · simp only [hv, if_true, Option.some.injEq, Prod.mk.injEq] at h
        exact Or.inl ⟨h.1.symm, h.2.symm, rfl, Or.inr ⟨t, rfl, hv⟩⟩
      · have hr : ¬ transactionRejected
            { initialized := true, handle := hdl, i2cQueue := q, i2cQueueSem := qs,
              i2cDataAvailSem := ds, i2cProcSem := ps, currentTransaction := cur,
              timeoutClock := tc, clockStarted := cs, mem := mem, sems := sems,
              trace := tr } (some t) := by
          rintro (h0 | ⟨t', ht, h1⟩)
          · cases h0
          · cases ht
            exact hv h1
        simp only [hv, if_false] at h
        right
        cases qs with
        | none => simp at h
        | some c =>
          cases c with
          | zero =>
            by_cases hto : timeout = BIOS_WAIT_FOREVER
            · simp [hto] at h
            · simp only [Semaphore_pend_zero, hto, if_false, Option.some.injEq,
                Prod.mk.injEq] at h
              exact Or.inl ⟨h.1.symm, h.2.symm, rfl, hr, rfl, hto⟩
          | succ c =>
            right
            cases mallocOk with
            | false =>
              simp only [Semaphore_pend_succ, Semaphore_post_some, if_true,
                Option.some.injEq, Prod.mk.injEq] at h
              exact Or.inl ⟨h.1.symm, h.2.symm, rfl, hr, rfl, c, rfl⟩
            | true =>
              right
              cases ds with
              | none => simp at h
              | some d =>
                simp only [Semaphore_pend_succ, Semaphore_post_some, Bool.true_eq_false,
                  if_false, Option.some.injEq, Prod.mk.injEq] at h
                refine ⟨h.1.symm, rfl, rfl, t, c, d, rfl, ?_, ?_, rfl, rfl, h.2.symm⟩
                · exact fun h0 => hv (Or.inl h0)
                · exact fun h0 => hv (Or.inr h0)


/-- Before a successful `SB_i2cInit` the call returns at once. -/
theorem SB_i2cQueueTransaction_uninitialized (st : I2C_State) (transaction : Option Nat)
    (timeout : Nat) (mallocOk : Bool) (hinit : st.initialized = false) :
    SB_i2cQueueTransaction st transaction timeout mallocOk
      = some (SB_Error.ResourceNotInitialized, st) := by
  unfold SB_i2cQueueTransaction
  simp [hinit]

/-- A refused transaction makes the call return `InvalidParameter` at once. -/
theorem SB_i2cQueueTransaction_rejected (st : I2C_State) (transaction : Option Nat)
    (timeout : Nat) (mallocOk : Bool) (hinit : st.initialized = true)
    (hrej : transactionRejected st transaction) :
    SB_i2cQueueTransaction st transaction timeout mallocOk
      = some (SB_Error.InvalidParameter, st) := by
  unfold SB_i2cQueueTransaction
  rcases hrej with h0 | ⟨t, ht, hv⟩
  · simp [hinit, h0]
  · simp [hinit, ht, hv]

/-- An accepted transaction: the state the call returns with `NoError`. -/
theorem SB_i2cQueueTransaction_accepted (st : I2C_State) (t timeout c d : Nat)
    (hinit : st.initialized = true)
    (hbase : (st.mem t).baseTransaction ≠ none)
    (hsem : (st.mem t).completionSemaphore ≠ none)
    (hq : st.i2cQueueSem = some (c + 1)) (hd : st.i2cDataAvailSem = some d) :
    SB_i2cQueueTransaction st (some t) timeout true
      = some (SB_Error.NoError,
          { st with
            i2cQueue := st.i2cQueue ++ [{ transaction := some t }]
            i2cDataAvailSem := some (d + 1)
            trace := st.trace ++ [I2C_Event.enqueue t] }) := by
  unfold SB_i2cQueueTransaction
  simp [hinit, hbase, hsem, hq, hd]

/-- C1: on an initialized module `SB_i2cQueueTransaction` returns
`InvalidParameter` exactly when the transaction pointer is null or its base
transaction or completion semaphore is null, and the queue length is then
what it was before the call. -/
theorem SB_i2cQueueTransaction_invalidParameter_iff (st : I2C_State)
    (transaction : Option Nat) (timeout : Nat) (mallocOk : Bool)
    (hinit : st.initialized = true) :
    ((SB_i2cQueueTransaction st transaction timeout mallocOk).map Prod.fst
        = some SB_Error.InvalidParameter ↔ transactionRejected st transaction) ∧
    (∀ st', SB_i2cQueueTransaction st transaction timeout mallocOk
        = some (SB_Error.InvalidParameter, st') →
      st'.i2cQueue.length = st.i2cQueue.length) := by
  refine ⟨⟨fun h => ?_, fun h => ?_⟩, fun st' h => ?_⟩
  · obtain ⟨⟨e, st'⟩, hr, he⟩ := Option.map_eq_some'.mp h
    simp only at he
    subst he
    rcases SB_i2cQueueTransaction_some hr with h1 | h1 | h1 | h1 | h1
    · exact absurd h1.1 (by decide)
    · exact h1.2.2.2
    · exact absurd h1.1 (by decide)
    · exact absurd h1.1 (by decide)
    · exact absurd h1.1 (by decide)
  · rw [SB_i2cQueueTransaction_rejected st transaction timeout mallocOk hinit h]
    rfl
  · rcases SB_i2cQueueTransaction_some h with h1 | h1 | h1 | h1 | h1
    · exact absurd h1.1 (by decide)
    · rw [h1.2.1]
    · exact absurd h1.1 (by decide)
    · exact absurd h1.1 (by decide)
    · exact absurd h1.1 (by decide)

/-- Witness for C1 on `readyState`: the null pointer and the transaction at
address `2`, whose base transaction is null, are refused. -/
theorem SB_i2cQueueTransaction_invalidParameter_iff_witness :
    readyState.initialized = true ∧
    (SB_i2cQueueTransaction readyState none 5 true).map Prod.fst
      = some SB_Error.InvalidParameter ∧
    (SB_i2cQueueTransaction readyState (some 2) 5 true).map Prod.fst
      = some SB_Error.InvalidParameter ∧
    ¬ transactionRejected readyState (some 1) ∧
    (∀ st', SB_i2cQueueTransaction readyState (some 2) 5 true
        = some (SB_Error.InvalidParameter, st') →
      st'.i2cQueue.length = readyState.i2cQueue.length) :=
  ⟨rfl, rfl, rfl,
    fun h => absurd
      ((SB_i2cQueueTransaction_invalidParameter_iff readyState (some 1) 5 true rfl).1.mpr h)
      (by decide),
    (SB_i2cQueueTransaction_invalidParameter_iff readyState (some 2) 5 true rfl).2⟩

/-- C2: whenever `SB_i2cQueueTransaction` returns an error, the error is
`ResourceNotInitialized`, `InvalidParameter`, `OperationTimeout` or
`OutOfMemory`, and the queue, the data-available semaphore and the queue
semaphore are what they were before the call. -/
theorem SB_i2cQueueTransaction_error_atomic (st st' : I2C_State)
    (transaction : Option Nat) (timeout : Nat) (mallocOk : Bool) (e : SB_Error)
    (h : SB_i2cQueueTransaction st transaction timeout mallocOk = some (e, st'))
    (he : e ≠ SB_Error.NoError) :
    (e = SB_Error.ResourceNotInitialized ∨ e = SB_Error.InvalidParameter ∨
      e = SB_Error.OperationTimeout ∨ e = SB_Error.OutOfMemory) ∧
    st'.i2cQueue = st.i2cQueue ∧ st'.i2cDataAvailSem = st.i2cDataAvailSem ∧
    st'.i2cQueueSem = st.i2cQueueSem := by
  rcases SB_i2cQueueTransaction_some h with h1 | h1 | h1 | h1 | h1
  · exact ⟨Or.inl h1.1, by rw [h1.2.1], by rw [h1.2.1], by rw [h1.2.1]⟩
  · exact ⟨Or.inr (Or.inl h1.1), by rw [h1.2.1], by rw [h1.2.1], by rw [h1.2.1]⟩
  · exact ⟨Or.inr (Or.inr (Or.inl h1.1)), by rw [h1.2.1], by rw [h1.2.1], by rw [h1.2.1]⟩
  · exact ⟨Or.inr (Or.inr (Or.inr h1.1)), by rw [h1.2.1], by rw [h1.2.1], by rw [h1.2.1]⟩
  · exact absurd h1.1 he

/-- Witness for C2: with the queue semaphore free and `malloc` failing, the
call on `readyState` returns `OutOfMemory` and the three parts are unchanged. -/
theorem SB_i2cQueueTransaction_error_atomic_witness :
    SB_i2cQueueTransaction readyState (some 1) 5 false
      = some (SB_Error.OutOfMemory, readyState) ∧
    readyState.i2cQueue = readyState.i2cQueue ∧
    readyState.i2cDataAvailSem = readyState.i2cDataAvailSem ∧
    readyState.i2cQueueSem = readyState.i2cQueueSem :=
  ⟨rfl, (SB_i2cQueueTransaction_error_atomic readyState readyState (some 1) 5 false
    SB_Error.OutOfMemory rfl (by decide)).2⟩

/-- C3: on an initialized module, for a transaction with base transaction
and completion semaphore, when the pend on the queue semaphore answers `true`
and `malloc` succeeds, `SB_i2cQueueTransaction` returns `NoError`; the queue
is the old queue with the transaction at the tail, the data-available count
is one higher, and the queue semaphore is back at its value before the call. -/
theorem SB_i2cQueueTransaction_success (st : I2C_State) (t timeout d : Nat)
    (sem : Option Nat) (hinit : st.initialized = true)
    (hbase : (st.mem t).baseTransaction ≠ none)
    (hsem : (st.mem t).completionSemaphore ≠ none)
    (hlock : Semaphore_pend st.i2cQueueSem timeout = some (true, sem))
    (hdata : st.i2cDataAvailSem = some d) :
    ∃ st', SB_i2cQueueTransaction st (some t) timeout true = some (SB_Error.NoError, st') ∧
      st'.i2cQueue = st.i2cQueue ++ [{ transaction := some t }] ∧
      st'.i2cDataAvailSem = some (d + 1) ∧
      st'.i2cQueueSem = st.i2cQueueSem := by
  obtain ⟨c, hq, _⟩ := Semaphore_pend_true hlock
  exact ⟨_, SB_i2cQueueTransaction_accepted st t timeout c d hinit hbase hsem hq hdata,
    rfl, rfl, rfl⟩

/-- Witness for C3: the temperature configuration transaction at address `1`
is accepted on `readyState`. -/
theorem SB_i2cQueueTransaction_success_witness :
    ∃ st', SB_i2cQueueTransaction readyState (some 1) 5 true
        = some (SB_Error.NoError, st') ∧
      st'.i2cQueue = readyState.i2cQueue ++ [{ transaction := some 1 }] ∧
      st'.i2cDataAvailSem = some (0 + 1) ∧
      st'.i2cQueueSem = readyState.i2cQueueSem :=
  SB_i2cQueueTransaction_success readyState 1 5 0 (some 0) rfl (by decide) (by decide) rfl rfl


/-- C8, counterexample: before initialization the call on `bootState` returns
`ResourceNotInitialized`, which is none of `NoError`, `InvalidParameter`,
`OperationTimeout`, `OutOfMemory`. -/
theorem SB_i2cQueueTransaction_result_kinds_counterexample :
    ¬ ∃ e st', SB_i2cQueueTransaction bootState (some 1) 5 true = some (e, st') ∧
      (e = SB_Error.NoError ∨ e = SB_Error.InvalidParameter ∨
        e = SB_Error.OperationTimeout ∨ e = SB_Error.OutOfMemory) := by
  rintro ⟨e, st', h, he⟩
  have h1 : SB_i2cQueueTransaction bootState (some 1) 5 true
      = some (SB_Error.ResourceNotInitialized, bootState) := rfl
  rw [h1] at h
  simp only [Option.some.injEq, Prod.mk.injEq] at h
  rw [← h.1] at he
  revert he
  decide

/-- C8, amended: a result of `SB_i2cQueueTransaction` is one of `NoError`,
`InvalidParameter`, `OperationTimeout`, `OutOfMemory` and
`ResourceNotInitialized`, the last exactly when the module is not
initialized; and the call does return a result when the module is not
initialized, when the transaction is refused, or when both semaphores exist
and the timeout is finite or the queue semaphore is free. -/
theorem SB_i2cQueueTransaction_result_kinds (st : I2C_State) (transaction : Option Nat)
    (timeout : Nat) (mallocOk : Bool) :
    (∀ e st', SB_i2cQueueTransaction st transaction timeout mallocOk = some (e, st') →
      (e = SB_Error.NoError ∨ e = SB_Error.InvalidParameter ∨
        e = SB_Error.OperationTimeout ∨ e = SB_Error.OutOfMemory ∨
        e = SB_Error.ResourceNotInitialized) ∧
      (e = SB_Error.ResourceNotInitialized ↔ st.initialized = false)) ∧
    ((st.initialized = false ∨ transactionRejected st transaction ∨
        (st.i2cQueueSem ≠ none ∧ st.i2cDataAvailSem ≠ none ∧
          (timeout ≠ BIOS_WAIT_FOREVER ∨ st.i2cQueueSem ≠ some 0))) →
      ∃ e st', SB_i2cQueueTransaction st transaction timeout mallocOk = some (e, st')) := by
  refine ⟨fun e st' h => ?_, fun h => ?_⟩
  · rcases SB_i2cQueueTransaction_some h with h1 | h1 | h1 | h1 | h1
    · exact ⟨by simp [h1.1], by simp [h1.1, h1.2.2]⟩
    · exact ⟨by simp [h1.1], by simp [h1.1, h1.2.2.1]⟩
    · exact ⟨by simp [h1.1], by simp [h1.1, h1.2.2.1]⟩
    · exact ⟨by simp [h1.1], by simp [h1.1, h1.2.2.1]⟩
    · exact ⟨by simp [h1.1], by simp [h1.1, h1.2.1]⟩
  · by_cases hinit : st.initialized = false
    · exact ⟨_, _, SB_i2cQueueTransaction_uninitialized st transaction timeout mallocOk hinit⟩
    · have hinit' : st.initialized = true := by simpa using hinit
      by_cases hrej : transactionRejected st transaction
      · exact ⟨_, _, SB_i2cQueueTransaction_rejected st transaction timeout mallocOk hinit' hrej⟩
      · rcases h with h | h | ⟨hq, hd, hto⟩
        · exact absurd h hinit
        · exact absurd h hrej
        · unfold transactionRejected at hrej
          unfold SB_i2cQueueTransaction
          cases transaction with
          | none => simp at hrej
          | some t =>
            have hv : ¬ ((st.mem t).baseTransaction = none ∨
                (st.mem t).completionSemaphore = none) := fun hv => hrej (Or.inr ⟨t, rfl, hv⟩)
            cases hqs : st.i2cQueueSem with
            | none => exact absurd hqs hq
            | some c =>
              cases hds : st.i2cDataAvailSem with
              | none => exact absurd hds hd
              | some d =>
                cases c with
                | zero =>
                  have hto' : timeout ≠ BIOS_WAIT_FOREVER := by
                    rcases hto with h0 | h0
                    · exact h0
                    · exact absurd hqs h0
                  simp [hinit', hv, hto']
                | succ c => cases mallocOk <;> simp [hinit', hv]

/-- Witness for C8 (amended): on `readyState` with a finite timeout the call
returns, and its result is `NoError`. -/
theorem SB_i2cQueueTransaction_result_kinds_witness :
    (∃ e st', SB_i2cQueueTransaction readyState (some 1) 5 true = some (e, st')) ∧
    (∀ e st', SB_i2cQueueTransaction readyState (some 1) 5 true = some (e, st') →
      (e = SB_Error.NoError ∨ e = SB_Error.InvalidParameter ∨
        e = SB_Error.OperationTimeout ∨ e = SB_Error.OutOfMemory ∨
        e = SB_Error.ResourceNotInitialized) ∧
      (e = SB_Error.ResourceNotInitialized ↔ readyState.initialized = false)) :=
  ⟨(SB_i2cQueueTransaction_result_kinds readyState (some 1) 5 true).2
      (Or.inr (Or.inr ⟨by decide, by decide, Or.inl (by decide)⟩)),
    (SB_i2cQueueTransaction_result_kinds readyState (some 1) 5 true).1⟩

/-- C9, counterexample: the temperature configuration transaction at address
`1`, built with `readBuf = NULL`, is accepted with `NoError`. -/
theorem SB_i2cQueueTransaction_buffers_counterexample :
    ∃ st' b, SB_i2cQueueTransaction readyState (some 1) 5 true
        = some (SB_Error.NoError, st') ∧
      (readyState.mem 1).baseTransaction = some b ∧ b.readBuf = none :=
  ⟨_, _, rfl, rfl, rfl⟩

/-- C9, amended: a transaction that `SB_i2cQueueTransaction` accepts is a
non-null pointer to a transaction with a base transaction and a completion
semaphore; the write and read buffer pointers inside the base transaction are
not looked at, so with both present the call is never answered with
`InvalidParameter`, whatever the buffers are. -/
theorem SB_i2cQueueTransaction_accepts (st : I2C_State) (transaction : Option Nat)
    (timeout : Nat) (mallocOk : Bool) :
    (∀ st', SB_i2cQueueTransaction st transaction timeout mallocOk
        = some (SB_Error.NoError, st') →
      ∃ t b s, transaction = some t ∧ (st.mem t).baseTransaction = some b ∧
        (st.mem t).completionSemaphore = some s) ∧
    (∀ t b s, transaction = some t → (st.mem t).baseTransaction = some b →
      (st.mem t).completionSemaphore = some s →
      (SB_i2cQueueTransaction st transaction timeout mallocOk).map Prod.fst
        ≠ some SB_Error.InvalidParameter) := by
  refine ⟨fun st' h => ?_, fun t b s ht hb hs h => ?_⟩
  · rcases SB_i2cQueueTransaction_some h with h1 | h1 | h1 | h1 | h1
    · exact absurd h1.1 (by decide)
    · exact absurd h1.1 (by decide)
    · exact absurd h1.1 (by decide)
    · exact absurd h1.1 (by decide)
    · obtain ⟨_, _, _, t, c, d, ht, hb, hs, _⟩ := h1
      obtain ⟨b, hb'⟩ := Option.ne_none_iff_exists'.mp hb
      obtain ⟨s, hs'⟩ := Option.ne_none_iff_exists'.mp hs
      exact ⟨t, b, s, ht, hb', hs'⟩
  · obtain ⟨⟨e, st'⟩, hr, he⟩ := Option.map_eq_some'.mp h
    simp only at he
    subst he
    rcases SB_i2cQueueTransaction_some hr with h1 | h1 | h1 | h1 | h1
    · exact absurd h1.1 (by decide)
    · rcases h1.2.2.2 with h0 | ⟨t', ht', hv⟩
      · rw [ht] at h0
        cases h0
      · rw [ht] at ht'
        cases ht'
        rw [hb, hs] at hv
        simp at hv
    · exact absurd h1.1 (by decide)
    · exact absurd h1.1 (by decide)
    · exact absurd h1.1 (by decide)

/-- Witness for C9 (amended): the accepted transaction at address `1` has a
base transaction and a completion semaphore. -/
theorem SB_i2cQueueTransaction_accepts_witness :
    (∃ t b s, some 1 = some t ∧ (readyState.mem t).baseTransaction = some b ∧
      (readyState.mem t).completionSemaphore = some s) ∧
    (SB_i2cQueueTransaction readyState (some 1) 5 true).map Prod.fst
      ≠ some SB_Error.InvalidParameter :=
  ⟨(SB_i2cQueueTransaction_accepts readyState (some 1) 5 true).1 _ rfl,
    (SB_i2cQueueTransaction_accepts readyState (some 1) 5 true).2 1 _ 0 rfl rfl rfl⟩

/-! ## `SB_i2cInit` -/

/-- Every way in which `SB_i2cInit` returns: it returns `NoError` and sets
`initialized` exactly when the three semaphores and the task are created. -/
theorem SB_i2cInit_some {st st' : I2C_State} {env : I2C_InitEnv} {e : SB_Error}
    (h : SB_i2cInit st env = some (e, st')) :
    ((e = SB_Error.OSResourceInitializationError ∨
        e = SB_Error.I2CInitializationFailedError) ∧
      st'.initialized = st.initialized) ∨
    (e = SB_Error.NoError ∧
      st' = { st with
        initialized := true
        handle := if env.i2cOpen then some { pending := 0, hwiFxn := true } else none
        i2cQueue := []
        i2cQueueSem := some 1
        i2cDataAvailSem := some 0
        i2cProcSem := some 1
        currentTransaction := none
        timeoutClock := false
        clockStarted := false }) := by
  obtain ⟨o, q, d, p, tk⟩ := env
  unfold SB_i2cInit Semaphore_create at h
  cases q <;> cases d <;> cases p <;> cases tk <;>
    simp only [Bool.false_eq_true, if_false, if_true, true_or, or_true, or_self,
      Option.some.injEq, Prod.mk.injEq, reduceCtorEq, Semaphore_post_some] at h <;>
    first
    | exact Or.inl ⟨Or.inl h.1.symm, by rw [← h.2]⟩
    | exact Or.inl ⟨Or.inr h.1.symm, by rw [← h.2]⟩
    | exact Or.inr ⟨h.1.symm, h.2.symm⟩

/-- `SB_i2cInit` always returns. -/
theorem SB_i2cInit_returns (st : I2C_State) (env : I2C_InitEnv) :
    ∃ e st', SB_i2cInit st env = some (e, st') := by
  obtain ⟨o, q, d, p, tk⟩ := env
  unfold SB_i2cInit Semaphore_create
  cases q <;> cases d <;> cases p <;> cases tk <;> simp

/-- C10: while `initialized` is `false`, so before any `SB_i2cInit` has
returned `NoError`, `SB_i2cQueueTransaction` returns `ResourceNotInitialized`
for every transaction and timeout and leaves the state as it is; an
`SB_i2cInit` that returns an error returns `OSResourceInitializationError` or
`I2CInitializationFailedError`, leaves `initialized` at `false`, and the same
holds in the state it leaves. -/
theorem SB_i2cQueueTransaction_before_init (st : I2C_State)
    (hinit : st.initialized = false) :
    (∀ transaction timeout mallocOk,
      SB_i2cQueueTransaction st transaction timeout mallocOk
        = some (SB_Error.ResourceNotInitialized, st)) ∧
    (∀ env, ∃ e st', SB_i2cInit st env = some (e, st') ∧
      (e ≠ SB_Error.NoError →
        (e = SB_Error.OSResourceInitializationError ∨
          e = SB_Error.I2CInitializationFailedError) ∧
        st'.initialized = false ∧
        ∀ transaction timeout mallocOk,
          SB_i2cQueueTransaction st' transaction timeout mallocOk
            = some (SB_Error.ResourceNotInitialized, st'))) := by
  refine ⟨fun transaction timeout mallocOk =>
    SB_i2cQueueTransaction_uninitialized st transaction timeout mallocOk hinit, fun env => ?_⟩
  obtain ⟨e, st', h⟩ := SB_i2cInit_returns st env
  refine ⟨e, st', h, fun he => ?_⟩
  rcases SB_i2cInit_some h with ⟨h1, h2⟩ | ⟨h1, _⟩
  · have h3 : st'.initialized = false := by rw [h2, hinit]
    exact ⟨h1, h3, fun transaction timeout mallocOk =>
      SB_i2cQueueTransaction_uninitialized st' transaction timeout mallocOk h3⟩
  · exact absurd h1 he

/-- Witness for C10: on `bootState`, and after an `SB_i2cInit` whose task
creation fails, a well-formed transaction is answered with
`ResourceNotInitialized`. -/
theorem SB_i2cQueueTransaction_before_init_witness :
    bootState.initialized = false ∧
    (SB_i2cInit bootState { initEnvOk with taskCreate := false }).map Prod.fst
      = some SB_Error.I2CInitializationFailedError ∧
    SB_i2cQueueTransaction bootState (some 1) 5 true
      = some (SB_Error.ResourceNotInitialized, bootState) ∧
    ∃ e st', SB_i2cInit bootState { initEnvOk with taskCreate := false } = some (e, st') ∧
      (e ≠ SB_Error.NoError →
        (e = SB_Error.OSResourceInitializationError ∨
          e = SB_Error.I2CInitializationFailedError) ∧
        st'.initialized = false ∧
        ∀ transaction timeout mallocOk,
          SB_i2cQueueTransaction st' transaction timeout mallocOk
            = some (SB_Error.ResourceNotInitialized, st')) :=
  ⟨rfl, rfl, (SB_i2cQueueTransaction_before_init bootState rfl).1 (some 1) 5 true,
    (SB_i2cQueueTransaction_before_init bootState rfl).2 { initEnvOk with taskCreate := false }⟩


/-! ## The completion and timeout handlers -/

/-- The completion handler on an occupied slot: the state it leaves. -/
theorem SB_i2cTransferCompleteHandler_occupied (st : I2C_State) (result : Bool)
    (t s p : Nat) (hcur : st.currentTransaction = some t)
    (hsem : (st.mem t).completionSemaphore = some s) (hproc : st.i2cProcSem = some p) :
    SB_i2cTransferCompleteHandler st result
      = some { st with
          i2cProcSem := some (p + 1)
          timeoutClock := false
          mem := Function.update st.mem t
            { st.mem t with
              completionResult := if result then SB_Error.NoError else SB_Error.UnknownError }
          sems := Function.update st.sems s (st.sems s + 1)
          trace := st.trace ++ [I2C_Event.signal t s]
          currentTransaction := none } := by
  unfold SB_i2cTransferCompleteHandler
  simp [hcur, hsem, hproc]

/-- The completion handler on an empty slot: the state it leaves. -/
theorem SB_i2cTransferCompleteHandler_empty (st : I2C_State) (result : Bool) (p : Nat)
    (hcur : st.currentTransaction = none) (hproc : st.i2cProcSem = some p) :
    SB_i2cTransferCompleteHandler st result
      = some { st with i2cProcSem := some (p + 1), timeoutClock := false } := by
  unfold SB_i2cTransferCompleteHandler
  simp [hcur, hproc]

theorem signaledOf_append (l₁ l₂ : List I2C_Event) :
    signaledOf (l₁ ++ l₂) = signaledOf l₁ ++ signaledOf l₂ := by
  induction l₁ with
  | nil => rfl
  | cons e l ih => cases e <;> simp [signaledOf, ih]

theorem transferredOf_append (l₁ l₂ : List I2C_Event) :
    transferredOf (l₁ ++ l₂) = transferredOf l₁ ++ transferredOf l₂ := by
  induction l₁ with
  | nil => rfl
  | cons e l ih => cases e <;> simp [transferredOf, ih]

theorem enqueuedOf_append (l₁ l₂ : List I2C_Event) :
    enqueuedOf (l₁ ++ l₂) = enqueuedOf l₁ ++ enqueuedOf l₂ := by
  induction l₁ with
  | nil => rfl
  | cons e l ih => cases e <;> simp [enqueuedOf, ih]

/-- C7: with transaction `t` in the current slot, `s` its completion
semaphore and the processing permit at count `p`, the completion handler
returns; it stores `NoError` in `t` for a `true` driver result and
`UnknownError` for a `false` one, posts `s` once (its count is one higher,
every other semaphore is untouched, and the trace grows by that one post),
clears the slot, and leaves the permit at `p + 1`. -/
theorem SB_i2cTransferCompleteHandler_completes (st : I2C_State) (result : Bool)
    (t s p : Nat) (hcur : st.currentTransaction = some t)
    (hsem : (st.mem t).completionSemaphore = some s) (hproc : st.i2cProcSem = some p) :
    ∃ st', SB_i2cTransferCompleteHandler st result = some st' ∧
      (st'.mem t).completionResult
        = (if result then SB_Error.NoError else SB_Error.UnknownError) ∧
      st'.sems s = st.sems s + 1 ∧
      (∀ s', s' ≠ s → st'.sems s' = st.sems s') ∧
      st'.trace = st.trace ++ [I2C_Event.signal t s] ∧
      st'.currentTransaction = none ∧
      st'.i2cProcSem = some (p + 1) := by
  refine ⟨_, SB_i2cTransferCompleteHandler_occupied st result t s p hcur hsem hproc,
    ?_, ?_, ?_, rfl, rfl, rfl⟩
  · simp
  · simp
  · intro s' hs'
    simp [Function.update_noteq hs']


/-- Witness for C7: the transfer of the transaction at address `1`
completes with a `false` driver result. -/
theorem SB_i2cTransferCompleteHandler_completes_witness :
    ∃ st', SB_i2cTransferCompleteHandler busyState false = some st' ∧
      (st'.mem 1).completionResult
        = (if false then SB_Error.NoError else SB_Error.UnknownError) ∧
      st'.sems 0 = busyState.sems 0 + 1 ∧
      (∀ s', s' ≠ 0 → st'.sems s' = busyState.sems s') ∧
      st'.trace = busyState.trace ++ [I2C_Event.signal 1 0] ∧
      st'.currentTransaction = none ∧
      st'.i2cProcSem = some (0 + 1) :=
  SB_i2cTransferCompleteHandler_completes busyState false 1 0 0 rfl rfl rfl

/-- Callbacks on an empty slot, however many, return and change neither the
transaction memory nor any completion semaphore nor the trace. -/
theorem SB_i2cTransferCompleteHandler_each_empty (results : List Bool) (st : I2C_State)
    (p : Nat) (hcur : st.currentTransaction = none) (hproc : st.i2cProcSem = some p) :
    ∃ st', SB_i2cTransferCompleteHandler_each st results = some st' ∧
      st'.mem = st.mem ∧ st'.sems = st.sems ∧ st'.trace = st.trace ∧
      st'.currentTransaction = none := by
  induction results generalizing st p with
  | nil => exact ⟨st, rfl, rfl, rfl, rfl, hcur⟩
  | cons result rest ih =>
    obtain ⟨st', h, h1, h2, h3, h4⟩ :=
      ih { st with i2cProcSem := some (p + 1), timeoutClock := false } (p + 1) hcur rfl
    refine ⟨st', ?_, h1, h2, h3, h4⟩
    simp only [SB_i2cTransferCompleteHandler_each,
      SB_i2cTransferCompleteHandler_empty st result p hcur hproc]
    exact h

/-- C6: with transaction `t` in the current slot, `s` its completion
semaphore, the permit semaphore live and the driver's interrupt routine set,
the timeout handler returns; `t` then carries the failure `UnknownError`, `s`
was posted once (count one higher, one more signal of `t` on the trace) and
the slot is empty; and completion callbacks that follow, however many and
whatever their results, return and change neither the transaction memory
(so not the result of `t`) nor any completion semaphore nor the trace. -/
theorem SB_i2cTransactionTimeoutHandler_completes_once (st : I2C_State) (t s p : Nat)
    (d : I2C_Driver) (hcur : st.currentTransaction = some t)
    (hsem : (st.mem t).completionSemaphore = some s) (hproc : st.i2cProcSem = some p)
    (hhandle : st.handle = some d) (hhwi : d.hwiFxn = true) :
    ∃ st', SB_i2cTransactionTimeoutHandler st = some st' ∧
      (st'.mem t).completionResult = SB_Error.UnknownError ∧
      st'.sems s = st.sems s + 1 ∧
      signaledOf st'.trace = signaledOf st.trace ++ [t] ∧
      st'.currentTransaction = none ∧
      ∀ results, ∃ st'', SB_i2cTransferCompleteHandler_each st' results = some st'' ∧
        st''.mem = st'.mem ∧ st''.sems = st'.sems ∧ st''.trace = st'.trace ∧
        st''.currentTransaction = none := by
  have h1 : SB_i2cTransactionTimeoutHandler st
      = SB_i2cTransferCompleteHandler
          { st with handle := some { d with pending := d.pending - 1 } } false := by
    unfold SB_i2cTransactionTimeoutHandler I2C_hwiFxn
    simp [hcur, hhandle, hhwi]
  rw [h1, SB_i2cTransferCompleteHandler_occupied
    { st with handle := some { d with pending := d.pending - 1 } } false t s p hcur hsem hproc]
  refine ⟨_, rfl, by simp, by simp, ?_, rfl, fun results => ?_⟩
  · simp [signaledOf_append, signaledOf]
  · exact SB_i2cTransferCompleteHandler_each_empty results _ (p + 1) rfl rfl

/-- Witness for C6: the timeout of the transfer of the transaction at
address `1`. -/
theorem SB_i2cTransactionTimeoutHandler_completes_once_witness :
    ∃ st', SB_i2cTransactionTimeoutHandler busyState = some st' ∧
      (st'.mem 1).completionResult = SB_Error.UnknownError ∧
      st'.sems 0 = busyState.sems 0 + 1 ∧
      signaledOf st'.trace = signaledOf busyState.trace ++ [1] ∧
      st'.currentTransaction = none ∧
      ∀ results, ∃ st'', SB_i2cTransferCompleteHandler_each st' results = some st'' ∧
        st''.mem = st'.mem ∧ st''.sems = st'.sems ∧ st''.trace = st'.trace ∧
        st''.currentTransaction = none :=
  SB_i2cTransactionTimeoutHandler_completes_once busyState 1 0 0
    { pending := 1, hwiFxn := true } rfl rfl rfl rfl rfl

/-- The sample states are states of runs: `SB_i2cInit` takes `bootState` to
`readyState`, and accepting and starting the transaction at `1` takes
`readyState` to `busyState`. -/
theorem sample_states_reached :
    SB_i2cInit bootState initEnvOk = some (SB_Error.NoError, readyState) ∧
    I2C_run readyState [I2C_Step.enqueue (some 1) 5 true, I2C_Step.task] = some busyState :=
  ⟨rfl, rfl⟩


/-! ## The invariant of the scheduler -/

/-- Storing a completion result leaves the pointers of every transaction. -/
theorem update_result_pointers (mem : Nat → SB_i2cTransaction) (t t' : Nat) (e : SB_Error) :
    (Function.update mem t { mem t with completionResult := e } t').baseTransaction
        = (mem t').baseTransaction ∧
    (Function.update mem t { mem t with completionResult := e } t').completionSemaphore
        = (mem t').completionSemaphore := by
  by_cases h : t' = t
  · subst h
    simp
  · simp [Function.update_noteq h]

/-- A successful `SB_i2cInit` establishes the invariant. -/
theorem I2C_Inv_init {st st' : I2C_State} {env : I2C_InitEnv}
    (h : SB_i2cInit st env = some (SB_Error.NoError, st')) : I2C_Inv st' := by
  rcases SB_i2cInit_some h with ⟨h1, _⟩ | ⟨_, h1⟩
  · rcases h1 with h1 | h1 <;> cases h1
  · subst h1
    refine ⟨rfl, rfl, rfl, ?_, ?_, Or.inl ⟨rfl, rfl, ?_⟩⟩
    · intro qp hqp
      simp at hqp
    · intro d hd
      simp only at hd
      split at hd
      · cases hd
        rfl
      · cases hd
    · unfold busPending
      cases env.i2cOpen <;> rfl

/-- Under the invariant a pass of the driver task that finishes has taken the
front entry of the queue and handed its transaction to the bus driver. -/
theorem SB_i2cTask_iteration_of_inv {st st' : I2C_State} (hinv : I2C_Inv st)
    (h : SB_i2cTask_iteration st = some st') :
    ∃ qp rest t d, st.i2cQueue = qp :: rest ∧ qp.transaction = some t ∧
      st.handle = some d ∧ d.pending = 0 ∧ st.currentTransaction = none ∧
      st.i2cProcSem = some 1 ∧
      st' = { st with
        handle := some { d with pending := d.pending + 1 }
        i2cQueue := rest
        i2cDataAvailSem := some rest.length
        i2cProcSem := some 0
        currentTransaction := some t
        timeoutClock := true
        clockStarted := true
        trace := st.trace ++ [I2C_Event.transfer t] } := by
  obtain ⟨ini, hdl, q, qs, ds, ps, cur, tc, cs, mem, sems, tr⟩ := st
  obtain ⟨h1, h2, h3, h4, h5, h6⟩ := hinv
  simp only at h1 h2 h3 h4 h5 h6
  subst h1 h2 h3
  rcases h6 with ⟨hc, hp, hb⟩ | ⟨t, hc, hp, _⟩
  · subst hc hp
    cases q with
    | nil => simp [SB_i2cTask_iteration, BIOS_WAIT_FOREVER] at h
    | cons qp rest =>
      obtain ⟨t, ht, hbase, hsem⟩ := h4 qp (List.mem_cons_self _ _)
      cases hdl with
      | none =>
        simp [SB_i2cTask_iteration, Queue_empty, Queue_get, ht, hbase, hsem, I2C_transfer] at h
      | some d =>
        simp only [busPending] at hb
        simp [SB_i2cTask_iteration, Queue_empty, Queue_get, ht, hbase, hsem, I2C_transfer] at h
        exact ⟨qp, rest, t, d, rfl, ht, rfl, hb, rfl, rfl, h.symm⟩
  · subst hp
    simp [SB_i2cTask_iteration, BIOS_WAIT_FOREVER] at h


/-- `SB_i2cQueueTransaction` keeps the invariant and the order. -/
theorem I2C_Inv_enqueue {st st' : I2C_State} {transaction : Option Nat} {timeout : Nat}
    {mallocOk : Bool} {e : SB_Error} (hinv : I2C_Inv st)
    (h : SB_i2cQueueTransaction st transaction timeout mallocOk = some (e, st')) :
    I2C_Inv st' ∧ (I2C_Fifo st → I2C_Fifo st') := by
  rcases SB_i2cQueueTransaction_some h with h1 | h1 | h1 | h1 | h1
  · rw [h1.2.1]
    exact ⟨hinv, id⟩
  · rw [h1.2.1]
    exact ⟨hinv, id⟩
  · rw [h1.2.1]
    exact ⟨hinv, id⟩
  · rw [h1.2.1]
    exact ⟨hinv, id⟩
  · obtain ⟨_, _, _, t, c, d, _, hbase, hsem, hq, hd, hst⟩ := h1
    obtain ⟨i1, i2, i3, i4, i5, i6⟩ := hinv
    subst hst
    refine ⟨⟨i1, i2, ?_, ?_, i5, i6⟩, fun hf => ⟨?_, ?_⟩⟩
    · rw [i3] at hd
      simp only [Option.some.injEq] at hd
      simp [hd]
    · intro qp hqp
      simp only [List.mem_append, List.mem_singleton] at hqp
      rcases hqp with hqp | hqp
      · exact i4 qp hqp
      · subst hqp
        exact ⟨t, rfl, hbase, hsem⟩
    · have := hf.1
      simp only [transferredOf_append, enqueuedOf_append, List.filterMap_append]
      simp [transferredOf, enqueuedOf, ← this]
    · have := hf.2
      simp only [transferredOf_append, signaledOf_append]
      simpa [transferredOf, signaledOf] using this

/-- A completion of the transfer in progress, by the driver or forced by the
timeout, keeps the invariant and the order. -/
theorem I2C_Inv_completion {st st' : I2C_State} {d : I2C_Driver} {t : Nat} {result : Bool}
    (hinv : I2C_Inv st) (hd : st.handle = some d) (hcur : st.currentTransaction = some t)
    (h : SB_i2cTransferCompleteHandler
      { st with handle := some { d with pending := d.pending - 1 } } result = some st') :
    I2C_Inv st' ∧ (I2C_Fifo st → I2C_Fifo st') := by
  obtain ⟨i1, i2, i3, i4, i5, i6⟩ := hinv
  rcases i6 with ⟨hc, _⟩ | ⟨t', hc, hp, hb, hbase, hsem⟩
  · rw [hc] at hcur
    cases hcur
  · rw [hc] at hcur
    cases hcur
    obtain ⟨s, hs⟩ := Option.ne_none_iff_exists'.mp hsem
    rw [SB_i2cTransferCompleteHandler_occupied
      { st with handle := some { d with pending := d.pending - 1 } } result t s 0 hc hs hp] at h
    simp only [Option.some.injEq] at h
    subst h
    have hpend : d.pending = 1 := by
      simpa [busPending, hd] using hb
    refine ⟨⟨i1, i2, i3, ?_, ?_, Or.inl ⟨rfl, rfl, ?_⟩⟩, fun hf => ⟨?_, ?_⟩⟩
    · intro qp hqp
      obtain ⟨u, hu, hb', hs'⟩ := i4 qp hqp
      refine ⟨u, hu, ?_, ?_⟩
      · simpa only [(update_result_pointers st.mem t u _).1] using hb'
      · simpa only [(update_result_pointers st.mem t u _).2] using hs'
    · intro d' hd'
      simp only [Option.some.injEq] at hd'
      subst hd'
      exact i5 d hd
    · simp [busPending, hpend]
    · have := hf.1
      simp only [transferredOf_append, enqueuedOf_append]
      simpa [transferredOf, enqueuedOf] using this
    · have := hf.2
      rw [hc] at this
      simp only [transferredOf_append, signaledOf_append]
      simpa [transferredOf, signaledOf] using this

/-- A pass of the driver task keeps the invariant and the order. -/
theorem I2C_Inv_task {st st' : I2C_State} (hinv : I2C_Inv st)
    (h : SB_i2cTask_iteration st = some st') :
    I2C_Inv st' ∧ (I2C_Fifo st → I2C_Fifo st') := by
  obtain ⟨qp, rest, t, d, hq, ht, hd, hpend, hcur, hproc, hst⟩ :=
    SB_i2cTask_iteration_of_inv hinv h
  obtain ⟨i1, i2, i3, i4, i5, i6⟩ := hinv
  subst hst
  obtain ⟨t', ht', hbase, hsem⟩ := i4 qp (by rw [hq]; exact List.mem_cons_self _ _)
  rw [ht] at ht'
  cases ht'
  refine ⟨⟨i1, i2, rfl, ?_, ?_, Or.inr ⟨t, rfl, rfl, ?_, hbase, hsem⟩⟩, fun hf => ⟨?_, ?_⟩⟩
  · intro qp' hqp'
    exact i4 qp' (by rw [hq]; exact List.mem_cons_of_mem _ hqp')
  · intro d' hd'
    simp only [Option.some.injEq] at hd'
    subst hd'
    exact i5 d hd
  · simp [busPending, hpend]
  · have := hf.1
    rw [hq] at this
    simp only [transferredOf_append, enqueuedOf_append]
    simpa [transferredOf, enqueuedOf, ht] using this
  · have := hf.2
    rw [hcur] at this
    simp only [transferredOf_append, signaledOf_append]
    simpa [transferredOf, signaledOf] using this

/-- Every step keeps the invariant and the order. -/
theorem I2C_Inv_step {st st' : I2C_State} {s : I2C_Step} (hinv : I2C_Inv st)
    (h : I2C_step st s = some st') : I2C_Inv st' ∧ (I2C_Fifo st → I2C_Fifo st') := by
  cases s with
  | enqueue transaction timeout mallocOk =>
    obtain ⟨⟨e, st''⟩, hr, hst⟩ := Option.map_eq_some'.mp h
    simp only at hst
    subst hst
    exact I2C_Inv_enqueue hinv hr
  | task => exact I2C_Inv_task hinv h
  | complete result =>
    simp only [I2C_step, I2C_driverComplete] at h
    cases hd : st.handle with
    | none => simp [hd] at h
    | some d =>
      simp only [hd] at h
      by_cases hp : d.pending = 0
      · simp [hp] at h
      · simp only [hp, if_false] at h
        have i6 := hinv.2.2.2.2.2
        rcases i6 with ⟨_, _, hb⟩ | ⟨t, hc, _⟩
        · simp [busPending, hd] at hb
          exact absurd hb hp
        · exact I2C_Inv_completion hinv hd hc h
  | timeout =>
    simp only [I2C_step, SB_i2cTransactionTimeoutHandler] at h
    cases hc : st.currentTransaction with
    | none =>
      simp only [hc, Option.some.injEq] at h
      subst h
      exact ⟨hinv, id⟩
    | some t =>
      simp only [hc] at h
      cases hd : st.handle with
      | none => simp [hd] at h
      | some d =>
        have hhwi := hinv.2.2.2.2.1 d hd
        simp only [hd] at h
        rw [if_pos hhwi] at h
        exact I2C_Inv_completion hinv hd hc h

/-- Every run keeps the invariant and the order. -/
theorem I2C_Inv_run {steps : List I2C_Step} {st st' : I2C_State} (hinv : I2C_Inv st)
    (h : I2C_run st steps = some st') : I2C_Inv st' ∧ (I2C_Fifo st → I2C_Fifo st') := by
  induction steps generalizing st with
  | nil =>
    simp only [I2C_run, Option.some.injEq] at h
    subst h
    exact ⟨hinv, id⟩
  | cons s rest ih =>
    simp only [I2C_run] at h
    cases hs : I2C_step st s with
    | none => simp [hs] at h
    | some st₁ =>
      simp only [hs] at h
      obtain ⟨h1, h2⟩ := I2C_Inv_step hinv hs
      obtain ⟨h3, h4⟩ := ih h1 h
      exact ⟨h3, fun hf => h4 (h2 hf)⟩


/-! ## Order and exclusivity -/

/-- C4: in every state that a run of enqueue calls, driver-task passes,
completion callbacks of the bus driver and timeouts reaches after a
successful `SB_i2cInit` (the trace being empty at that point), the
transactions handed to the bus driver are an initial part of the accepted
transactions in order of acceptance, what remains of these being the queue
front to back; and the transactions whose completion semaphore was posted are
an initial part of the transactions handed over, in the same order, what
remains being the transaction in the current slot. -/
theorem I2C_fifo_order (st₀ st₁ st : I2C_State) (env : I2C_InitEnv) (steps : List I2C_Step)
    (hinit : SB_i2cInit st₀ env = some (SB_Error.NoError, st₁)) (htrace : st₀.trace = [])
    (hrun : I2C_run st₁ steps = some st) :
    transferredOf st.trace <+: enqueuedOf st.trace ∧
    signaledOf st.trace <+: transferredOf st.trace ∧
    transferredOf st.trace ++ st.i2cQueue.filterMap (fun qp => qp.transaction)
      = enqueuedOf st.trace ∧
    signaledOf st.trace ++ st.currentTransaction.toList = transferredOf st.trace := by
  have hinv : I2C_Inv st₁ := I2C_Inv_init hinit
  have hfifo : I2C_Fifo st₁ := by
    rcases SB_i2cInit_some hinit with ⟨h1, _⟩ | ⟨_, h1⟩
    · rcases h1 with h1 | h1 <;> cases h1
    · subst h1
      simp [I2C_Fifo, htrace, enqueuedOf, transferredOf, signaledOf]
  obtain ⟨h1, h2⟩ := (I2C_Inv_run hinv hrun).2 hfifo
  exact ⟨⟨_, h1⟩, ⟨_, h2⟩, h1, h2⟩

/-- Witness for C4: after `sampleRun` the transactions at `1` and `3` were
accepted, handed over and signaled in this order. -/
theorem I2C_fifo_order_witness :
    ∃ st, I2C_run readyState sampleRun = some st ∧
      enqueuedOf st.trace = [1, 3] ∧ transferredOf st.trace = [1, 3] ∧
      signaledOf st.trace = [1, 3] ∧
      (transferredOf st.trace <+: enqueuedOf st.trace ∧
        signaledOf st.trace <+: transferredOf st.trace ∧
        transferredOf st.trace ++ st.i2cQueue.filterMap (fun qp => qp.transaction)
          = enqueuedOf st.trace ∧
        signaledOf st.trace ++ st.currentTransaction.toList = transferredOf st.trace) :=
  ⟨_, rfl, rfl, rfl, rfl,
    I2C_fifo_order bootState readyState _ initEnvOk sampleRun rfl rfl rfl⟩

/-- As long as the bus driver calls back once for each transfer it was handed
and never for a transfer that the timeout has completed: in every state that
a run of enqueue calls, driver-task passes, such completion callbacks and
timeouts reaches after a successful `SB_i2cInit`, the count of the processing
permit plus the number of transfers handed to the bus driver and not yet
completed is at most one. -/
theorem I2C_processing_permit_invariant (st₀ st₁ st : I2C_State) (env : I2C_InitEnv)
    (steps : List I2C_Step)
    (hinit : SB_i2cInit st₀ env = some (SB_Error.NoError, st₁))
    (hrun : I2C_run st₁ steps = some st) :
    procPermits st + busPending st ≤ 1 := by
  have hinv := (I2C_Inv_run (I2C_Inv_init hinit) hrun).1
  rcases hinv.2.2.2.2.2 with ⟨_, hp, hb⟩ | ⟨t, _, hp, hb, _⟩
  · simp [procPermits, hp, hb]
  · simp [procPermits, hp, hb]

/-- The permit count on `sampleRun`: the state after its first six steps, with
the second transfer in progress, and the state after all of it. -/
theorem I2C_processing_permit_invariant_witness :
    (∃ st, I2C_run readyState (sampleRun.take 6) = some st ∧
      st.currentTransaction = some 3 ∧ busPending st = 1 ∧
      procPermits st + busPending st ≤ 1) ∧
    (∃ st, I2C_run readyState sampleRun = some st ∧
      st.currentTransaction = none ∧ procPermits st = 1 ∧
      procPermits st + busPending st ≤ 1) :=
  ⟨⟨_, rfl, rfl, rfl,
      I2C_processing_permit_invariant bootState readyState _ initEnvOk (sampleRun.take 6)
        rfl rfl⟩,
    ⟨_, rfl, rfl, rfl,
      I2C_processing_permit_invariant bootState readyState _ initEnvOk sampleRun rfl rfl⟩⟩

/-- C5, the code at the failing input: after a successful `SB_i2cInit` the
run `lateRun` is possible.  After its first four steps, the last of them the
late completion, the slot is empty and the permit is at count `2`; after all
of it the transfers of the transactions at `3` and at `1` have both been
handed to the bus driver and neither is completed, so that two transfers are
in flight and the permit count plus the transfers in flight is `2`. -/
theorem I2C_permit_late_completion :
    SB_i2cInit bootState initEnvOk = some (SB_Error.NoError, readyState) ∧
    (∃ st, I2C_lateRun readyState (lateRun.take 4) = some st ∧
      st.currentTransaction = none ∧ busPending st = 0 ∧ procPermits st = 2) ∧
    ∃ st, I2C_lateRun readyState lateRun = some st ∧
      transferredOf st.trace = [1, 3, 1] ∧ signaledOf st.trace = [1] ∧
      procPermits st = 0 ∧ busPending st = 2 ∧
      ¬ (procPermits st + busPending st ≤ 1) :=
  ⟨rfl, ⟨_, rfl, rfl, rfl, rfl⟩, _, rfl, rfl, rfl, rfl, rfl, by decide⟩


/-! ## The polling loops of the peripheral manager -/

/-- A loop whose bodies all keep a quantity keeps it. -/
theorem forLoop_keeps {σ V : Type} (f : σ → V) (body : Nat → σ → σ)
    (h : ∀ j s, f (body j s) = f s) (n : Nat) (s : σ) : f (forLoop body n s) = f s := by
  induction n with
  | zero => rfl
  | succ n ih => rw [forLoop, h, ih]

/-- A loop over devices, seen through a per-device view: when the body for
`j` keeps the view of every other device and its effect on the view of `j`
depends on that view alone, the loop changes the view of each device below
the bound as that device's body does from the start state, and keeps the
view of the others. -/
theorem forLoop_view {σ V : Type} (view : Nat → σ → V) (body : Nat → σ → σ)
    (hframe : ∀ j k s, k ≠ j → view k (body j s) = view k s)
    (hlocal : ∀ j s t, view j s = view j t → view j (body j s) = view j (body j t))
    (n : Nat) (s : σ) (i : Nat) :
    view i (forLoop body n s) = if i < n then view i (body i s) else view i s := by
  induction n with
  | zero => simp [forLoop]
  | succ n ih =>
    rw [forLoop]
    by_cases hin : i = n
    · subst hin
      have h1 : view i (forLoop body i s) = view i s := by simpa using ih
      rw [hlocal i _ _ h1]
      simp
    · rw [hframe n i _ hin, ih]
      by_cases hlt : i < n
      · simp [hlt, Nat.lt_succ_of_lt hlt]
      · have : ¬ i < n + 1 := by omega
        simp [hlt, this]


/-- The read of temperature sensor `j` keeps the view of every other one. -/
theorem readSensorData_mcp9808_frame (cfg : PMGR_Config) (bus : PMGR_Bus) (j k : Nat)
    (s : PMGR_State) (hk : k ≠ j) :
    tempView k (readSensorData_mcp9808 cfg bus j s) = tempView k s := by
  have hjk : j ≠ k := fun h => hk h.symm
  unfold readSensorData_mcp9808 tempView tca9554a_setPinStatus
  simp only [Function.update_same]
  split_ifs <;>
    simp [Function.update_noteq hk, List.filter_append, tempEvent, hjk]

/-- The effect of the read of temperature sensor `j` on its view depends on
that view alone. -/
theorem readSensorData_mcp9808_local (cfg : PMGR_Config) (bus : PMGR_Bus) (j : Nat)
    (s t : PMGR_State) (h : tempView j s = tempView j t) :
    tempView j (readSensorData_mcp9808 cfg bus j s)
      = tempView j (readSensorData_mcp9808 cfg bus j t) := by
  simp only [tempView, Prod.mk.injEq] at h
  obtain ⟨h1, h2, h3⟩ := h
  unfold readSensorData_mcp9808 tempView tca9554a_setPinStatus
  simp only [Function.update_same, h2]
  split_ifs <;>
    simp_all [List.filter_append, tempEvent]

/-- The read of a temperature sensor keeps the view of the humidity sensor. -/
theorem readSensorData_mcp9808_hdc (cfg : PMGR_Config) (bus : PMGR_Bus) (j : Nat)
    (s : PMGR_State) : hdcView (readSensorData_mcp9808 cfg bus j s) = hdcView s := by
  unfold readSensorData_mcp9808 hdcView tca9554a_setPinStatus
  simp only [Function.update_same]
  split_ifs <;> simp [List.filter_append, hdcEvent]

/-- The configuration of temperature sensor `j` keeps the view of every other
one. -/
theorem initPeripherals_mcp9808_frame (cfg : PMGR_Config) (bus : PMGR_Bus) (j k : Nat)
    (s : PMGR_State) (hk : k ≠ j) :
    tempView k (initPeripherals_mcp9808 cfg bus j s) = tempView k s := by
  have hjk : j ≠ k := fun h => hk h.symm
  unfold initPeripherals_mcp9808 tempView applyTempSensorConfiguration
  simp only [Function.update_same]
  split_ifs <;>
    simp [Function.update_noteq hk, List.filter_append, tempEvent, hjk]

/-- The effect of the configuration of temperature sensor `j` on its view
depends on that view alone. -/
theorem initPeripherals_mcp9808_local (cfg : PMGR_Config) (bus : PMGR_Bus) (j : Nat)
    (s t : PMGR_State) (h : tempView j s = tempView j t) :
    tempView j (initPeripherals_mcp9808 cfg bus j s)
      = tempView j (initPeripherals_mcp9808 cfg bus j t) := by
  simp only [tempView, Prod.mk.injEq] at h
  obtain ⟨h1, h2, h3⟩ := h
  unfold initPeripherals_mcp9808 tempView applyTempSensorConfiguration
  simp only [Function.update_same, h2]
  split_ifs <;>
    simp_all [List.filter_append, tempEvent]

/-- The configuration of a temperature sensor keeps the view of the humidity
sensor. -/
theorem initPeripherals_mcp9808_hdc (cfg : PMGR_Config) (bus : PMGR_Bus) (j : Nat)
    (s : PMGR_State) : hdcView (initPeripherals_mcp9808 cfg bus j s) = hdcView s := by
  unfold initPeripherals_mcp9808 hdcView applyTempSensorConfiguration
  simp only [Function.update_same]
  split_ifs <;> simp [List.filter_append, hdcEvent]

/-- The humidity part of `readSensorData` keeps the view of every
temperature sensor. -/
theorem readSensorData_hdc1050_frame (cfg : PMGR_Config) (bus : PMGR_Bus) (i : Nat)
    (s : PMGR_State) : tempView i (readSensorData_hdc1050 cfg bus s) = tempView i s := by
  unfold readSensorData_hdc1050 tempView tca9554a_setPinStatus hdc1050_readTempHumidity
  simp only
  split_ifs <;> simp [List.filter_append, tempEvent]

/-- The humidity part of `initPeripherals` keeps the view of every
temperature sensor. -/
theorem initPeripherals_hdc1050_frame (cfg : PMGR_Config) (bus : PMGR_Bus) (i : Nat)
    (s : PMGR_State) : tempView i (initPeripherals_hdc1050 cfg bus s) = tempView i s := by
  unfold initPeripherals_hdc1050 tempView applyHumiditySensorConfiguration
    hdc1050_startTempHumidityConversion
  simp only
  split_ifs <;> simp [List.filter_append, tempEvent]

/-- The read of temperature sensor `j` makes no telemetry call with another
index on the temperature channel. -/
theorem readSensorData_mcp9808_pub_frame (cfg : PMGR_Config) (bus : PMGR_Bus) (j k : Nat)
    (s : PMGR_State) (hk : k ≠ j) :
    pubView k (readSensorData_mcp9808 cfg bus j s) = pubView k s := by
  have hjk : j ≠ k := fun h => hk h.symm
  unfold readSensorData_mcp9808 pubView tca9554a_setPinStatus
  simp only [Function.update_same]
  split_ifs <;>
    simp [Function.update_noteq hk, List.filter_append, isTemperaturePublish, hjk]

/-- The telemetry of the read of temperature sensor `j` depends on its
records alone. -/
theorem readSensorData_mcp9808_pub_local (cfg : PMGR_Config) (bus : PMGR_Bus) (j : Nat)
    (s t : PMGR_State) (h : pubView j s = pubView j t) :
    pubView j (readSensorData_mcp9808 cfg bus j s)
      = pubView j (readSensorData_mcp9808 cfg bus j t) := by
  simp only [pubView, Prod.mk.injEq] at h
  obtain ⟨h1, h2, h3⟩ := h
  unfold readSensorData_mcp9808 pubView tca9554a_setPinStatus
  simp only [Function.update_same, h2]
  split_ifs <;>
    simp_all [List.filter_append, isTemperaturePublish]

/-- The humidity part of `readSensorData` makes no telemetry call on the
temperature channel with an index other than `3`, the index under which it
publishes its own temperature. -/
theorem readSensorData_hdc1050_pub_frame (cfg : PMGR_Config) (bus : PMGR_Bus) (i : Nat)
    (s : PMGR_State) (hi : i ≠ 3) :
    pubView i (readSensorData_hdc1050 cfg bus s) = pubView i s := by
  have h3 : (3 == i) = false := by simpa using fun h => hi h.symm
  unfold readSensorData_hdc1050 pubView tca9554a_setPinStatus hdc1050_readTempHumidity
  simp only
  split_ifs <;> simp [List.filter_append, isTemperaturePublish, h3]

/-- Through `readSensorData` the view of temperature sensor `i` changes as
its own read does. -/
theorem readSensorData_tempView (cfg : PMGR_Config) (bus : PMGR_Bus) (s : PMGR_State)
    (i : Nat) (hi : i < cfg.SB_NUM_MCP9808_SENSORS) :
    tempView i (readSensorData cfg bus s).2
      = tempView i (readSensorData_mcp9808 cfg bus i s) := by
  unfold readSensorData
  simp only
  rw [readSensorData_hdc1050_frame cfg bus i _,
    forLoop_view tempView (readSensorData_mcp9808 cfg bus)
      (readSensorData_mcp9808_frame cfg bus) (readSensorData_mcp9808_local cfg bus), if_pos hi]

/-- Through `readSensorData` the telemetry with index `i` on the temperature
channel, for `i` below the number of sensors and not `3`, changes as the read
of sensor `i` does. -/
theorem readSensorData_pubView (cfg : PMGR_Config) (bus : PMGR_Bus) (s : PMGR_State)
    (i : Nat) (hi : i < cfg.SB_NUM_MCP9808_SENSORS) (h3 : i ≠ 3) :
    pubView i (readSensorData cfg bus s).2
      = pubView i (readSensorData_mcp9808 cfg bus i s) := by
  unfold readSensorData
  simp only
  rw [readSensorData_hdc1050_pub_frame cfg bus i _ h3,
    forLoop_view pubView (readSensorData_mcp9808 cfg bus)
      (readSensorData_mcp9808_pub_frame cfg bus) (readSensorData_mcp9808_pub_local cfg bus),
    if_pos hi]

/-- Through an `initPeripherals` that gets past the IO expander the view of
temperature sensor `i` changes as its own configuration does. -/
theorem initPeripherals_tempView (cfg : PMGR_Config) (bus : PMGR_Bus) (s : PMGR_State)
    (i : Nat) (hi : i < cfg.SB_NUM_MCP9808_SENSORS)
    (hio : cfg.IOEXPANDER_PRESENT = false ∨ bus.ioexpanderConfig = SB_Error.NoError) :
    tempView i (initPeripherals cfg bus s).2
      = tempView i (initPeripherals_mcp9808 cfg bus i s) := by
  have hloop : ∀ s₀ : PMGR_State, tempView i s₀ = tempView i s →
      tempView i (initPeripherals_hdc1050 cfg bus
          (forLoop (initPeripherals_mcp9808 cfg bus) cfg.SB_NUM_MCP9808_SENSORS s₀))
        = tempView i (initPeripherals_mcp9808 cfg bus i s) := by
    intro s₀ h0
    rw [initPeripherals_hdc1050_frame,
      forLoop_view tempView (initPeripherals_mcp9808 cfg bus)
        (initPeripherals_mcp9808_frame cfg bus) (initPeripherals_mcp9808_local cfg bus),
      if_pos hi]
    exact initPeripherals_mcp9808_local cfg bus i s₀ s h0
  unfold initPeripherals
  by_cases hp : cfg.IOEXPANDER_PRESENT = true
  · have hok : bus.ioexpanderConfig = SB_Error.NoError := by
      rcases hio with h | h
      · rw [hp] at h
        cases h
      · exact h
    simp only [hp, if_true, applyIOExpanderConfiguration, hok]
    exact hloop _ (by simp [tempView, List.filter_append, tempEvent])
  · simp only [hp, if_false]
    exact hloop s rfl

/-! ## Temperature decoding and reading -/

/-- The masked big-endian value of two received bytes. -/
theorem readSensorData_decode_eq (rx0 rx1 : Nat) (h1 : rx1 < 256) :
    readSensorData_decode rx0 rx1 = (rx0 % 16) * 256 + rx1 := by
  unfold readSensorData_decode
  have hor : (rx0 <<< 8) ||| rx1 = 2 ^ 8 * rx0 + rx1 := by
    rw [Nat.shiftLeft_eq, Nat.mul_comm]
    exact (Nat.mul_add_lt_is_or (by omega : rx1 < 2 ^ 8) rx0).symm
  have hmask : (0x0FFF : Nat) = 2 ^ 12 - 1 := by norm_num
  rw [hor, Nat.and_comm, hmask, Nat.and_pow_two_sub_one_eq_mod]
  omega

/-- C15: for received bytes `b0`, `b1` in `0..255` the decoded value
`0x0FFF & ((b0 << 8) | b1)` is `(b0 mod 16) * 256 + b1` and lies in
`0..4095`; for the fixture bytes `0x0B`, `0x90` it is `0xB90`. -/
theorem readSensorData_decode_value (b0 b1 : Nat) (_h0 : b0 < 256) (h1 : b1 < 256) :
    readSensorData_decode b0 b1 = (b0 % 16) * 256 + b1 ∧
    readSensorData_decode b0 b1 ≤ 4095 ∧
    readSensorData_decode 0x0B 0x90 = 0xB90 := by
  have h := readSensorData_decode_eq b0 b1 h1
  refine ⟨h, ?_, by decide⟩
  rw [h]
  omega

/-- Witness for C15: the fixture bytes, and the largest bytes. -/
theorem readSensorData_decode_value_witness :
    readSensorData_decode 0x0B 0x90 = 0xB90 ∧
    (readSensorData_decode 255 255 = (255 % 16) * 256 + 255 ∧
      readSensorData_decode 255 255 ≤ 4095 ∧
      readSensorData_decode 0x0B 0x90 = 0xB90) :=
  ⟨(readSensorData_decode_value 0x0B 0x90 (by decide) (by decide)).2.2,
    readSensorData_decode_value 255 255 (by decide) (by decide)⟩

/-- C16: let temperature sensor `i` be `PState_OK` or `PState_Intermittent`
when `readSensorData` starts, with at most three temperature sensors (so that
index `3`, under which the humidity sensor publishes, is none of them).  If
its read completes with `NoError`, the stored reading is the decoded value,
exactly one more telemetry call on the temperature channel with index `i` was
made, carrying that value, and the health state and attempt counter are as
before.  If the read fails, no such telemetry call was made and the stored
reading is as before. -/
theorem readSensorData_temperature (cfg : PMGR_Config) (bus : PMGR_Bus) (s : PMGR_State)
    (i : Nat) (hi : i < cfg.SB_NUM_MCP9808_SENSORS) (hnum : cfg.SB_NUM_MCP9808_SENSORS ≤ 3)
    (hstate : (s.mcp9808DeviceStates i).currentState = PState.PState_OK ∨
      (s.mcp9808DeviceStates i).currentState = PState.PState_Intermittent) :
    (bus.tempRead i = SB_Error.NoError →
      ((readSensorData cfg bus s).2.mcp9808Devices i).Temperature
        = readSensorData_decode ((bus.rxBuf i).1 % 256) ((bus.rxBuf i).2 % 256) ∧
      (readSensorData cfg bus s).2.trace.filter (isTemperaturePublish i)
        = s.trace.filter (isTemperaturePublish i) ++
          [PMGR_Event.publish SB_Characteristic.SB_CHARACTERISTIC_TEMPERATURE
            (readSensorData_decode ((bus.rxBuf i).1 % 256) ((bus.rxBuf i).2 % 256)) i] ∧
      ((readSensorData cfg bus s).2.mcp9808DeviceStates i).currentState
        = (s.mcp9808DeviceStates i).currentState ∧
      ((readSensorData cfg bus s).2.mcp9808DeviceStates i).numReadAttempts
        = (s.mcp9808DeviceStates i).numReadAttempts) ∧
    (bus.tempRead i ≠ SB_Error.NoError →
      (readSensorData cfg bus s).2.trace.filter (isTemperaturePublish i)
        = s.trace.filter (isTemperaturePublish i) ∧
      ((readSensorData cfg bus s).2.mcp9808Devices i).Temperature
        = (s.mcp9808Devices i).Temperature) := by
  have hv := readSensorData_pubView cfg bus s i hi (by omega)
  simp only [pubView, Prod.mk.injEq] at hv
  obtain ⟨hd, hp, ht⟩ := hv
  rw [hd, hp, ht]
  refine ⟨fun hok => ?_, fun hfail => ?_⟩
  · unfold readSensorData_mcp9808 tca9554a_setPinStatus
    simp only [Function.update_same]
    split_ifs <;> simp [List.filter_append, isTemperaturePublish]
  · unfold readSensorData_mcp9808 tca9554a_setPinStatus
    simp only [Function.update_same]
    split_ifs <;> simp [List.filter_append, isTemperaturePublish]

/-- Witness for C16: sensor `0` of the sample state, read with success and
with failure. -/
theorem readSensorData_temperature_witness :
    ((readSensorData sampleCfg sampleBus samplePMGR).2.mcp9808Devices 0).Temperature = 0xB90 ∧
    (readSensorData sampleCfg sampleBus samplePMGR).2.trace.filter (isTemperaturePublish 0)
      = [PMGR_Event.publish SB_Characteristic.SB_CHARACTERISTIC_TEMPERATURE 0xB90 0] ∧
    (readSensorData sampleCfg failingBus samplePMGR).2.trace.filter (isTemperaturePublish 0)
      = [] ∧
    ((readSensorData sampleCfg failingBus samplePMGR).2.mcp9808Devices 0).Temperature = 0 :=
  ⟨((readSensorData_temperature sampleCfg sampleBus samplePMGR 0 (by decide) (by decide)
      (Or.inl rfl)).1 rfl).1,
    ((readSensorData_temperature sampleCfg sampleBus samplePMGR 0 (by decide) (by decide)
      (Or.inl rfl)).1 rfl).2.1,
    ((readSensorData_temperature sampleCfg failingBus samplePMGR 0 (by decide) (by decide)
      (Or.inl rfl)).2 (by decide)).1,
    ((readSensorData_temperature sampleCfg failingBus samplePMGR 0 (by decide) (by decide)
      (Or.inl rfl)).2 (by decide)).2⟩


/-! ## Health escalation -/

/-- A sensor that is `PState_Failed` is passed over by its configuration. -/
theorem initPeripherals_mcp9808_failed (cfg : PMGR_Config) (bus : PMGR_Bus) (i : Nat)
    (s : PMGR_State) (h : (s.mcp9808DeviceStates i).currentState = PState.PState_Failed) :
    initPeripherals_mcp9808 cfg bus i s = s := by
  unfold initPeripherals_mcp9808
  simp [h]

/-- A sensor that is neither `PState_OK` nor `PState_Intermittent` is passed
over by its read. -/
theorem readSensorData_mcp9808_skipped (cfg : PMGR_Config) (bus : PMGR_Bus) (i : Nat)
    (s : PMGR_State)
    (h : ¬ ((s.mcp9808DeviceStates i).currentState = PState.PState_OK ∨
      (s.mcp9808DeviceStates i).currentState = PState.PState_Intermittent)) :
    readSensorData_mcp9808 cfg bus i s = s := by
  unfold readSensorData_mcp9808
  simp [h]

/-- The health record after a failed configuration of temperature sensor `i`. -/
theorem initPeripherals_mcp9808_failure (cfg : PMGR_Config) (bus : PMGR_Bus) (i : Nat)
    (s : PMGR_State) (hstate : (s.mcp9808DeviceStates i).currentState ≠ PState.PState_Failed)
    (hfail : bus.tempConfig i ≠ SB_Error.NoError) :
    (initPeripherals_mcp9808 cfg bus i s).mcp9808DeviceStates i
      = tempConfigFailure cfg { s.mcp9808DeviceStates i with lastError := bus.tempConfig i } := by
  have hfail' : ¬ SB_Error.NoError = bus.tempConfig i := fun h => hfail h.symm
  unfold initPeripherals_mcp9808 applyTempSensorConfiguration tempConfigFailure
  simp only [Function.update_same]
  split_ifs <;> simp_all

/-- The health record after a successful configuration of temperature sensor
`i`. -/
theorem initPeripherals_mcp9808_success (cfg : PMGR_Config) (bus : PMGR_Bus) (i : Nat)
    (s : PMGR_State) (hstate : (s.mcp9808DeviceStates i).currentState ≠ PState.PState_Failed)
    (hok : bus.tempConfig i = SB_Error.NoError) :
    (initPeripherals_mcp9808 cfg bus i s).mcp9808DeviceStates i
      = { s.mcp9808DeviceStates i with
          lastError := SB_Error.NoError, currentState := PState.PState_OK } := by
  unfold initPeripherals_mcp9808 applyTempSensorConfiguration
  simp only [Function.update_same]
  split_ifs <;> simp_all

/-- The health record after a failed read of temperature sensor `i`. -/
theorem readSensorData_mcp9808_failure (cfg : PMGR_Config) (bus : PMGR_Bus) (i : Nat)
    (s : PMGR_State)
    (hstate : (s.mcp9808DeviceStates i).currentState = PState.PState_OK ∨
      (s.mcp9808DeviceStates i).currentState = PState.PState_Intermittent)
    (hfail : bus.tempRead i ≠ SB_Error.NoError) :
    (readSensorData_mcp9808 cfg bus i s).mcp9808DeviceStates i
      = tempReadFailure cfg (s.mcp9808DeviceStates i) := by
  unfold readSensorData_mcp9808 tca9554a_setPinStatus tempReadFailure
  simp only [Function.update_same]
  split_ifs <;> simp_all

/-- The health record after a successful read of temperature sensor `i`. -/
theorem readSensorData_mcp9808_success (cfg : PMGR_Config) (bus : PMGR_Bus) (i : Nat)
    (s : PMGR_State) (hok : bus.tempRead i = SB_Error.NoError) :
    (readSensorData_mcp9808 cfg bus i s).mcp9808DeviceStates i = s.mcp9808DeviceStates i := by
  unfold readSensorData_mcp9808 tca9554a_setPinStatus
  simp only [Function.update_same]
  split_ifs <;> simp_all

/-- The health record of the humidity sensor after a failed read. -/
theorem readSensorData_hdc1050_failure (cfg : PMGR_Config) (bus : PMGR_Bus) (s : PMGR_State)
    (hstate : s.hdc1050DeviceState.currentState = PState.PState_OK ∨
      s.hdc1050DeviceState.currentState = PState.PState_Intermittent)
    (hfail : bus.humidityRead ≠ SB_Error.NoError) :
    (readSensorData_hdc1050 cfg bus s).hdc1050DeviceState
      = humidityReadFailure cfg { s.hdc1050DeviceState with lastError := bus.humidityRead } := by
  unfold readSensorData_hdc1050 tca9554a_setPinStatus hdc1050_readTempHumidity
    humidityReadFailure
  simp only
  split_ifs <;> simp_all

/-- The two temperature places write the rule of the spec's data model. -/
theorem tempFailure_eq_spec (cfg : PMGR_Config) (p : SB_PeripheralState) :
    tempReadFailure cfg p = specEscalation cfg.PERIPHERAL_MAX_READ_ATTEMPTS p ∧
    tempConfigFailure cfg p = specEscalation cfg.PERIPHERAL_MAX_READ_ATTEMPTS p := by
  unfold tempReadFailure tempConfigFailure specEscalation
  simp only
  by_cases h : p.numReadAttempts < cfg.PERIPHERAL_MAX_READ_ATTEMPTS
  · have h' : ¬ p.numReadAttempts + 1 > cfg.PERIPHERAL_MAX_READ_ATTEMPTS := by omega
    simp [h, h']
  · have h' : p.numReadAttempts + 1 > cfg.PERIPHERAL_MAX_READ_ATTEMPTS := by omega
    simp [h, h']


/-- One failed attempt on a temperature sensor that is `PState_OK` or
`PState_Intermittent` counts the failure, and leaves the sensor
`PState_Intermittent` when the counter was below the threshold and
`PState_Failed` otherwise. -/
theorem tempAttempt_failure (cfg : PMGR_Config) (i : Nat) (s : PMGR_State)
    (a : TempSite × PMGR_Bus)
    (hstate : (s.mcp9808DeviceStates i).currentState = PState.PState_OK ∨
      (s.mcp9808DeviceStates i).currentState = PState.PState_Intermittent)
    (hfail : tempAttemptFails i a) :
    ((tempAttempt cfg i s a).mcp9808DeviceStates i).numReadAttempts
      = (s.mcp9808DeviceStates i).numReadAttempts + 1 ∧
    ((tempAttempt cfg i s a).mcp9808DeviceStates i).currentState
      = (if (s.mcp9808DeviceStates i).numReadAttempts < cfg.PERIPHERAL_MAX_READ_ATTEMPTS
          then PState.PState_Intermittent else PState.PState_Failed) := by
  have hnf : (s.mcp9808DeviceStates i).currentState ≠ PState.PState_Failed := by
    rcases hstate with h | h <;> rw [h] <;> decide
  obtain ⟨site, bus⟩ := a
  cases site with
  | configuration =>
    simp only [tempAttemptFails] at hfail
    simp only [tempAttempt]
    rw [initPeripherals_mcp9808_failure cfg bus i s hnf hfail, (tempFailure_eq_spec cfg _).2]
    unfold specEscalation
    split_ifs <;> simp_all
  | read =>
    simp only [tempAttemptFails] at hfail
    simp only [tempAttempt]
    rw [readSensorData_mcp9808_failure cfg bus i s hstate hfail, (tempFailure_eq_spec cfg _).1]
    unfold specEscalation
    split_ifs <;> simp_all

/-- A temperature sensor that is `PState_Failed` is passed over at both
places: nothing is queued and nothing changes. -/
theorem tempAttempt_failed (cfg : PMGR_Config) (i : Nat) (s : PMGR_State)
    (a : TempSite × PMGR_Bus)
    (h : (s.mcp9808DeviceStates i).currentState = PState.PState_Failed) :
    tempAttempt cfg i s a = s := by
  obtain ⟨site, bus⟩ := a
  cases site with
  | configuration => exact initPeripherals_mcp9808_failed cfg bus i s h
  | read =>
    refine readSensorData_mcp9808_skipped cfg bus i s ?_
    rw [h]
    decide

/-- Failed attempts in a row: the counter grows by their number, and after
the last one the sensor is `PState_Intermittent` while the counter does not
exceed the threshold and `PState_Failed` once it does. -/
theorem tempAttempts_failure (cfg : PMGR_Config) (i : Nat)
    (attempts : List (TempSite × PMGR_Bus)) :
    ∀ s : PMGR_State,
      ((s.mcp9808DeviceStates i).currentState = PState.PState_OK ∨
        (s.mcp9808DeviceStates i).currentState = PState.PState_Intermittent) →
      (∀ a ∈ attempts, tempAttemptFails i a) →
      (s.mcp9808DeviceStates i).numReadAttempts + attempts.length
        ≤ cfg.PERIPHERAL_MAX_READ_ATTEMPTS + 1 →
      ((attempts.foldl (tempAttempt cfg i) s).mcp9808DeviceStates i).numReadAttempts
        = (s.mcp9808DeviceStates i).numReadAttempts + attempts.length ∧
      (attempts ≠ [] →
        ((attempts.foldl (tempAttempt cfg i) s).mcp9808DeviceStates i).currentState
          = (if (s.mcp9808DeviceStates i).numReadAttempts + attempts.length
                ≤ cfg.PERIPHERAL_MAX_READ_ATTEMPTS
              then PState.PState_Intermittent else PState.PState_Failed)) := by
  induction attempts with
  | nil => intro s _ _ _; exact ⟨rfl, fun h => absurd rfl h⟩
  | cons a rest ih =>
    intro s hstate hfail hlen
    obtain ⟨hn, hc⟩ := tempAttempt_failure cfg i s a hstate (hfail a (List.mem_cons_self _ _))
    simp only [List.length_cons] at hlen
    simp only [List.foldl_cons, List.length_cons]
    by_cases hlt : (s.mcp9808DeviceStates i).numReadAttempts < cfg.PERIPHERAL_MAX_READ_ATTEMPTS
    · rw [if_pos hlt] at hc
      obtain ⟨h1, h2⟩ := ih (tempAttempt cfg i s a) (Or.inr hc)
        (fun b hb => hfail b (List.mem_cons_of_mem _ hb)) (by rw [hn]; omega)
      refine ⟨by rw [h1, hn]; omega, fun _ => ?_⟩
      cases rest with
      | nil =>
        simp only [List.foldl_nil, List.length_nil]
        rw [hc, if_pos (by omega)]
      | cons b rest' =>
        rw [h2 (List.cons_ne_nil _ _), hn]
        have e : (s.mcp9808DeviceStates i).numReadAttempts + 1 + (b :: rest').length
            = (s.mcp9808DeviceStates i).numReadAttempts + ((b :: rest').length + 1) := by omega
        rw [e]
    · rw [if_neg hlt] at hc
      have hrest : rest = [] := by
        cases rest with
        | nil => rfl
        | cons b rest' => simp only [List.length_cons] at hlen; omega
      subst hrest
      simp only [List.foldl_nil, List.length_nil]
      refine ⟨hn, fun _ => ?_⟩
      rw [hc, if_neg (by omega)]

/-- C11, counterexample: with threshold `N = 2`, sensor `0` of the sample
state, `PState_OK` with counter `0`, is `PState_Intermittent` and not
`PState_Failed` after two failed reads in a row. -/
theorem tempFailures_escalate_counterexample :
    sampleCfg.PERIPHERAL_MAX_READ_ATTEMPTS = 2 ∧
    (samplePMGR.mcp9808DeviceStates 0).currentState = PState.PState_OK ∧
    (samplePMGR.mcp9808DeviceStates 0).numReadAttempts = 0 ∧
    failingBus.tempRead 0 ≠ SB_Error.NoError ∧
    ((readSensorData sampleCfg failingBus
        (readSensorData sampleCfg failingBus samplePMGR).2).2.mcp9808DeviceStates 0).currentState
      = PState.PState_Intermittent ∧
    ((readSensorData sampleCfg failingBus
        (readSensorData sampleCfg failingBus samplePMGR).2).2.mcp9808DeviceStates 0).currentState
      ≠ PState.PState_Failed := by
  refine ⟨rfl, rfl, rfl, by decide, by decide, by decide⟩

/-- C11, amended: for every threshold `N` and every temperature sensor that
is `PState_OK` with attempt counter `0`, failed configuration or read
results in a row leave it `PState_Intermittent` after each of the first `N`
and `PState_Failed` after the one that follows, the `N + 1`-th; it is then
passed over by every later configuration and read, which queue nothing for
it and change nothing. -/
theorem tempFailures_escalate (cfg : PMGR_Config) (i : Nat) (s : PMGR_State)
    (attempts : List (TempSite × PMGR_Bus))
    (hok : (s.mcp9808DeviceStates i).currentState = PState.PState_OK)
    (hzero : (s.mcp9808DeviceStates i).numReadAttempts = 0)
    (hfail : ∀ a ∈ attempts, tempAttemptFails i a) :
    (0 < attempts.length → attempts.length ≤ cfg.PERIPHERAL_MAX_READ_ATTEMPTS →
      ((attempts.foldl (tempAttempt cfg i) s).mcp9808DeviceStates i).currentState
        = PState.PState_Intermittent) ∧
    (attempts.length = cfg.PERIPHERAL_MAX_READ_ATTEMPTS + 1 →
      ((attempts.foldl (tempAttempt cfg i) s).mcp9808DeviceStates i).currentState
        = PState.PState_Failed ∧
      ∀ a, tempAttempt cfg i (attempts.foldl (tempAttempt cfg i) s) a
        = attempts.foldl (tempAttempt cfg i) s) := by
  refine ⟨fun hpos hle => ?_, fun hlen => ?_⟩
  · have hne : attempts ≠ [] := by
      rintro rfl
      simp at hpos
    obtain ⟨_, h2⟩ := tempAttempts_failure cfg i attempts s (Or.inl hok) hfail
      (by rw [hzero]; omega)
    rw [h2 hne, hzero, if_pos (by omega)]
  · have hne : attempts ≠ [] := by
      rintro rfl
      simp at hlen
    obtain ⟨_, h2⟩ := tempAttempts_failure cfg i attempts s (Or.inl hok) hfail
      (by rw [hzero]; omega)
    have h3 : ((attempts.foldl (tempAttempt cfg i) s).mcp9808DeviceStates i).currentState
        = PState.PState_Failed := by
      rw [h2 hne, hzero, if_neg (by omega)]
    exact ⟨h3, fun a => tempAttempt_failed cfg i _ a h3⟩

/-- Witness for C11 (amended), threshold `2`: a failed read and a failed
configuration leave sensor `0` `PState_Intermittent`; one more failed read
leaves it `PState_Failed`. -/
theorem tempFailures_escalate_witness :
    ((([(TempSite.read, failingBus), (TempSite.configuration, failingBus)] :
        List (TempSite × PMGR_Bus)).foldl (tempAttempt sampleCfg 0) samplePMGR).mcp9808DeviceStates
      0).currentState = PState.PState_Intermittent ∧
    ((([(TempSite.read, failingBus), (TempSite.configuration, failingBus),
        (TempSite.read, failingBus)] :
        List (TempSite × PMGR_Bus)).foldl (tempAttempt sampleCfg 0) samplePMGR).mcp9808DeviceStates
      0).currentState = PState.PState_Failed :=
  ⟨(tempFailures_escalate sampleCfg 0 samplePMGR
      [(TempSite.read, failingBus), (TempSite.configuration, failingBus)] rfl rfl
      (by
        intro a ha
        simp only [List.mem_cons, List.mem_singleton, List.not_mem_nil, or_false] at ha
        rcases ha with rfl | rfl <;> simp [tempAttemptFails, failingBus])).1
      (by decide) (by decide),
    ((tempFailures_escalate sampleCfg 0 samplePMGR
      [(TempSite.read, failingBus), (TempSite.configuration, failingBus),
        (TempSite.read, failingBus)] rfl rfl
      (by
        intro a ha
        simp only [List.mem_cons, List.mem_singleton, List.not_mem_nil, or_false] at ha
        rcases ha with rfl | rfl | rfl <;> simp [tempAttemptFails, failingBus])).2
      (by decide)).1⟩


/-- C12, counterexample: sensor `0` of the sample state is
`PState_Intermittent` with counter `1` after one failed read; a successful
read then leaves it `PState_Intermittent` with counter `1`, and a successful
configuration makes it `PState_OK` but leaves the counter at `1`. -/
theorem success_resets_counterexample :
    (((readSensorData sampleCfg failingBus samplePMGR).2.mcp9808DeviceStates 0).currentState
        = PState.PState_Intermittent ∧
      ((readSensorData sampleCfg failingBus samplePMGR).2.mcp9808DeviceStates 0).numReadAttempts
        = 1) ∧
    sampleBus.tempRead 0 = SB_Error.NoError ∧ sampleBus.tempConfig 0 = SB_Error.NoError ∧
    (((readSensorData sampleCfg sampleBus
          (readSensorData sampleCfg failingBus samplePMGR).2).2.mcp9808DeviceStates
        0).currentState = PState.PState_Intermittent ∧
      ((readSensorData sampleCfg sampleBus
          (readSensorData sampleCfg failingBus samplePMGR).2).2.mcp9808DeviceStates
        0).numReadAttempts = 1) ∧
    (((initPeripherals sampleCfg sampleBus
          (readSensorData sampleCfg failingBus samplePMGR).2).2.mcp9808DeviceStates
        0).currentState = PState.PState_OK ∧
      ((initPeripherals sampleCfg sampleBus
          (readSensorData sampleCfg failingBus samplePMGR).2).2.mcp9808DeviceStates
        0).numReadAttempts = 1) := by
  refine ⟨⟨by decide, by decide⟩, rfl, rfl, ⟨by decide, by decide⟩, ⟨by decide, by decide⟩⟩

/-- C12, amended: no success resets the attempt counter.  For a temperature
sensor that is not `PState_Failed`, a successful configuration in an
`initPeripherals` that gets past the IO expander makes the state `PState_OK`
and leaves the counter as it was; for one that is `PState_OK` or
`PState_Intermittent`, a successful read in `readSensorData` leaves both the
state and the counter as they were. -/
theorem success_keeps_counter (cfg : PMGR_Config) (bus : PMGR_Bus) (s : PMGR_State) (i : Nat)
    (hi : i < cfg.SB_NUM_MCP9808_SENSORS) :
    ((cfg.IOEXPANDER_PRESENT = false ∨ bus.ioexpanderConfig = SB_Error.NoError) →
      (s.mcp9808DeviceStates i).currentState ≠ PState.PState_Failed →
      bus.tempConfig i = SB_Error.NoError →
      ((initPeripherals cfg bus s).2.mcp9808DeviceStates i).currentState = PState.PState_OK ∧
      ((initPeripherals cfg bus s).2.mcp9808DeviceStates i).numReadAttempts
        = (s.mcp9808DeviceStates i).numReadAttempts) ∧
    (((s.mcp9808DeviceStates i).currentState = PState.PState_OK ∨
        (s.mcp9808DeviceStates i).currentState = PState.PState_Intermittent) →
      bus.tempRead i = SB_Error.NoError →
      ((readSensorData cfg bus s).2.mcp9808DeviceStates i).currentState
        = (s.mcp9808DeviceStates i).currentState ∧
      ((readSensorData cfg bus s).2.mcp9808DeviceStates i).numReadAttempts
        = (s.mcp9808DeviceStates i).numReadAttempts) := by
  refine ⟨fun hio hstate hok => ?_, fun _ hok => ?_⟩
  · have hv := initPeripherals_tempView cfg bus s i hi hio
    simp only [tempView, Prod.mk.injEq] at hv
    rw [hv.2.1, initPeripherals_mcp9808_success cfg bus i s hstate hok]
    exact ⟨rfl, rfl⟩
  · have hv := readSensorData_tempView cfg bus s i hi
    simp only [tempView, Prod.mk.injEq] at hv
    rw [hv.2.1, readSensorData_mcp9808_success cfg bus i s hok]
    exact ⟨rfl, rfl⟩

/-- Witness for C12 (amended): sensor `0`, `PState_Intermittent` with counter
`1` after a failed read, configured and read with success. -/
theorem success_keeps_counter_witness :
    (((initPeripherals sampleCfg sampleBus
          (readSensorData sampleCfg failingBus samplePMGR).2).2.mcp9808DeviceStates
        0).currentState = PState.PState_OK ∧
      ((initPeripherals sampleCfg sampleBus
          (readSensorData sampleCfg failingBus samplePMGR).2).2.mcp9808DeviceStates
        0).numReadAttempts
        = ((readSensorData sampleCfg failingBus samplePMGR).2.mcp9808DeviceStates
          0).numReadAttempts) ∧
    (((readSensorData sampleCfg sampleBus
          (readSensorData sampleCfg failingBus samplePMGR).2).2.mcp9808DeviceStates
        0).currentState
        = ((readSensorData sampleCfg failingBus samplePMGR).2.mcp9808DeviceStates
          0).currentState ∧
      ((readSensorData sampleCfg sampleBus
          (readSensorData sampleCfg failingBus samplePMGR).2).2.mcp9808DeviceStates
        0).numReadAttempts
        = ((readSensorData sampleCfg failingBus samplePMGR).2.mcp9808DeviceStates
          0).numReadAttempts) :=
  ⟨(success_keeps_counter sampleCfg sampleBus
      (readSensorData sampleCfg failingBus samplePMGR).2 0 (by decide)).1
      (Or.inr rfl) (by decide) rfl,
    (success_keeps_counter sampleCfg sampleBus
      (readSensorData sampleCfg failingBus samplePMGR).2 0 (by decide)).2
      (Or.inr (by decide)) rfl⟩

/-- C13, the code at the failing input: with the humidity sensor
`PState_Failed`, an `initPeripherals` in which every transaction succeeds
queues the configuration and the conversion start of the humidity sensor and
leaves it `PState_OK`. -/
theorem initPeripherals_failed_humidity :
    failedHumidity.hdc1050DeviceState.currentState = PState.PState_Failed ∧
    (initPeripherals sampleCfg sampleBus failedHumidity).2.hdc1050DeviceState.currentState
      = PState.PState_OK ∧
    (initPeripherals sampleCfg sampleBus failedHumidity).2.trace.filter hdcEvent
      = [PMGR_Event.humidityConfig, PMGR_Event.startConversion] := by
  refine ⟨rfl, by decide, by decide⟩

/-- For the temperature sensors `PState_Failed` is final: neither
`initPeripherals` nor `readSensorData` changes the records of a sensor that
is `PState_Failed` or makes a call addressed to it. -/
theorem temperature_failed_final (cfg : PMGR_Config) (bus : PMGR_Bus) (s : PMGR_State)
    (i : Nat) (h : (s.mcp9808DeviceStates i).currentState = PState.PState_Failed) :
    tempView i (initPeripherals cfg bus s).2 = tempView i s ∧
    tempView i (readSensorData cfg bus s).2 = tempView i s := by
  have hkeep : ∀ (body : Nat → PMGR_State → PMGR_State),
      (∀ j k t, k ≠ j → tempView k (body j t) = tempView k t) →
      (∀ j t u, tempView j t = tempView j u → tempView j (body j t) = tempView j (body j u)) →
      body i s = s → ∀ n, tempView i (forLoop body n s) = tempView i s := by
    intro body hf hl hb n
    rw [forLoop_view tempView body hf hl]
    split_ifs
    · rw [hb]
    · rfl
  refine ⟨?_, ?_⟩
  · have hloop : ∀ s₀ : PMGR_State, tempView i s₀ = tempView i s →
        tempView i (initPeripherals_hdc1050 cfg bus
            (forLoop (initPeripherals_mcp9808 cfg bus) cfg.SB_NUM_MCP9808_SENSORS s₀))
          = tempView i s := by
      intro s₀ h0
      rw [initPeripherals_hdc1050_frame,
        forLoop_view tempView (initPeripherals_mcp9808 cfg bus)
          (initPeripherals_mcp9808_frame cfg bus) (initPeripherals_mcp9808_local cfg bus)]
      split_ifs
      · rw [initPeripherals_mcp9808_local cfg bus i s₀ s h0,
          initPeripherals_mcp9808_failed cfg bus i s h]
      · exact h0
    unfold initPeripherals
    by_cases hp : cfg.IOEXPANDER_PRESENT = true
    · simp only [hp, if_true, applyIOExpanderConfiguration]
      split_ifs
      · exact hloop _ (by simp [tempView, List.filter_append, tempEvent])
      · simp [tempView, List.filter_append, tempEvent]
    · simp only [hp, if_false]
      exact hloop s rfl
  · unfold readSensorData
    simp only
    rw [readSensorData_hdc1050_frame]
    exact hkeep (readSensorData_mcp9808 cfg bus) (readSensorData_mcp9808_frame cfg bus)
      (readSensorData_mcp9808_local cfg bus)
      (readSensorData_mcp9808_skipped cfg bus i s (by rw [h]; decide)) _


/-- C14, the code at the failing input: in the sample state temperature
sensor `0` and the humidity sensor are both `PState_OK` with counter `0`, and
the threshold is `2`.  After one `readSensorData` in which both reads fail
the temperature sensor is `PState_Intermittent` and the humidity sensor is
still `PState_OK`, both with counter `1`; after one `initPeripherals` in
which the temperature configuration and the start of the humidity conversion
fail it is the same. -/
theorem humidity_failure_not_intermittent :
    samplePMGR.hdc1050DeviceState.currentState
      = (samplePMGR.mcp9808DeviceStates 0).currentState ∧
    samplePMGR.hdc1050DeviceState.numReadAttempts
      = (samplePMGR.mcp9808DeviceStates 0).numReadAttempts ∧
    failingBus.tempRead 0 ≠ SB_Error.NoError ∧ failingBus.humidityRead ≠ SB_Error.NoError ∧
    (readSensorData sampleCfg failingBus samplePMGR).2.mcp9808DeviceStates 0
      = { currentState := PState.PState_Intermittent, numReadAttempts := 1,
          lastError := SB_Error.NoError } ∧
    (readSensorData sampleCfg failingBus samplePMGR).2.hdc1050DeviceState
      = { currentState := PState.PState_OK, numReadAttempts := 1,
          lastError := SB_Error.UnknownError } ∧
    (readSensorData sampleCfg failingBus samplePMGR).2.hdc1050DeviceState.currentState
      ≠ ((readSensorData sampleCfg failingBus samplePMGR).2.mcp9808DeviceStates 0).currentState ∧
    (initPeripherals sampleCfg
        { sampleBus with
          tempConfig := fun _ => SB_Error.UnknownError
          startConversion := SB_Error.UnknownError } samplePMGR).2.mcp9808DeviceStates 0
      = { currentState := PState.PState_Intermittent, numReadAttempts := 1,
          lastError := SB_Error.UnknownError } ∧
    (initPeripherals sampleCfg
        { sampleBus with
          tempConfig := fun _ => SB_Error.UnknownError
          startConversion := SB_Error.UnknownError } samplePMGR).2.hdc1050DeviceState
      = { currentState := PState.PState_OK, numReadAttempts := 1,
          lastError := SB_Error.UnknownError } := by
  refine ⟨rfl, rfl, by decide, by decide, by decide, by decide, by decide, by decide,
    by decide⟩

/-- What the three places do on a failure, for every state: a failed
temperature configuration and a failed temperature read apply one and the
same update to the health record, the rule of the spec's data model
(`PState_Intermittent` while the counter before the failure is below the
threshold, `PState_Failed` otherwise, the counter one higher).  The branch of
a failed humidity read counts the failure and sets `PState_Failed` under the
same condition, but has no assignment of `PState_Intermittent`: otherwise it
leaves the state as it was. -/
theorem escalation_sites (cfg : PMGR_Config) (bus : PMGR_Bus) (s : PMGR_State) (i : Nat) :
    ((s.mcp9808DeviceStates i).currentState ≠ PState.PState_Failed →
      bus.tempConfig i ≠ SB_Error.NoError →
      (initPeripherals_mcp9808 cfg bus i s).mcp9808DeviceStates i
        = specEscalation cfg.PERIPHERAL_MAX_READ_ATTEMPTS
            { s.mcp9808DeviceStates i with lastError := bus.tempConfig i }) ∧
    (((s.mcp9808DeviceStates i).currentState = PState.PState_OK ∨
        (s.mcp9808DeviceStates i).currentState = PState.PState_Intermittent) →
      bus.tempRead i ≠ SB_Error.NoError →
      (readSensorData_mcp9808 cfg bus i s).mcp9808DeviceStates i
        = specEscalation cfg.PERIPHERAL_MAX_READ_ATTEMPTS (s.mcp9808DeviceStates i)) ∧
    ((s.hdc1050DeviceState.currentState = PState.PState_OK ∨
        s.hdc1050DeviceState.currentState = PState.PState_Intermittent) →
      bus.humidityRead ≠ SB_Error.NoError →
      (readSensorData_hdc1050 cfg bus s).hdc1050DeviceState.numReadAttempts
        = s.hdc1050DeviceState.numReadAttempts + 1 ∧
      (readSensorData_hdc1050 cfg bus s).hdc1050DeviceState.currentState
        = (if s.hdc1050DeviceState.numReadAttempts < cfg.PERIPHERAL_MAX_READ_ATTEMPTS
            then s.hdc1050DeviceState.currentState else PState.PState_Failed)) := by
  refine ⟨fun hstate hfail => ?_, fun hstate hfail => ?_, fun hstate hfail => ?_⟩
  · rw [initPeripherals_mcp9808_failure cfg bus i s hstate hfail, (tempFailure_eq_spec cfg _).2]
  · rw [readSensorData_mcp9808_failure cfg bus i s hstate hfail, (tempFailure_eq_spec cfg _).1]
  · rw [readSensorData_hdc1050_failure cfg bus s hstate hfail]
    unfold humidityReadFailure
    simp only
    by_cases h : s.hdc1050DeviceState.numReadAttempts < cfg.PERIPHERAL_MAX_READ_ATTEMPTS
    · have h' : ¬ s.hdc1050DeviceState.numReadAttempts + 1
          > cfg.PERIPHERAL_MAX_READ_ATTEMPTS := by omega
      simp [h, h']
    · have h' : s.hdc1050DeviceState.numReadAttempts + 1
          > cfg.PERIPHERAL_MAX_READ_ATTEMPTS := by omega
      simp [h, h']

/-- The three places on the sample state with every transaction failing. -/
theorem escalation_sites_witness :
    (initPeripherals_mcp9808 sampleCfg failingBus 0 samplePMGR).mcp9808DeviceStates 0
      = specEscalation 2
          { samplePMGR.mcp9808DeviceStates 0 with lastError := SB_Error.UnknownError } ∧
    (readSensorData_mcp9808 sampleCfg failingBus 0 samplePMGR).mcp9808DeviceStates 0
      = specEscalation 2 (samplePMGR.mcp9808DeviceStates 0) ∧
    ((readSensorData_hdc1050 sampleCfg failingBus samplePMGR).hdc1050DeviceState.numReadAttempts
        = samplePMGR.hdc1050DeviceState.numReadAttempts + 1 ∧
      (readSensorData_hdc1050 sampleCfg failingBus samplePMGR).hdc1050DeviceState.currentState
        = (if samplePMGR.hdc1050DeviceState.numReadAttempts
              < sampleCfg.PERIPHERAL_MAX_READ_ATTEMPTS
            then samplePMGR.hdc1050DeviceState.currentState else PState.PState_Failed)) :=
  ⟨(escalation_sites sampleCfg failingBus samplePMGR 0).1 (by decide) (by decide),
    (escalation_sites sampleCfg failingBus samplePMGR 0).2.1 (Or.inl rfl) (by decide),
    (escalation_sites sampleCfg failingBus samplePMGR 0).2.2 (Or.inl rfl) (by decide)⟩

/-! ## The polling cycle and device failures -/

/-- The read of a temperature sensor that is `PState_OK` or
`PState_Intermittent` queues its read transaction once. -/
theorem readSensorData_mcp9808_count (cfg : PMGR_Config) (bus : PMGR_Bus) (i : Nat)
    (s : PMGR_State)
    (hstate : (s.mcp9808DeviceStates i).currentState = PState.PState_OK ∨
      (s.mcp9808DeviceStates i).currentState = PState.PState_Intermittent) :
    (readSensorData_mcp9808 cfg bus i s).trace.count (PMGR_Event.tempRead i)
      = s.trace.count (PMGR_Event.tempRead i) + 1 := by
  unfold readSensorData_mcp9808 tca9554a_setPinStatus
  simp only [Function.update_same]
  split_ifs <;> simp [List.count_append, List.count_cons]

/-- The configuration of a temperature sensor that is not `PState_Failed`
queues its configuration transaction once. -/
theorem initPeripherals_mcp9808_count (cfg : PMGR_Config) (bus : PMGR_Bus) (i : Nat)
    (s : PMGR_State) (hstate : (s.mcp9808DeviceStates i).currentState ≠ PState.PState_Failed) :
    (initPeripherals_mcp9808 cfg bus i s).trace.count (PMGR_Event.tempConfig i)
      = s.trace.count (PMGR_Event.tempConfig i) + 1 := by
  unfold initPeripherals_mcp9808 applyTempSensorConfiguration
  simp only [Function.update_same]
  split_ifs <;> simp [List.count_append, List.count_cons]

/-- Equal views of the humidity sensor count its transactions equally. -/
theorem hdcView_count {s t : PMGR_State} (h : hdcView s = hdcView t) (e : PMGR_Event)
    (he : hdcEvent e = true) : s.trace.count e = t.trace.count e := by
  simp only [hdcView, Prod.mk.injEq] at h
  rw [← List.count_filter he, h.2.2, List.count_filter he]

/-- Equal views of temperature sensor `i` count its transactions equally. -/
theorem tempView_count {i : Nat} {s t : PMGR_State} (h : tempView i s = tempView i t)
    (e : PMGR_Event) (he : tempEvent i e = true) : s.trace.count e = t.trace.count e := by
  simp only [tempView, Prod.mk.injEq] at h
  rw [← List.count_filter he, h.2.2, List.count_filter he]

/-- The humidity part of `readSensorData` queues the read of a humidity
sensor that is `PState_OK` or `PState_Intermittent` once. -/
theorem readSensorData_hdc1050_count (cfg : PMGR_Config) (bus : PMGR_Bus) (s : PMGR_State)
    (hstate : s.hdc1050DeviceState.currentState = PState.PState_OK ∨
      s.hdc1050DeviceState.currentState = PState.PState_Intermittent) :
    (readSensorData_hdc1050 cfg bus s).trace.count PMGR_Event.humidityRead
      = s.trace.count PMGR_Event.humidityRead + 1 := by
  unfold readSensorData_hdc1050 tca9554a_setPinStatus hdc1050_readTempHumidity
  simp only
  split_ifs <;> simp [List.count_append, List.count_cons]

/-- The humidity part of `initPeripherals` queues the configuration and the
conversion start of the humidity sensor once each, whatever its state. -/
theorem initPeripherals_hdc1050_count (cfg : PMGR_Config) (bus : PMGR_Bus) (s : PMGR_State) :
    (initPeripherals_hdc1050 cfg bus s).trace.count PMGR_Event.humidityConfig
      = s.trace.count PMGR_Event.humidityConfig + 1 ∧
    (initPeripherals_hdc1050 cfg bus s).trace.count PMGR_Event.startConversion
      = s.trace.count PMGR_Event.startConversion + 1 := by
  unfold initPeripherals_hdc1050 applyHumiditySensorConfiguration
    hdc1050_startTempHumidityConversion
  simp only
  split_ifs <;> simp [List.count_append, List.count_cons]


/-- An `initPeripherals` that gets past the IO expander returns `NoError`
after the sensor loop and the humidity part, run from a state that differs
from the start state in the IO expander records and its one transaction. -/
theorem initPeripherals_past_ioexpander (cfg : PMGR_Config) (bus : PMGR_Bus) (s : PMGR_State)
    (hio : cfg.IOEXPANDER_PRESENT = false ∨ bus.ioexpanderConfig = SB_Error.NoError) :
    ∃ s₀, hdcView s₀ = hdcView s ∧
      initPeripherals cfg bus s
        = (SB_Error.NoError,
            initPeripherals_hdc1050 cfg bus
              (forLoop (initPeripherals_mcp9808 cfg bus) cfg.SB_NUM_MCP9808_SENSORS s₀)) := by
  unfold initPeripherals
  by_cases hp : cfg.IOEXPANDER_PRESENT = true
  · have hok : bus.ioexpanderConfig = SB_Error.NoError := by
      rcases hio with h | h
      · rw [hp] at h
        cases h
      · exact h
    simp only [hp, if_true, applyIOExpanderConfiguration, hok]
    exact ⟨_, by simp [hdcView, List.filter_append, hdcEvent], rfl⟩
  · simp only [hp, if_false]
    exact ⟨s, rfl, rfl⟩

/-- C17, counterexample: with the IO expander present and its configuration
failing, `initPeripherals` on the sample state returns that error and queues
nothing but the IO expander transaction, although every sensor is
`PState_OK`. -/
theorem polling_never_aborts_counterexample :
    sampleCfg.IOEXPANDER_PRESENT = true ∧
    (samplePMGR.mcp9808DeviceStates 0).currentState = PState.PState_OK ∧
    (initPeripherals sampleCfg
        { sampleBus with ioexpanderConfig := SB_Error.UnknownError } samplePMGR).1
      = SB_Error.UnknownError ∧
    (initPeripherals sampleCfg
        { sampleBus with ioexpanderConfig := SB_Error.UnknownError } samplePMGR).2.trace
      = [PMGR_Event.ioexpanderConfig] := by
  refine ⟨rfl, rfl, rfl, by decide⟩

/-- C17, amended: whatever the results of the sensor transactions,
`readSensorData` returns `NoError` and queues the read of every temperature
sensor that is `PState_OK` or `PState_Intermittent`, and of the humidity
sensor when it is; and an `initPeripherals` that gets past the IO expander
(absent, or configured with success) returns `NoError` and queues the
configuration of every temperature sensor that is not `PState_Failed` and the
configuration and conversion start of the humidity sensor.  When the IO
expander is present and its configuration fails, `initPeripherals` returns
that error at once and queues nothing else. -/
theorem polling_never_aborts (cfg : PMGR_Config) (bus : PMGR_Bus) (s : PMGR_State) :
    (readSensorData cfg bus s).1 = SB_Error.NoError ∧
    (∀ i, i < cfg.SB_NUM_MCP9808_SENSORS →
      ((s.mcp9808DeviceStates i).currentState = PState.PState_OK ∨
        (s.mcp9808DeviceStates i).currentState = PState.PState_Intermittent) →
      (readSensorData cfg bus s).2.trace.count (PMGR_Event.tempRead i)
        = s.trace.count (PMGR_Event.tempRead i) + 1) ∧
    ((s.hdc1050DeviceState.currentState = PState.PState_OK ∨
        s.hdc1050DeviceState.currentState = PState.PState_Intermittent) →
      (readSensorData cfg bus s).2.trace.count PMGR_Event.humidityRead
        = s.trace.count PMGR_Event.humidityRead + 1) ∧
    ((cfg.IOEXPANDER_PRESENT = false ∨ bus.ioexpanderConfig = SB_Error.NoError) →
      (initPeripherals cfg bus s).1 = SB_Error.NoError ∧
      (∀ i, i < cfg.SB_NUM_MCP9808_SENSORS →
        (s.mcp9808DeviceStates i).currentState ≠ PState.PState_Failed →
        (initPeripherals cfg bus s).2.trace.count (PMGR_Event.tempConfig i)
          = s.trace.count (PMGR_Event.tempConfig i) + 1) ∧
      (initPeripherals cfg bus s).2.trace.count PMGR_Event.humidityConfig
        = s.trace.count PMGR_Event.humidityConfig + 1 ∧
      (initPeripherals cfg bus s).2.trace.count PMGR_Event.startConversion
        = s.trace.count PMGR_Event.startConversion + 1) ∧
    (cfg.IOEXPANDER_PRESENT = true → bus.ioexpanderConfig ≠ SB_Error.NoError →
      (initPeripherals cfg bus s).1 = bus.ioexpanderConfig ∧
      (initPeripherals cfg bus s).2.trace = s.trace ++ [PMGR_Event.ioexpanderConfig]) := by
  refine ⟨rfl, fun i hi hstate => ?_, fun hstate => ?_, fun hio => ⟨?_, fun i hi hstate => ?_, ?_⟩,
    fun hp hfail => ?_⟩
  · rw [tempView_count (readSensorData_tempView cfg bus s i hi) (PMGR_Event.tempRead i)
      (by simp [tempEvent])]
    exact readSensorData_mcp9808_count cfg bus i s hstate
  · have hk : hdcView (forLoop (readSensorData_mcp9808 cfg bus) cfg.SB_NUM_MCP9808_SENSORS s)
        = hdcView s :=
      forLoop_keeps hdcView _ (readSensorData_mcp9808_hdc cfg bus) _ s
    have hs : (forLoop (readSensorData_mcp9808 cfg bus)
        cfg.SB_NUM_MCP9808_SENSORS s).hdc1050DeviceState = s.hdc1050DeviceState := by
      simp only [hdcView, Prod.mk.injEq] at hk
      exact hk.2.1
    have hc := readSensorData_hdc1050_count cfg bus
      (forLoop (readSensorData_mcp9808 cfg bus) cfg.SB_NUM_MCP9808_SENSORS s) (by rw [hs]; exact hstate)
    rw [hdcView_count hk PMGR_Event.humidityRead rfl] at hc
    exact hc
  · obtain ⟨s₀, _, h⟩ := initPeripherals_past_ioexpander cfg bus s hio
    rw [h]
  · rw [tempView_count (initPeripherals_tempView cfg bus s i hi hio) (PMGR_Event.tempConfig i)
      (by simp [tempEvent])]
    exact initPeripherals_mcp9808_count cfg bus i s hstate
  · obtain ⟨s₀, h0, h⟩ := initPeripherals_past_ioexpander cfg bus s hio
    rw [h]
    have hk : hdcView (forLoop (initPeripherals_mcp9808 cfg bus) cfg.SB_NUM_MCP9808_SENSORS s₀)
        = hdcView s :=
      (forLoop_keeps hdcView _ (initPeripherals_mcp9808_hdc cfg bus) _ s₀).trans h0
    obtain ⟨h1, h2⟩ := initPeripherals_hdc1050_count cfg bus
      (forLoop (initPeripherals_mcp9808 cfg bus) cfg.SB_NUM_MCP9808_SENSORS s₀)
    rw [hdcView_count hk PMGR_Event.humidityConfig rfl] at h1
    rw [hdcView_count hk PMGR_Event.startConversion rfl] at h2
    exact ⟨h1, h2⟩
  · have hfail' : ¬ SB_Error.NoError = bus.ioexpanderConfig := fun h => hfail h.symm
    unfold initPeripherals
    simp [hp, applyIOExpanderConfiguration, hfail']

/-- Witness for C17 (amended): the sample state with every sensor transaction
failing, and with the IO expander configuration failing. -/
theorem polling_never_aborts_witness :
    (readSensorData sampleCfg failingBus samplePMGR).1 = SB_Error.NoError ∧
    (readSensorData sampleCfg failingBus samplePMGR).2.trace.count (PMGR_Event.tempRead 2)
      = samplePMGR.trace.count (PMGR_Event.tempRead 2) + 1 ∧
    ((initPeripherals sampleCfg failingBus samplePMGR).1 = SB_Error.NoError ∧
      (initPeripherals sampleCfg failingBus samplePMGR).2.trace.count (PMGR_Event.tempConfig 2)
        = samplePMGR.trace.count (PMGR_Event.tempConfig 2) + 1) ∧
    (initPeripherals sampleCfg
        { failingBus with ioexpanderConfig := SB_Error.UnknownError } samplePMGR).1
      = SB_Error.UnknownError :=
  ⟨(polling_never_aborts sampleCfg failingBus samplePMGR).1,
    (polling_never_aborts sampleCfg failingBus samplePMGR).2.1 2 (by decide) (Or.inl rfl),
    ⟨((polling_never_aborts sampleCfg failingBus samplePMGR).2.2.2.1 (Or.inr rfl)).1,
      ((polling_never_aborts sampleCfg failingBus samplePMGR).2.2.2.1 (Or.inr rfl)).2.1 2
        (by decide) (by decide)⟩,
    ((polling_never_aborts sampleCfg
      { failingBus with ioexpanderConfig := SB_Error.UnknownError } samplePMGR).2.2.2.2
      rfl (by decide)).1⟩


/-! ## The multiplexer arbiter -/

/-- A pend answers `false` exactly on a live semaphore with count zero and a
finite timeout, and leaves the count at zero. -/
theorem Semaphore_pend_false {sem sem' : Option Nat} {timeout : Nat}
    (h : Semaphore_pend sem timeout = some (false, sem')) :
    sem = some 0 ∧ sem' = some 0 ∧ timeout ≠ BIOS_WAIT_FOREVER := by
  cases sem with
  | none => simp at h
  | some c =>
    cases c with
    | zero =>
      simp only [Semaphore_pend_zero] at h
      split at h
      · simp at h
      · rename_i hto
        simp only [Option.some.injEq, Prod.mk.injEq, true_and] at h
        exact ⟨rfl, h.symm, hto⟩
    | succ c => simp at h

/-- `applyFullMuxState` while the lock is held: nothing happens. -/
theorem applyFullMuxState_held (st : MUX_State) (muxState : SB_MUXState) (timeout : Nat)
    (pinOk : Bool) (h : st.muxSemaphore = some 0) :
    applyFullMuxState st muxState timeout pinOk
      = (if timeout = BIOS_WAIT_FOREVER then none else some SB_Error.SemaphorePendTimeout,
          st) := by
  obtain ⟨sem, clk, t, w, c⟩ := st
  simp only at h
  subst h
  unfold applyFullMuxState
  by_cases hto : timeout = BIOS_WAIT_FOREVER <;> simp [hto]

/-- `applyFullMuxState` while the lock is free: one port write, and the lock
is free again. -/
theorem applyFullMuxState_free (st : MUX_State) (muxState : SB_MUXState) (timeout : Nat)
    (pinOk : Bool) (c : Nat) (h : st.muxSemaphore = some (c + 1)) :
    applyFullMuxState st muxState timeout pinOk
      = (some (if pinOk then SB_Error.NoError else SB_Error.UnknownError),
          { st with portWrites := st.portWrites ++ [muxState] }) := by
  obtain ⟨sem, clk, t, w, cs⟩ := st
  simp only at h
  subst h
  unfold applyFullMuxState _applyFullMuxState
  cases pinOk <;> simp

/-- `SB_sysDisableRefresh` while the lock is held: nothing happens. -/
theorem SB_sysDisableRefresh_held (cfg : PMGR_Config) (st : MUX_State)
    (semaphoreTimeout : Nat) (pinOk : Bool) (h : st.muxSemaphore = some 0) :
    SB_sysDisableRefresh cfg st semaphoreTimeout pinOk
      = (if semaphoreTimeout = BIOS_WAIT_FOREVER then none else some SB_Error.UnknownError,
          st) := by
  obtain ⟨sem, clk, t, w, c⟩ := st
  simp only at h
  subst h
  unfold SB_sysDisableRefresh
  by_cases hto : semaphoreTimeout = BIOS_WAIT_FOREVER <;> simp [hto]

/-- `SB_sysDisableRefresh` while the lock is free: one port write; on success
the lock stays taken and the clock is started, on failure the lock is free
again. -/
theorem SB_sysDisableRefresh_free (cfg : PMGR_Config) (st : MUX_State)
    (semaphoreTimeout : Nat) (pinOk : Bool) (c : Nat) (h : st.muxSemaphore = some (c + 1)) :
    SB_sysDisableRefresh cfg st semaphoreTimeout pinOk
      = (if pinOk then
          (some SB_Error.NoError,
            { st with
              muxSemaphore := some c
              portWrites := st.portWrites ++
                [{ iomuxOutput := cfg.Board_IOMUX_SYSDISBL_N
                   pwrmuxOutput := cfg.Board_PWRMUX_PERIPHERAL_VCC
                   pwrmuxOutputEnable := cfg.MUX_ENABLE }]
              sysdisblClock := some (st.ticks + cfg.SYSDSBL_REFRESH_CLOCK_PERIOD) })
        else
          (some SB_Error.UnknownError,
            { st with
              portWrites := st.portWrites ++
                [{ iomuxOutput := cfg.Board_IOMUX_SYSDISBL_N
                   pwrmuxOutput := cfg.Board_PWRMUX_PERIPHERAL_VCC
                   pwrmuxOutputEnable := cfg.MUX_ENABLE }] })) := by
  obtain ⟨sem, clk, t, w, cs⟩ := st
  simp only at h
  subst h
  unfold SB_sysDisableRefresh _applyFullMuxState
  cases pinOk <;> simp

/-- `SB_sysDisableShutdown` while the lock is held: it blocks. -/
theorem SB_sysDisableShutdown_held (cfg : PMGR_Config) (st : MUX_State) (pinOk : Bool)
    (h : st.muxSemaphore = some 0) : SB_sysDisableShutdown cfg st pinOk = (none, st) := by
  obtain ⟨sem, clk, t, w, c⟩ := st
  simp only at h
  subst h
  unfold SB_sysDisableShutdown
  simp

/-- `SB_sysDisableShutdown` while the lock is free: one port write; on
success the lock stays taken, the pin is made a sink and the call does not
return, on failure the lock is free again. -/
theorem SB_sysDisableShutdown_free (cfg : PMGR_Config) (st : MUX_State) (pinOk : Bool)
    (c : Nat) (h : st.muxSemaphore = some (c + 1)) :
    SB_sysDisableShutdown cfg st pinOk
      = (if pinOk then
          (none,
            { st with
              muxSemaphore := some c
              portWrites := st.portWrites ++
                [{ iomuxOutput := cfg.Board_IOMUX_SYSDISBL_N
                   pwrmuxOutput := cfg.Board_PWRMUX_PERIPHERAL_VCC
                   pwrmuxOutputEnable := cfg.MUX_DISABLE }]
              connStateSink := true })
        else
          (some SB_Error.UnknownError,
            { st with
              portWrites := st.portWrites ++
                [{ iomuxOutput := cfg.Board_IOMUX_SYSDISBL_N
                   pwrmuxOutput := cfg.Board_PWRMUX_PERIPHERAL_VCC
                   pwrmuxOutputEnable := cfg.MUX_DISABLE }] })) := by
  obtain ⟨sem, clk, t, w, cs⟩ := st
  simp only at h
  subst h
  unfold SB_sysDisableShutdown _applyFullMuxState
  cases pinOk <;> simp

/-- The three operations on a `NULL` semaphore handle: nothing happens. -/
theorem mux_operations_null (cfg : PMGR_Config) (st : MUX_State) (muxState : SB_MUXState)
    (timeout : Nat) (pinOk : Bool) (h : st.muxSemaphore = none) :
    applyFullMuxState st muxState timeout pinOk = (none, st) ∧
    SB_sysDisableRefresh cfg st timeout pinOk = (none, st) ∧
    SB_sysDisableShutdown cfg st pinOk = (none, st) := by
  unfold applyFullMuxState SB_sysDisableRefresh SB_sysDisableShutdown
  simp [h]

/-- C18: when the pend on the arbiter lock answers `false`,
`applyFullMuxState` returns `SemaphorePendTimeout` and the state, with its
record of port writes, is as before; when it answers `true`, the call makes
exactly one port write, of the given state, returns `NoError` if the write
reports success and `UnknownError` otherwise, and in both cases the lock
count on return is what it was before the call. -/
theorem applyFullMuxState_contract (st : MUX_State) (muxState : SB_MUXState) (timeout : Nat)
    (pinOk : Bool) :
    (∀ sem, Semaphore_pend st.muxSemaphore timeout = some (false, sem) →
      applyFullMuxState st muxState timeout pinOk = (some SB_Error.SemaphorePendTimeout, st)) ∧
    (∀ sem, Semaphore_pend st.muxSemaphore timeout = some (true, sem) →
      (applyFullMuxState st muxState timeout pinOk).1
        = some (if pinOk then SB_Error.NoError else SB_Error.UnknownError) ∧
      (applyFullMuxState st muxState timeout pinOk).2.portWrites
        = st.portWrites ++ [muxState] ∧
      (applyFullMuxState st muxState timeout pinOk).2.muxSemaphore = st.muxSemaphore) := by
  refine ⟨fun sem h => ?_, fun sem h => ?_⟩
  · obtain ⟨h0, _, hto⟩ := Semaphore_pend_false h
    rw [applyFullMuxState_held st muxState timeout pinOk h0, if_neg hto]
  · obtain ⟨c, hc, _⟩ := Semaphore_pend_true h
    rw [applyFullMuxState_free st muxState timeout pinOk c hc]
    exact ⟨rfl, rfl, rfl⟩

/-- Witness for C18: on `readyMux` the lock is obtained and the write is made;
with the lock held and a finite timeout the call times out. -/
theorem applyFullMuxState_contract_witness :
    applyFullMuxState { readyMux with muxSemaphore := some 0 } sampleMuxState 5 true
      = (some SB_Error.SemaphorePendTimeout, { readyMux with muxSemaphore := some 0 }) ∧
    ((applyFullMuxState readyMux sampleMuxState 5 false).1
        = some (if false then SB_Error.NoError else SB_Error.UnknownError) ∧
      (applyFullMuxState readyMux sampleMuxState 5 false).2.portWrites
        = readyMux.portWrites ++ [sampleMuxState] ∧
      (applyFullMuxState readyMux sampleMuxState 5 false).2.muxSemaphore
        = readyMux.muxSemaphore) :=
  ⟨(applyFullMuxState_contract { readyMux with muxSemaphore := some 0 } sampleMuxState 5
      true).1 (some 0) rfl,
    (applyFullMuxState_contract readyMux sampleMuxState 5 false).2 (some 0) rfl⟩

/-- C20, counterexample: with the lock held and the finite timeout `5`,
`SB_sysDisableRefresh` returns `UnknownError`, not `SemaphorePendTimeout`. -/
theorem mux_timeout_kind_counterexample :
    Semaphore_pend ({ readyMux with muxSemaphore := some 0 } : MUX_State).muxSemaphore 5
      = some (false, some 0) ∧
    (SB_sysDisableRefresh sampleCfg { readyMux with muxSemaphore := some 0 } 5 true).1
      = some SB_Error.UnknownError ∧
    (SB_sysDisableRefresh sampleCfg { readyMux with muxSemaphore := some 0 } 5 true).1
      ≠ some SB_Error.SemaphorePendTimeout := by
  refine ⟨rfl, rfl, by decide⟩

/-- C20, amended: when the pend on the arbiter lock times out,
`applyFullMuxState` returns `SemaphorePendTimeout` and `SB_sysDisableRefresh`
returns `UnknownError`; neither changes the state. -/
theorem mux_timeout_kind (cfg : PMGR_Config) (st : MUX_State) (muxState : SB_MUXState)
    (timeout : Nat) (pinOk : Bool) (sem : Option Nat)
    (h : Semaphore_pend st.muxSemaphore timeout = some (false, sem)) :
    applyFullMuxState st muxState timeout pinOk = (some SB_Error.SemaphorePendTimeout, st) ∧
    SB_sysDisableRefresh cfg st timeout pinOk = (some SB_Error.UnknownError, st) := by
  obtain ⟨h0, _, hto⟩ := Semaphore_pend_false h
  rw [applyFullMuxState_held st muxState timeout pinOk h0,
    SB_sysDisableRefresh_held cfg st timeout pinOk h0, if_neg hto, if_neg hto]
  exact ⟨rfl, rfl⟩

/-- Witness for C20 (amended): both operations with the lock held and the
timeout `5`. -/
theorem mux_timeout_kind_witness :
    applyFullMuxState { readyMux with muxSemaphore := some 0 } sampleMuxState 5 true
      = (some SB_Error.SemaphorePendTimeout, { readyMux with muxSemaphore := some 0 }) ∧
    SB_sysDisableRefresh sampleCfg { readyMux with muxSemaphore := some 0 } 5 true
      = (some SB_Error.UnknownError, { readyMux with muxSemaphore := some 0 }) :=
  mux_timeout_kind sampleCfg { readyMux with muxSemaphore := some 0 } sampleMuxState 5 true
    (some 0) rfl


/-- C22: when a pass of the driver task takes the permit, the data-available
count and the queue lock and pops an entry whose transaction pointer is null
or whose transaction has a null base transaction or completion semaphore,
the pass finishes; the entry is off the queue, the bus driver was handed
nothing (its state and the trace are as before), no completion semaphore was
posted and no transaction memory written, and the permit count is what it
was before the pass. -/
theorem SB_i2cTask_iteration_malformed (st : I2C_State) (p d q : Nat)
    (qp : I2C_queuedTransaction) (rest : List I2C_queuedTransaction)
    (hproc : st.i2cProcSem = some (p + 1)) (hdata : st.i2cDataAvailSem = some (d + 1))
    (hlock : st.i2cQueueSem = some (q + 1)) (hqueue : st.i2cQueue = qp :: rest)
    (hrej : transactionRejected st qp.transaction) :
    ∃ st', SB_i2cTask_iteration st = some st' ∧
      st'.i2cQueue = rest ∧ st'.handle = st.handle ∧ st'.trace = st.trace ∧
      st'.sems = st.sems ∧ st'.mem = st.mem ∧ st'.i2cProcSem = st.i2cProcSem := by
  obtain ⟨ini, hdl, queue, qs, ds, ps, cur, tc, cs, mem, sems, tr⟩ := st
  simp only at hproc hdata hlock hqueue
  subst hproc hdata hlock hqueue
  unfold transactionRejected at hrej
  simp only at hrej
  rcases hrej with h0 | ⟨t, ht, hv⟩
  · simp [SB_i2cTask_iteration, Queue_empty, Queue_get, h0]
  · simp [SB_i2cTask_iteration, Queue_empty, Queue_get, ht, hv]

/-- Witness for C22: the entry for the transaction at address `2`, whose base
transaction is null. -/
theorem SB_i2cTask_iteration_malformed_witness :
    ∃ st', SB_i2cTask_iteration malformedState = some st' ∧
      st'.i2cQueue = [] ∧ st'.handle = malformedState.handle ∧
      st'.trace = malformedState.trace ∧ st'.sems = malformedState.sems ∧
      st'.mem = malformedState.mem ∧ st'.i2cProcSem = malformedState.i2cProcSem :=
  SB_i2cTask_iteration_malformed malformedState 0 0 0 { transaction := some 2 } [] rfl rfl rfl
    rfl (Or.inr ⟨2, rfl, Or.inl rfl⟩)

/-- C23, the code at the failing input: in the state after `SB_i2cInit`, with
the slot empty and the permit at count `1`, a completion callback leaves the
slot, the transaction memory and the completion semaphores alone, but posts
the permit, to count `2`.  The same happens to a late completion: the
transfer of the transaction at address `1` runs into the timeout, which
completes it, empties the slot and returns the permit (count `1`), and the
completion callback that arrives afterwards posts the permit once more. -/
theorem SB_i2cTransferCompleteHandler_late_completion :
    (readyState.currentTransaction = none ∧ readyState.i2cProcSem = some 1 ∧
      ∃ st, SB_i2cTransferCompleteHandler readyState true = some st ∧
        st.currentTransaction = none ∧ st.mem = readyState.mem ∧
        st.sems = readyState.sems ∧ st.i2cProcSem = some 2) ∧
    ∃ st₁ st₂, SB_i2cTransactionTimeoutHandler busyState = some st₁ ∧
      st₁.currentTransaction = none ∧ st₁.i2cProcSem = some 1 ∧
      SB_i2cTransferCompleteHandler st₁ true = some st₂ ∧
      st₂.currentTransaction = none ∧ st₂.mem = st₁.mem ∧ st₂.sems = st₁.sems ∧
      st₂.i2cProcSem = some 2 ∧ st₂.i2cProcSem ≠ st₁.i2cProcSem :=
  ⟨⟨rfl, rfl, _, rfl, rfl, rfl, rfl, rfl⟩,
    _, _, rfl, rfl, rfl, rfl, rfl, rfl, rfl, rfl, by decide⟩

/-- A callback on an empty slot changes the permit count and the clock flag
and nothing else: the permit count goes up by one. -/
theorem SB_i2cTransferCompleteHandler_empty_slot (st : I2C_State) (result : Bool) (p : Nat)
    (hcur : st.currentTransaction = none) (hproc : st.i2cProcSem = some p) :
    ∃ st', SB_i2cTransferCompleteHandler st result = some st' ∧
      st'.i2cProcSem = some (p + 1) ∧ st'.currentTransaction = none ∧
      st'.mem = st.mem ∧ st'.sems = st.sems ∧ st'.trace = st.trace :=
  ⟨_, SB_i2cTransferCompleteHandler_empty st result p hcur hproc, rfl, hcur, rfl, rfl, rfl⟩

/-- C26: in every state that a run of enqueue calls, driver-task passes,
completion callbacks of the bus driver and timeouts reaches after a
successful `SB_i2cInit`, the data-available count is the number of queued
entries, and every queued entry points to a transaction with a base
transaction and a completion semaphore; hence a pass of the driver task that
finishes from such a state has handed the transaction of the front entry to
the bus driver, and so has taken none of the branches for an empty queue, a
null entry or a malformed entry, which hand over nothing. -/
theorem I2C_queue_invariant (st₀ st₁ st : I2C_State) (env : I2C_InitEnv)
    (steps : List I2C_Step)
    (hinit : SB_i2cInit st₀ env = some (SB_Error.NoError, st₁))
    (hrun : I2C_run st₁ steps = some st) :
    st.i2cDataAvailSem = some st.i2cQueue.length ∧
    (∀ qp ∈ st.i2cQueue, ∃ t b s, qp.transaction = some t ∧
      (st.mem t).baseTransaction = some b ∧ (st.mem t).completionSemaphore = some s) ∧
    (∀ st', SB_i2cTask_iteration st = some st' →
      ∃ qp rest t, st.i2cQueue = qp :: rest ∧ qp.transaction = some t ∧
        ¬ transactionRejected st qp.transaction ∧
        st'.i2cQueue = rest ∧ st'.currentTransaction = some t ∧
        st'.trace = st.trace ++ [I2C_Event.transfer t]) := by
  have hinv := (I2C_Inv_run (I2C_Inv_init hinit) hrun).1
  refine ⟨hinv.2.2.1, fun qp hqp => ?_, fun st' h => ?_⟩
  · obtain ⟨t, ht, hb, hs⟩ := hinv.2.2.2.1 qp hqp
    obtain ⟨b, hb'⟩ := Option.ne_none_iff_exists'.mp hb
    obtain ⟨s, hs'⟩ := Option.ne_none_iff_exists'.mp hs
    exact ⟨t, b, s, ht, hb', hs'⟩
  · obtain ⟨qp, rest, t, d, hq, ht, _, _, _, _, hst⟩ := SB_i2cTask_iteration_of_inv hinv h
    obtain ⟨t', ht', hb, hs⟩ := hinv.2.2.2.1 qp (by rw [hq]; exact List.mem_cons_self _ _)
    rw [ht] at ht'
    cases ht'
    refine ⟨qp, rest, t, hq, ht, ?_, by rw [hst], by rw [hst], by rw [hst]⟩
    rintro (h0 | ⟨u, hu, hv⟩)
    · rw [ht] at h0
      cases h0
    · rw [ht] at hu
      cases hu
      rcases hv with hv | hv
      · exact hb hv
      · exact hs hv

/-- Witness for C26: the state after the first three steps of `sampleRun`,
with one transfer in progress and one entry queued, and the state after the
first five, from which the driver task hands over the transaction at `3`. -/
theorem I2C_queue_invariant_witness :
    (∃ st, I2C_run readyState (sampleRun.take 3) = some st ∧
      st.i2cQueue = [{ transaction := some 3 }] ∧
      st.i2cDataAvailSem = some st.i2cQueue.length) ∧
    (∃ st st', I2C_run readyState (sampleRun.take 5) = some st ∧
      SB_i2cTask_iteration st = some st' ∧
      ∃ qp rest t, st.i2cQueue = qp :: rest ∧ qp.transaction = some t ∧
        ¬ transactionRejected st qp.transaction ∧
        st'.i2cQueue = rest ∧ st'.currentTransaction = some t ∧
        st'.trace = st.trace ++ [I2C_Event.transfer t]) :=
  ⟨⟨_, rfl, rfl,
      (I2C_queue_invariant bootState readyState _ initEnvOk (sampleRun.take 3) rfl rfl).1⟩,
    ⟨_, _, rfl, rfl,
      (I2C_queue_invariant bootState readyState _ initEnvOk (sampleRun.take 5) rfl rfl).2.2
        _ rfl⟩⟩


/-! ## Shutdown and the accounting of the arbiter lock -/

/-- While the lock is held and the clock is stopped, a step of the arbiter
changes nothing but the tick count. -/
theorem MUX_held_step {cfg : PMGR_Config} {st st' : MUX_State} {step : MUX_Step}
    (hs : st.muxSemaphore = some 0) (hclk : st.sysdisblClock = none)
    (h : MUX_step cfg st step = some st') :
    st'.muxSemaphore = some 0 ∧ st'.sysdisblClock = none ∧
    st'.portWrites = st.portWrites ∧ st'.connStateSink = st.connStateSink := by
  cases step with
  | apply m t p =>
    simp only [MUX_step, applyFullMuxState_held st m t p hs, Option.some.injEq] at h
    subst h
    exact ⟨hs, hclk, rfl, rfl⟩
  | refresh t p =>
    simp only [MUX_step, SB_sysDisableRefresh_held cfg st t p hs, Option.some.injEq] at h
    subst h
    exact ⟨hs, hclk, rfl, rfl⟩
  | shutdown p =>
    simp only [MUX_step, SB_sysDisableShutdown_held cfg st p hs, Option.some.injEq] at h
    subst h
    exact ⟨hs, hclk, rfl, rfl⟩
  | tick =>
    simp only [MUX_step, Option.some.injEq] at h
    subst h
    exact ⟨hs, hclk, rfl, rfl⟩
  | expire => simp [MUX_step, MUX_expire, hclk] at h

/-- While the lock is held and the clock is stopped, no run of the arbiter
gets the lock back or writes to the port. -/
theorem MUX_held_run {cfg : PMGR_Config} {steps : List MUX_Step} {st st' : MUX_State}
    (hs : st.muxSemaphore = some 0) (hclk : st.sysdisblClock = none)
    (h : MUX_run cfg st steps = some st') :
    st'.muxSemaphore = some 0 ∧ st'.sysdisblClock = none ∧
    st'.portWrites = st.portWrites ∧ st'.connStateSink = st.connStateSink := by
  induction steps generalizing st with
  | nil =>
    simp only [MUX_run, Option.some.injEq] at h
    subst h
    exact ⟨hs, hclk, rfl, rfl⟩
  | cons step rest ih =>
    simp only [MUX_run] at h
    cases h1 : MUX_step cfg st step with
    | none => simp [h1] at h
    | some st₁ =>
      simp only [h1] at h
      obtain ⟨a, b, c, d⟩ := MUX_held_step hs hclk h1
      obtain ⟨a', b', c', d'⟩ := ih a b h
      exact ⟨a', b', c'.trans c, d'.trans d⟩

/-- C21: `SB_sysDisableShutdown` never returns `NoError`.  A value it returns
is `UnknownError`, and on return the lock count is what it was before the
call: either the pend on the lock answered `false` and no port write was
made, or the one port write, of the shutdown state, failed.  When the lock is
free and the port write succeeds, the call has written the state with IO mux
`SYSDISBL`, power mux peripheral VCC and the power mux disabled, has made
`CONN_STATE_RD` a sink, and does not return; the lock it took stays taken,
and with the clock stopped no later run of the arbiter gets it back or writes
to the port again. -/
theorem SB_sysDisableShutdown_never_returns_ok (cfg : PMGR_Config) (st : MUX_State)
    (pinOk : Bool) :
    (SB_sysDisableShutdown cfg st pinOk).1 ≠ some SB_Error.NoError ∧
    (∀ e, (SB_sysDisableShutdown cfg st pinOk).1 = some e →
      e = SB_Error.UnknownError ∧
      (SB_sysDisableShutdown cfg st pinOk).2.muxSemaphore = st.muxSemaphore ∧
      (SB_sysDisableShutdown cfg st pinOk).2.connStateSink = st.connStateSink ∧
      ((SB_sysDisableShutdown cfg st pinOk).2.portWrites = st.portWrites ∨
        (pinOk = false ∧
          (SB_sysDisableShutdown cfg st pinOk).2.portWrites = st.portWrites ++
            [{ iomuxOutput := cfg.Board_IOMUX_SYSDISBL_N
               pwrmuxOutput := cfg.Board_PWRMUX_PERIPHERAL_VCC
               pwrmuxOutputEnable := cfg.MUX_DISABLE }]))) ∧
    (∀ c, st.muxSemaphore = some (c + 1) → pinOk = true →
      SB_sysDisableShutdown cfg st pinOk
        = (none,
            { st with
              muxSemaphore := some c
              portWrites := st.portWrites ++
                [{ iomuxOutput := cfg.Board_IOMUX_SYSDISBL_N
                   pwrmuxOutput := cfg.Board_PWRMUX_PERIPHERAL_VCC
                   pwrmuxOutputEnable := cfg.MUX_DISABLE }]
              connStateSink := true })) ∧
    (st.muxSemaphore = some 1 → st.sysdisblClock = none → pinOk = true →
      ∀ steps st', MUX_run cfg (SB_sysDisableShutdown cfg st pinOk).2 steps = some st' →
        st'.muxSemaphore = some 0 ∧ st'.connStateSink = true ∧
        st'.portWrites = (SB_sysDisableShutdown cfg st pinOk).2.portWrites) := by
  have hcases : st.muxSemaphore = none ∨ st.muxSemaphore = some 0 ∨
      ∃ c, st.muxSemaphore = some (c + 1) := by
    cases hs : st.muxSemaphore with
    | none => exact Or.inl rfl
    | some c =>
      cases c with
      | zero => exact Or.inr (Or.inl rfl)
      | succ c => exact Or.inr (Or.inr ⟨c, rfl⟩)
  refine ⟨?_, ?_, ?_, ?_⟩
  · rcases hcases with h | h | ⟨c, h⟩
    · rw [(mux_operations_null cfg st sampleMuxState 0 pinOk h).2.2]
      simp
    · rw [SB_sysDisableShutdown_held cfg st pinOk h]
      simp
    · rw [SB_sysDisableShutdown_free cfg st pinOk c h]
      cases pinOk <;> simp
  · intro e he
    rcases hcases with h | h | ⟨c, h⟩
    · rw [(mux_operations_null cfg st sampleMuxState 0 pinOk h).2.2] at he
      simp at he
    · rw [SB_sysDisableShutdown_held cfg st pinOk h] at he
      simp at he
    · rw [SB_sysDisableShutdown_free cfg st pinOk c h] at he ⊢
      cases pinOk
      · simp only [Bool.false_eq_true, if_false, Option.some.injEq] at he
        subst he
        simp [h]
      · simp at he
  · intro c h hp
    rw [SB_sysDisableShutdown_free cfg st pinOk c h, if_pos hp]
  · intro h hclk hp steps st' hrun
    rw [SB_sysDisableShutdown_free cfg st pinOk 0 h, if_pos hp] at hrun ⊢
    have hrun' : MUX_run cfg
        { st with
          muxSemaphore := some 0
          portWrites := st.portWrites ++
            [{ iomuxOutput := cfg.Board_IOMUX_SYSDISBL_N
               pwrmuxOutput := cfg.Board_PWRMUX_PERIPHERAL_VCC
               pwrmuxOutputEnable := cfg.MUX_DISABLE }]
          connStateSink := true } steps = some st' := hrun
    obtain ⟨a, _, c, d⟩ := MUX_held_run (by rfl) (by exact hclk) hrun'
    exact ⟨a, d, c⟩

/-- Witness for C21: shutdown from the state after `SB_peripheralInit`, with
a port write that succeeds, followed by an attempt to apply a state, a
refresh, some ticks and a second shutdown. -/
theorem SB_sysDisableShutdown_never_returns_ok_witness :
    SB_sysDisableShutdown sampleCfg readyMux true
      = (none,
          { readyMux with
            muxSemaphore := some 0
            portWrites := [{ iomuxOutput := sampleCfg.Board_IOMUX_SYSDISBL_N
                             pwrmuxOutput := sampleCfg.Board_PWRMUX_PERIPHERAL_VCC
                             pwrmuxOutputEnable := sampleCfg.MUX_DISABLE }]
            connStateSink := true }) ∧
    (SB_sysDisableShutdown sampleCfg readyMux false).1 = some SB_Error.UnknownError ∧
    ∃ st', MUX_run sampleCfg (SB_sysDisableShutdown sampleCfg readyMux true).2
        [MUX_Step.apply sampleMuxState 10 true, MUX_Step.refresh 10 true, MUX_Step.tick,
          MUX_Step.tick, MUX_Step.shutdown true] = some st' ∧
      st'.ticks = 102 ∧
      st'.muxSemaphore = some 0 ∧ st'.connStateSink = true ∧
      st'.portWrites = (SB_sysDisableShutdown sampleCfg readyMux true).2.portWrites :=
  ⟨(SB_sysDisableShutdown_never_returns_ok sampleCfg readyMux true).2.2.1 0 rfl rfl, rfl,
    { (SB_sysDisableShutdown sampleCfg readyMux true).2 with ticks := 102 }, rfl, rfl,
    (SB_sysDisableShutdown_never_returns_ok sampleCfg readyMux true).2.2.2 rfl rfl rfl
      [MUX_Step.apply sampleMuxState 10 true, MUX_Step.refresh 10 true, MUX_Step.tick,
        MUX_Step.tick, MUX_Step.shutdown true]
      { (SB_sysDisableShutdown sampleCfg readyMux true).2 with ticks := 102 } rfl⟩


/-- One step of the arbiter on a created lock: the count after it, plus the
pends that succeeded, is the count before it plus the posts. -/
theorem MUX_step_account {cfg : PMGR_Config} {st st' : MUX_State} {step : MUX_Step} {c : Nat}
    (hs : st.muxSemaphore = some c) (h : MUX_step cfg st step = some st') :
    ∃ c', st'.muxSemaphore = some c' ∧
      c' + MUX_acquires st step = c + MUX_releases st step := by
  cases c with
  | zero =>
    cases step with
    | apply m t p =>
      simp only [MUX_step, applyFullMuxState_held st m t p hs, Option.some.injEq] at h
      subst h
      refine ⟨0, hs, ?_⟩
      by_cases hto : t = BIOS_WAIT_FOREVER <;> simp [MUX_acquires, MUX_releases, hs, hto]
    | refresh t p =>
      simp only [MUX_step, SB_sysDisableRefresh_held cfg st t p hs, Option.some.injEq] at h
      subst h
      refine ⟨0, hs, ?_⟩
      by_cases hto : t = BIOS_WAIT_FOREVER <;> simp [MUX_acquires, MUX_releases, hs, hto]
    | shutdown p =>
      simp only [MUX_step, SB_sysDisableShutdown_held cfg st p hs, Option.some.injEq] at h
      subst h
      refine ⟨0, hs, ?_⟩
      simp [MUX_acquires, MUX_releases, hs]
    | tick =>
      simp only [MUX_step, Option.some.injEq] at h
      subst h
      exact ⟨0, hs, rfl⟩
    | expire =>
      simp only [MUX_step] at h
      have h' := h
      simp only [MUX_expire] at h
      cases hclk : st.sysdisblClock with
      | none => simp [hclk] at h
      | some d =>
        simp only [hclk, SB_sysdisblClockHandler, hs, Semaphore_post_some] at h
        split at h
        · simp only [Option.some.injEq] at h
          subst h
          refine ⟨1, rfl, ?_⟩
          simp [MUX_acquires, MUX_releases, h']
        · cases h
  | succ c =>
    cases step with
    | apply m t p =>
      simp only [MUX_step, applyFullMuxState_free st m t p c hs, Option.some.injEq] at h
      subst h
      refine ⟨c + 1, hs, ?_⟩
      simp [MUX_acquires, MUX_releases, hs]
    | refresh t p =>
      simp only [MUX_step, SB_sysDisableRefresh_free cfg st t p c hs, Option.some.injEq] at h
      subst h
      cases p
      · refine ⟨c + 1, hs, ?_⟩
        simp [MUX_acquires, MUX_releases, hs]
      · refine ⟨c, rfl, ?_⟩
        simp [MUX_acquires, MUX_releases, hs]
    | shutdown p =>
      simp only [MUX_step, SB_sysDisableShutdown_free cfg st p c hs, Option.some.injEq] at h
      subst h
      cases p
      · refine ⟨c + 1, hs, ?_⟩
        simp [MUX_acquires, MUX_releases, hs]
      · refine ⟨c, rfl, ?_⟩
        simp [MUX_acquires, MUX_releases, hs]
    | tick =>
      simp only [MUX_step, Option.some.injEq] at h
      subst h
      exact ⟨c + 1, hs, rfl⟩
    | expire =>
      simp only [MUX_step] at h
      have h' := h
      simp only [MUX_expire] at h
      cases hclk : st.sysdisblClock with
      | none => simp [hclk] at h
      | some d =>
        simp only [hclk, SB_sysdisblClockHandler, hs, Semaphore_post_some] at h
        split at h
        · simp only [Option.some.injEq] at h
          subst h
          refine ⟨c + 2, rfl, ?_⟩
          simp [MUX_acquires, MUX_releases, h']
        · cases h

/-- A run of the arbiter on a created lock: the count after it, plus the
pends that succeeded along it, is the count before it plus the posts. -/
theorem MUX_run_account {cfg : PMGR_Config} {steps : List MUX_Step} {st st' : MUX_State}
    {c : Nat} (hs : st.muxSemaphore = some c) (h : MUX_run cfg st steps = some st') :
    ∃ c', st'.muxSemaphore = some c' ∧
      c' + MUX_acquired cfg st steps = c + MUX_released cfg st steps := by
  induction steps generalizing st c with
  | nil =>
    simp only [MUX_run, Option.some.injEq] at h
    subst h
    exact ⟨c, hs, rfl⟩
  | cons step rest ih =>
    simp only [MUX_run] at h
    cases h1 : MUX_step cfg st step with
    | none => simp [h1] at h
    | some st₁ =>
      simp only [h1] at h
      obtain ⟨c₁, hs₁, e₁⟩ := MUX_step_account hs h1
      obtain ⟨c', hs', e'⟩ := ih hs₁ h
      refine ⟨c', hs', ?_⟩
      simp only [MUX_acquired, MUX_released, h1]
      omega

/-- While the lock is held and the clock is stopped, no run of the arbiter
posts to the lock. -/
theorem MUX_held_released {cfg : PMGR_Config} {steps : List MUX_Step} {st : MUX_State}
    (hs : st.muxSemaphore = some 0) (hclk : st.sysdisblClock = none) :
    MUX_released cfg st steps = 0 := by
  induction steps generalizing st with
  | nil => rfl
  | cons step rest ih =>
    simp only [MUX_released]
    cases h1 : MUX_step cfg st step with
    | none => rfl
    | some st₁ =>
      obtain ⟨a, b, _, _⟩ := MUX_held_step hs hclk h1
      simp only [ih a b, Nat.add_zero]
      cases step with
      | apply m t p =>
        by_cases hto : t = BIOS_WAIT_FOREVER <;> simp [MUX_releases, hs, hto]
      | refresh t p =>
        by_cases hto : t = BIOS_WAIT_FOREVER <;> simp [MUX_releases, hs, hto]
      | shutdown p => simp [MUX_releases, hs]
      | tick => rfl
      | expire => simp [MUX_step, MUX_expire, hclk] at h1


/-- A successful `SB_peripheralInit` whose semaphore creation did not answer
`NULL` leaves the lock with count one and the clock stopped, and does not
touch `CONN_STATE_RD`. -/
theorem SB_peripheralInit_count {st st' : MUX_State} {env : PMGR_InitEnv}
    (h : SB_peripheralInit st env = (SB_Error.NoError, st')) (hsem : env.muxSemaphore = true) :
    st'.muxSemaphore = some 1 ∧ st'.sysdisblClock = none ∧
    st'.connStateSink = st.connStateSink := by
  obtain ⟨p, m, a, ms, clk, tk⟩ := env
  simp only at hsem
  subst hsem
  unfold SB_peripheralInit Semaphore_create at h
  cases p <;> cases m <;> cases a <;> cases clk <;> cases tk <;>
    simp only [Bool.false_eq_true, if_false, if_true, Prod.mk.injEq, reduceCtorEq,
      false_and, true_and] at h
  subst h
  exact ⟨rfl, rfl, rfl⟩

/-- Between steps the lock is free, or held by the running clock, or held by
a shutdown that has made `CONN_STATE_RD` a sink; a step keeps it so. -/
theorem MUX_holder_step {cfg : PMGR_Config} {st st' : MUX_State} {step : MUX_Step}
    (hT : (st.muxSemaphore = some 1 ∧ st.sysdisblClock = none ∧ st.connStateSink = false) ∨
      (st.muxSemaphore = some 0 ∧ st.sysdisblClock ≠ none ∧ st.connStateSink = false) ∨
      (st.muxSemaphore = some 0 ∧ st.sysdisblClock = none ∧ st.connStateSink = true))
    (h : MUX_step cfg st step = some st') :
    (st'.muxSemaphore = some 1 ∧ st'.sysdisblClock = none ∧ st'.connStateSink = false) ∨
      (st'.muxSemaphore = some 0 ∧ st'.sysdisblClock ≠ none ∧ st'.connStateSink = false) ∨
      (st'.muxSemaphore = some 0 ∧ st'.sysdisblClock = none ∧ st'.connStateSink = true) := by
  have hheld : st.muxSemaphore = some 0 → step ≠ MUX_Step.expire →
      st'.muxSemaphore = st.muxSemaphore ∧ st'.sysdisblClock = st.sysdisblClock ∧
      st'.connStateSink = st.connStateSink := by
    intro hs hne
    cases step with
    | apply m t p =>
      simp only [MUX_step, applyFullMuxState_held st m t p hs, Option.some.injEq] at h
      subst h
      exact ⟨rfl, rfl, rfl⟩
    | refresh t p =>
      simp only [MUX_step, SB_sysDisableRefresh_held cfg st t p hs, Option.some.injEq] at h
      subst h
      exact ⟨rfl, rfl, rfl⟩
    | shutdown p =>
      simp only [MUX_step, SB_sysDisableShutdown_held cfg st p hs, Option.some.injEq] at h
      subst h
      exact ⟨rfl, rfl, rfl⟩
    | tick =>
      simp only [MUX_step, Option.some.injEq] at h
      subst h
      exact ⟨rfl, rfl, rfl⟩
    | expire => exact absurd rfl hne
  rcases hT with ⟨hs, hclk, hk⟩ | ⟨hs, hclk, hk⟩ | ⟨hs, hclk, hk⟩
  · cases step with
    | apply m t p =>
      simp only [MUX_step, applyFullMuxState_free st m t p 0 hs, Option.some.injEq] at h
      subst h
      exact Or.inl ⟨hs, hclk, hk⟩
    | refresh t p =>
      simp only [MUX_step, SB_sysDisableRefresh_free cfg st t p 0 hs, Option.some.injEq] at h
      subst h
      cases p
      · exact Or.inl ⟨hs, hclk, hk⟩
      · exact Or.inr (Or.inl ⟨rfl, by simp, hk⟩)
    | shutdown p =>
      simp only [MUX_step, SB_sysDisableShutdown_free cfg st p 0 hs, Option.some.injEq] at h
      subst h
      cases p
      · exact Or.inl ⟨hs, hclk, hk⟩
      · exact Or.inr (Or.inr ⟨rfl, hclk, rfl⟩)
    | tick =>
      simp only [MUX_step, Option.some.injEq] at h
      subst h
      exact Or.inl ⟨hs, hclk, hk⟩
    | expire => simp [MUX_step, MUX_expire, hclk] at h
  · by_cases hne : step = MUX_Step.expire
    · subst hne
      simp only [MUX_step, MUX_expire] at h
      cases hd : st.sysdisblClock with
      | none => exact absurd hd hclk
      | some d =>
        simp only [hd, SB_sysdisblClockHandler, hs, Semaphore_post_some] at h
        split at h
        · simp only [Option.some.injEq] at h
          subst h
          exact Or.inl ⟨rfl, rfl, hk⟩
        · cases h
    · obtain ⟨a, b, c⟩ := hheld hs hne
      exact Or.inr (Or.inl ⟨a.trans hs, by rw [b]; exact hclk, c.trans hk⟩)
  · by_cases hne : step = MUX_Step.expire
    · subst hne
      simp [MUX_step, MUX_expire, hclk] at h
    · obtain ⟨a, b, c⟩ := hheld hs hne
      exact Or.inr (Or.inr ⟨a.trans hs, b.trans hclk, c.trans hk⟩)

/-- Along a run the lock is free, or held by the running clock, or held by a
shutdown that has made `CONN_STATE_RD` a sink. -/
theorem MUX_holder_run {cfg : PMGR_Config} {steps : List MUX_Step} {st st' : MUX_State}
    (hT : (st.muxSemaphore = some 1 ∧ st.sysdisblClock = none ∧ st.connStateSink = false) ∨
      (st.muxSemaphore = some 0 ∧ st.sysdisblClock ≠ none ∧ st.connStateSink = false) ∨
      (st.muxSemaphore = some 0 ∧ st.sysdisblClock = none ∧ st.connStateSink = true))
    (h : MUX_run cfg st steps = some st') :
    (st'.muxSemaphore = some 1 ∧ st'.sysdisblClock = none ∧ st'.connStateSink = false) ∨
      (st'.muxSemaphore = some 0 ∧ st'.sysdisblClock ≠ none ∧ st'.connStateSink = false) ∨
      (st'.muxSemaphore = some 0 ∧ st'.sysdisblClock = none ∧ st'.connStateSink = true) := by
  induction steps generalizing st with
  | nil =>
    simp only [MUX_run, Option.some.injEq] at h
    subst h
    exact hT
  | cons step rest ih =>
    simp only [MUX_run] at h
    cases h1 : MUX_step cfg st step with
    | none => simp [h1] at h
    | some st₁ =>
      simp only [h1] at h
      exact ih (MUX_holder_step hT h1) h

/-- A call of `SB_sysDisableRefresh` that returns an error leaves the lock
count and the clock as they were. -/
theorem SB_sysDisableRefresh_failure (cfg : PMGR_Config) (st : MUX_State)
    (semaphoreTimeout : Nat) (pinOk : Bool) (e : SB_Error)
    (h : (SB_sysDisableRefresh cfg st semaphoreTimeout pinOk).1 = some e)
    (he : e ≠ SB_Error.NoError) :
    (SB_sysDisableRefresh cfg st semaphoreTimeout pinOk).2.muxSemaphore = st.muxSemaphore ∧
    (SB_sysDisableRefresh cfg st semaphoreTimeout pinOk).2.sysdisblClock = st.sysdisblClock := by
  cases hs : st.muxSemaphore with
  | none =>
    rw [(mux_operations_null cfg st sampleMuxState semaphoreTimeout pinOk hs).2.1]
    exact ⟨hs, rfl⟩
  | some c =>
    cases c with
    | zero =>
      rw [SB_sysDisableRefresh_held cfg st semaphoreTimeout pinOk hs]
      exact ⟨hs, rfl⟩
    | succ c =>
      rw [SB_sysDisableRefresh_free cfg st semaphoreTimeout pinOk c hs] at h ⊢
      cases pinOk
      · exact ⟨hs, rfl⟩
      · simp only [if_true, Option.some.injEq] at h
        exact absurd h.symm he


/-- C27, amended: after a successful `SB_peripheralInit` that
created the lock, with count one, every run of `applyFullMuxState`,
`SB_sysDisableRefresh`, `SB_sysDisableShutdown`, ticks and expiries of the
clock a refresh has started keeps the count of the lock at zero or one; the
count plus the successful pends is one plus the posts, so that all pends but
at most one are matched by a post and none by two; the count is zero while
the clock runs; a lock taken with the clock stopped was taken by a shutdown,
which has made `CONN_STATE_RD` a sink, and is never posted again; and a call
of `SB_sysDisableRefresh` that returns an error leaves count and clock as
they were. -/
theorem mux_lock_binary (cfg : PMGR_Config) (st st₀ st' : MUX_State) (env : PMGR_InitEnv)
    (steps : List MUX_Step)
    (hinit : SB_peripheralInit st env = (SB_Error.NoError, st₀))
    (hsem : env.muxSemaphore = true) (hsink : st.connStateSink = false)
    (hrun : MUX_run cfg st₀ steps = some st') :
    st₀.muxSemaphore = some 1 ∧
    ∃ c, st'.muxSemaphore = some c ∧ (c = 0 ∨ c = 1) ∧
      c + MUX_acquired cfg st₀ steps = 1 + MUX_released cfg st₀ steps ∧
      (st'.sysdisblClock ≠ none → c = 0 ∧ st'.connStateSink = false) ∧
      (c = 0 → st'.sysdisblClock = none →
        st'.connStateSink = true ∧ ∀ more, MUX_released cfg st' more = 0) ∧
      (∀ t p e, (SB_sysDisableRefresh cfg st' t p).1 = some e → e ≠ SB_Error.NoError →
        (SB_sysDisableRefresh cfg st' t p).2.muxSemaphore = st'.muxSemaphore ∧
        (SB_sysDisableRefresh cfg st' t p).2.sysdisblClock = st'.sysdisblClock) := by
  obtain ⟨h1, h2, h3⟩ := SB_peripheralInit_count hinit hsem
  obtain ⟨c, hc, hacc⟩ := MUX_run_account h1 hrun
  have hT := MUX_holder_run (Or.inl ⟨h1, h2, h3.trans hsink⟩) hrun
  refine ⟨h1, c, hc, ?_, hacc, ?_, ?_, fun t p e h he =>
    SB_sysDisableRefresh_failure cfg st' t p e h he⟩
  · rcases hT with ⟨a, _, _⟩ | ⟨a, _, _⟩ | ⟨a, _, _⟩ <;>
      · rw [hc] at a
        cases a
        simp
  · intro hclk
    rcases hT with ⟨_, b, _⟩ | ⟨a, _, k⟩ | ⟨_, b, _⟩
    · exact absurd b hclk
    · rw [hc] at a
      cases a
      exact ⟨rfl, k⟩
    · exact absurd b hclk
  · intro h0 hclk
    subst h0
    refine ⟨?_, fun more => MUX_held_released hc hclk⟩
    rcases hT with ⟨a, _, _⟩ | ⟨_, b, _⟩ | ⟨_, _, k⟩
    · rw [hc] at a
      cases a
    · exact absurd hclk b
    · exact k

/-- C27, counterexample: from the state after
`SB_peripheralInit`, a shutdown whose port write succeeds takes the lock, one
successful pend and no post, and no run after it posts to the lock: this pend
is matched by no release. -/
theorem mux_acquire_unmatched_counterexample :
    ∃ st, MUX_run sampleCfg readyMux [MUX_Step.shutdown true] = some st ∧
      MUX_acquired sampleCfg readyMux [MUX_Step.shutdown true] = 1 ∧
      MUX_released sampleCfg readyMux [MUX_Step.shutdown true] = 0 ∧
      st.muxSemaphore = some 0 ∧
      ∀ steps, MUX_released sampleCfg st steps = 0 :=
  ⟨(SB_sysDisableShutdown sampleCfg readyMux true).2, rfl, rfl, rfl, rfl,
    fun _ => MUX_held_released rfl rfl⟩

/-- Witness for C27: `sampleMuxRun` from the state after `SB_peripheralInit`;
two pends succeed, that of the refresh, matched by the post of the clock
handler, and that of the shutdown. -/
theorem mux_lock_binary_witness :
    SB_peripheralInit bootMux pmgrInitEnvOk = (SB_Error.NoError, readyMux) ∧
    MUX_run sampleCfg readyMux sampleMuxRun = some shutMux ∧
    MUX_acquired sampleCfg readyMux sampleMuxRun = 2 ∧
    MUX_released sampleCfg readyMux sampleMuxRun = 1 ∧
    readyMux.muxSemaphore = some 1 ∧
    ∃ c, shutMux.muxSemaphore = some c ∧ (c = 0 ∨ c = 1) ∧
      c + MUX_acquired sampleCfg readyMux sampleMuxRun
        = 1 + MUX_released sampleCfg readyMux sampleMuxRun ∧
      (shutMux.sysdisblClock ≠ none → c = 0 ∧ shutMux.connStateSink = false) ∧
      (c = 0 → shutMux.sysdisblClock = none →
        shutMux.connStateSink = true ∧ ∀ more, MUX_released sampleCfg shutMux more = 0) ∧
      (∀ t p e, (SB_sysDisableRefresh sampleCfg shutMux t p).1 = some e →
        e ≠ SB_Error.NoError →
        (SB_sysDisableRefresh sampleCfg shutMux t p).2.muxSemaphore = shutMux.muxSemaphore ∧
        (SB_sysDisableRefresh sampleCfg shutMux t p).2.sysdisblClock
          = shutMux.sysdisblClock) :=
  ⟨rfl, rfl, rfl, rfl,
    mux_lock_binary sampleCfg bootMux readyMux shutMux pmgrInitEnvOk sampleMuxRun rfl rfl rfl
      rfl⟩

/-! ## The result of the temperature sensor configuration -/

/-- The health record that `initPeripherals` writes for temperature sensor
`i` is the same for any two sets of bus answers that agree on the completion
result of its configuration transaction. -/
theorem initPeripherals_mcp9808_health (cfg : PMGR_Config) (bus bus' : PMGR_Bus) (i : Nat)
    (s : PMGR_State) (h : bus'.tempConfig i = bus.tempConfig i) :
    (initPeripherals_mcp9808 cfg bus' i s).mcp9808DeviceStates
      = (initPeripherals_mcp9808 cfg bus i s).mcp9808DeviceStates := by
  unfold initPeripherals_mcp9808 applyTempSensorConfiguration
  simp only [h]

/-- A loop whose body only appends calls of one kind to the trace only
appends calls of that kind. -/
theorem forLoop_extends (p : PMGR_Event → Bool) (body : Nat → PMGR_State → PMGR_State)
    (h : ∀ j s, ∃ ev, (body j s).trace = s.trace ++ ev ∧ ∀ e ∈ ev, p e = true)
    (n : Nat) (s : PMGR_State) :
    ∃ ev, (forLoop body n s).trace = s.trace ++ ev ∧ ∀ e ∈ ev, p e = true := by
  induction n with
  | zero => exact ⟨[], (List.append_nil _).symm, by simp⟩
  | succ n ih =>
    obtain ⟨ev₁, h₁, p₁⟩ := ih
    obtain ⟨ev₂, h₂, p₂⟩ := h n (forLoop body n s)
    refine ⟨ev₁ ++ ev₂, ?_, ?_⟩
    · rw [forLoop, h₂, h₁, List.append_assoc]
    · intro e he
      rcases List.mem_append.mp he with h' | h'
      · exact p₁ e h'
      · exact p₂ e h'

/-- The configuration of a temperature sensor appends configuration calls
only. -/
theorem initPeripherals_mcp9808_extends (cfg : PMGR_Config) (bus : PMGR_Bus) (i : Nat)
    (s : PMGR_State) :
    ∃ ev, (initPeripherals_mcp9808 cfg bus i s).trace = s.trace ++ ev ∧
      ∀ e ∈ ev, isConfigCall e = true := by
  unfold initPeripherals_mcp9808 applyTempSensorConfiguration
  simp only [Function.update_same]
  split_ifs <;>
    first
    | exact ⟨[], (List.append_nil _).symm, by simp⟩
    | exact ⟨[PMGR_Event.tempConfig i, PMGR_Event.tempResolution i], by simp,
        by simp [isConfigCall]⟩

/-- The humidity part of `initPeripherals` appends configuration calls only. -/
theorem initPeripherals_hdc1050_extends (cfg : PMGR_Config) (bus : PMGR_Bus) (s : PMGR_State) :
    ∃ ev, (initPeripherals_hdc1050 cfg bus s).trace = s.trace ++ ev ∧
      ∀ e ∈ ev, isConfigCall e = true := by
  unfold initPeripherals_hdc1050 applyHumiditySensorConfiguration
    hdc1050_startTempHumidityConversion
  simp only
  split_ifs <;>
    exact ⟨[PMGR_Event.humidityConfig, PMGR_Event.startConversion], by simp,
      by simp [isConfigCall]⟩

/-- A configuration phase appends configuration calls only. -/
theorem initPeripherals_extends (cfg : PMGR_Config) (bus : PMGR_Bus) (s : PMGR_State) :
    ∃ ev, (initPeripherals cfg bus s).2.trace = s.trace ++ ev ∧
      ∀ e ∈ ev, isConfigCall e = true := by
  have hsensors : ∀ s₀ : PMGR_State,
      ∃ ev, (initPeripherals_hdc1050 cfg bus
          (forLoop (initPeripherals_mcp9808 cfg bus) cfg.SB_NUM_MCP9808_SENSORS s₀)).trace
        = s₀.trace ++ ev ∧ ∀ e ∈ ev, isConfigCall e = true := by
    intro s₀
    obtain ⟨ev₁, h₁, p₁⟩ := forLoop_extends isConfigCall (initPeripherals_mcp9808 cfg bus)
      (initPeripherals_mcp9808_extends cfg bus) cfg.SB_NUM_MCP9808_SENSORS s₀
    obtain ⟨ev₂, h₂, p₂⟩ := initPeripherals_hdc1050_extends cfg bus
      (forLoop (initPeripherals_mcp9808 cfg bus) cfg.SB_NUM_MCP9808_SENSORS s₀)
    refine ⟨ev₁ ++ ev₂, ?_, ?_⟩
    · rw [h₂, h₁, List.append_assoc]
    · intro e he
      rcases List.mem_append.mp he with h' | h'
      · exact p₁ e h'
      · exact p₂ e h'
  unfold initPeripherals
  by_cases hp : cfg.IOEXPANDER_PRESENT = true
  · by_cases hok : bus.ioexpanderConfig = SB_Error.NoError
    · simp only [hp, if_true, applyIOExpanderConfiguration, hok]
      obtain ⟨ev, h₁, p₁⟩ := hsensors
        { s with
          ioexpanderDevice :=
            { s.ioexpanderDevice with
              address := cfg.I2C_DBGIOEXP_ADDR, configuration := cfg.tca9554aConfiguration }
          ioexpanderDeviceState :=
            { s.ioexpanderDeviceState with
              lastError := SB_Error.NoError, currentState := PState.PState_OK }
          trace := s.trace ++ [PMGR_Event.ioexpanderConfig] }
      refine ⟨PMGR_Event.ioexpanderConfig :: ev, ?_, ?_⟩
      · simpa using h₁
      · intro e he
        rcases List.mem_cons.mp he with h' | h'
        · subst h'
          rfl
        · exact p₁ e h'
    · have hne : ¬ SB_Error.NoError = bus.ioexpanderConfig := fun h => hok h.symm
      simp only [hp, if_true, applyIOExpanderConfiguration, hne, if_false]
      exact ⟨[PMGR_Event.ioexpanderConfig], rfl, by simp [isConfigCall]⟩
  · simp only [hp, if_false]
    exact hsensors s

/-- The read of a temperature sensor appends read calls only. -/
theorem readSensorData_mcp9808_extends (cfg : PMGR_Config) (bus : PMGR_Bus) (i : Nat)
    (s : PMGR_State) :
    ∃ ev, (readSensorData_mcp9808 cfg bus i s).trace = s.trace ++ ev ∧
      ∀ e ∈ ev, isReadCall e = true := by
  unfold readSensorData_mcp9808 tca9554a_setPinStatus
  simp only [Function.update_same]
  split_ifs <;>
    first
    | exact ⟨[], (List.append_nil _).symm, by simp⟩
    | exact ⟨_, by simp only [List.append_assoc]; rfl, by simp [isReadCall]⟩

/-- The humidity part of `readSensorData` appends read calls only. -/
theorem readSensorData_hdc1050_extends (cfg : PMGR_Config) (bus : PMGR_Bus) (s : PMGR_State) :
    ∃ ev, (readSensorData_hdc1050 cfg bus s).trace = s.trace ++ ev ∧
      ∀ e ∈ ev, isReadCall e = true := by
  unfold readSensorData_hdc1050 tca9554a_setPinStatus hdc1050_readTempHumidity
  simp only
  split_ifs <;>
    first
    | exact ⟨[], (List.append_nil _).symm, by simp⟩
    | exact ⟨_, by simp only [List.append_assoc]; rfl, by simp [isReadCall]⟩

/-- A read phase appends read calls only. -/
theorem readSensorData_extends (cfg : PMGR_Config) (bus : PMGR_Bus) (s : PMGR_State) :
    ∃ ev, (readSensorData cfg bus s).2.trace = s.trace ++ ev ∧
      ∀ e ∈ ev, isReadCall e = true := by
  obtain ⟨ev₁, h₁, p₁⟩ := forLoop_extends isReadCall (readSensorData_mcp9808 cfg bus)
    (readSensorData_mcp9808_extends cfg bus) cfg.SB_NUM_MCP9808_SENSORS s
  obtain ⟨ev₂, h₂, p₂⟩ := readSensorData_hdc1050_extends cfg bus
    (forLoop (readSensorData_mcp9808 cfg bus) cfg.SB_NUM_MCP9808_SENSORS s)
  refine ⟨ev₁ ++ ev₂, ?_, ?_⟩
  · unfold readSensorData
    simp only
    rw [h₂, h₁, List.append_assoc]
  · intro e he
    rcases List.mem_append.mp he with h' | h'
    · exact p₁ e h'
    · exact p₂ e h'

/-! ## The order of a polling cycle -/

/-- The power check of a trace in two parts. -/
theorem poweredCalls_append (b : Bool) (xs ys : List PMGR_Event) :
    poweredCalls b (xs ++ ys) = (poweredCalls b xs && poweredCalls (powerAfter b xs) ys) := by
  induction xs generalizing b with
  | nil => simp [poweredCalls, powerAfter]
  | cons e rest ih =>
    cases e <;> simp [poweredCalls, powerAfter, ih, Bool.and_assoc]

/-- The power state after a trace in two parts. -/
theorem powerAfter_append (b : Bool) (xs ys : List PMGR_Event) :
    powerAfter b (xs ++ ys) = powerAfter (powerAfter b xs) ys := by
  induction xs generalizing b with
  | nil => simp [powerAfter]
  | cons e rest ih =>
    cases e <;> simp [powerAfter, ih]

/-- Calls that do not switch the power pass the check when power is enabled,
and leave the power state as it is. -/
theorem poweredCalls_phase (b : Bool) (ev : List PMGR_Event)
    (h : ∀ e ∈ ev, isConfigCall e = true ∨ isReadCall e = true) :
    poweredCalls true ev = true ∧ powerAfter b ev = b := by
  induction ev with
  | nil => exact ⟨rfl, rfl⟩
  | cons e rest ih =>
    have hrest := ih (fun x hx => h x (List.mem_cons_of_mem _ hx))
    have he := h e (List.mem_cons_self _ _)
    cases e <;> simp_all [poweredCalls, powerAfter, isConfigCall, isReadCall]

/-- One pass of the loop appends: the power enable, the calls of the
configuration phase, the calls of the read phase, in the debug build a sleep,
the power disable, and the sleep of the period. -/
theorem SB_peripheralManagerTask_iteration_trace (cfg : PMGR_Config) (SB_DEBUG : Bool)
    (NTICKS_PER_MILLSECOND : Nat) (s : PMGR_State) (c : PMGR_Cycle) :
    ∃ configCalls readCalls,
      (initPeripherals cfg c.initBus (SB_setPeripheralsEnable c.enableOk true s).2).2.trace
        = s.trace ++ [PMGR_Event.power true] ++ configCalls ∧
      (readSensorData cfg c.readBus
          (initPeripherals cfg c.initBus (SB_setPeripheralsEnable c.enableOk true s).2).2).2.trace
        = s.trace ++ [PMGR_Event.power true] ++ configCalls ++ readCalls ∧
      (SB_peripheralManagerTask_iteration cfg SB_DEBUG NTICKS_PER_MILLSECOND s c).trace
        = s.trace ++ ([PMGR_Event.power true] ++ configCalls ++ readCalls ++
            (if SB_DEBUG then [PMGR_Event.sleep NTICKS_PER_MILLSECOND] else []) ++
            [PMGR_Event.power false, PMGR_Event.sleep 100000]) ∧
      (∀ e ∈ configCalls, isConfigCall e = true) ∧ (∀ e ∈ readCalls, isReadCall e = true) := by
  have hpower : ∀ (pinOk enable : Bool) (s' : PMGR_State),
      (SB_setPeripheralsEnable pinOk enable s').2.trace
        = s'.trace ++ [PMGR_Event.power enable] := by
    intro pinOk enable s'
    unfold SB_setPeripheralsEnable
    cases pinOk <;> cases enable <;> rfl
  have h0 := hpower c.enableOk true s
  obtain ⟨ev₁, h₁, p₁⟩ := initPeripherals_extends cfg c.initBus
    (SB_setPeripheralsEnable c.enableOk true s).2
  obtain ⟨ev₂, h₂, p₂⟩ := readSensorData_extends cfg c.readBus
    (initPeripherals cfg c.initBus (SB_setPeripheralsEnable c.enableOk true s).2).2
  rw [h0] at h₁
  rw [h₁] at h₂
  refine ⟨ev₁, ev₂, h₁, h₂, ?_, p₁, p₂⟩
  unfold SB_peripheralManagerTask_iteration
  simp only [hpower c.disableOk false]
  cases SB_DEBUG <;> simp [h₂]

/-- The passes of the loop append a trace in which every call to a
peripheral comes with the power enabled, and which ends with the power
disabled. -/
theorem SB_peripheralManagerTask_loop (cfg : PMGR_Config) (SB_DEBUG : Bool)
    (NTICKS_PER_MILLSECOND : Nat) (cycles : List PMGR_Cycle) (s : PMGR_State) :
    ∃ ev,
      (cycles.foldl (SB_peripheralManagerTask_iteration cfg SB_DEBUG NTICKS_PER_MILLSECOND)
          s).trace = s.trace ++ ev ∧
      poweredCalls false ev = true ∧ powerAfter false ev = false ∧
      ev.count (PMGR_Event.power true) = cycles.length ∧
      ev.count (PMGR_Event.power false) = cycles.length := by
  induction cycles generalizing s with
  | nil => exact ⟨[], (List.append_nil _).symm, rfl, rfl, rfl, rfl⟩
  | cons c rest ih =>
    obtain ⟨ev₁, ev₂, _, _, h₃, p₁, p₂⟩ :=
      SB_peripheralManagerTask_iteration_trace cfg SB_DEBUG NTICKS_PER_MILLSECOND s c
    obtain ⟨ev, h, q₁, q₂, q₃, q₄⟩ :=
      ih (SB_peripheralManagerTask_iteration cfg SB_DEBUG NTICKS_PER_MILLSECOND s c)
    have hphase : ∀ e ∈ ev₁ ++ ev₂ ++
        (if SB_DEBUG then [PMGR_Event.sleep NTICKS_PER_MILLSECOND] else []),
        isConfigCall e = true ∨ isReadCall e = true := by
      intro e he
      rcases List.mem_append.mp he with h' | h'
      · rcases List.mem_append.mp h' with h'' | h''
        · exact Or.inl (p₁ e h'')
        · exact Or.inr (p₂ e h'')
      · cases SB_DEBUG
        · simp at h'
        · simp only [if_true, List.mem_singleton] at h'
          subst h'
          exact Or.inr rfl
    have hcount : ∀ b, (ev₁ ++ ev₂ ++
        (if SB_DEBUG then [PMGR_Event.sleep NTICKS_PER_MILLSECOND] else [])).count
          (PMGR_Event.power b) = 0 := by
      intro b
      rw [List.count_eq_zero]
      intro hmem
      have := hphase _ hmem
      simp [isConfigCall, isReadCall] at this
    obtain ⟨r₁, r₂⟩ := poweredCalls_phase true _ hphase
    have h₃' : (SB_peripheralManagerTask_iteration cfg SB_DEBUG NTICKS_PER_MILLSECOND s c).trace
        = s.trace ++ (PMGR_Event.power true :: ((ev₁ ++ ev₂ ++
            (if SB_DEBUG then [PMGR_Event.sleep NTICKS_PER_MILLSECOND] else [])) ++
            [PMGR_Event.power false, PMGR_Event.sleep 100000])) := by
      rw [h₃]
      simp
    generalize ev₁ ++ ev₂ ++
      (if SB_DEBUG then [PMGR_Event.sleep NTICKS_PER_MILLSECOND] else []) = mid at *
    refine ⟨PMGR_Event.power true ::
        (mid ++ (PMGR_Event.power false :: PMGR_Event.sleep 100000 :: ev)), ?_, ?_, ?_, ?_, ?_⟩
    · rw [List.foldl_cons, h, h₃']
      simp
    · show poweredCalls true (mid ++ _) = true
      rw [poweredCalls_append, r₁, r₂]
      simp [poweredCalls, isDeviceCall, q₁]
    · show powerAfter true (mid ++ _) = false
      rw [powerAfter_append, r₂]
      simp [powerAfter, q₂]
    · simp [List.count_cons, List.count_append, hcount, q₃]
    · simp [List.count_cons, List.count_append, hcount, q₄]

/-- C24, amended: `SB_peripheralManagerTask` begins with one
configuration phase at start-up, before any call of
`SB_setPeripheralsEnable`, and exits when that phase returns an error.
Otherwise it runs its loop, and in the calls of the loop every call to a
peripheral comes after a power enable with no power disable in between, and
there are as many enables and as many disables as passes.  Each pass of the
loop appends, in this order: the power enable, the calls of the
configuration phase, the calls of the read phase, in the debug build a sleep
of `NTICKS_PER_MILLSECOND` ticks, the power disable, and the sleep of
`100000` ticks. -/
theorem SB_peripheralManagerTask_cycle_order (cfg : PMGR_Config) (SB_DEBUG : Bool)
    (NTICKS_PER_MILLSECOND : Nat) (startBus : PMGR_Bus) (cycles : List PMGR_Cycle)
    (s : PMGR_State) :
    (∃ startCalls,
      (initPeripherals cfg startBus s).2.trace = s.trace ++ startCalls ∧
      (∀ e ∈ startCalls, isConfigCall e = true) ∧
      ((initPeripherals cfg startBus s).1 ≠ SB_Error.NoError →
        SB_peripheralManagerTask cfg SB_DEBUG NTICKS_PER_MILLSECOND startBus cycles s
          = (initPeripherals cfg startBus s).2) ∧
      ((initPeripherals cfg startBus s).1 = SB_Error.NoError →
        SB_peripheralManagerTask cfg SB_DEBUG NTICKS_PER_MILLSECOND startBus cycles s
          = cycles.foldl (SB_peripheralManagerTask_iteration cfg SB_DEBUG NTICKS_PER_MILLSECOND)
              (initPeripherals cfg startBus s).2 ∧
        ∃ loopCalls,
          (SB_peripheralManagerTask cfg SB_DEBUG NTICKS_PER_MILLSECOND startBus cycles s).trace
            = s.trace ++ startCalls ++ loopCalls ∧
          poweredCalls false loopCalls = true ∧ powerAfter false loopCalls = false ∧
          loopCalls.count (PMGR_Event.power true) = cycles.length ∧
          loopCalls.count (PMGR_Event.power false) = cycles.length)) ∧
    (∀ (s' : PMGR_State) (c : PMGR_Cycle), ∃ configCalls readCalls,
      (initPeripherals cfg c.initBus (SB_setPeripheralsEnable c.enableOk true s').2).2.trace
        = s'.trace ++ [PMGR_Event.power true] ++ configCalls ∧
      (readSensorData cfg c.readBus
          (initPeripherals cfg c.initBus
            (SB_setPeripheralsEnable c.enableOk true s').2).2).2.trace
        = s'.trace ++ [PMGR_Event.power true] ++ configCalls ++ readCalls ∧
      (SB_peripheralManagerTask_iteration cfg SB_DEBUG NTICKS_PER_MILLSECOND s' c).trace
        = s'.trace ++ ([PMGR_Event.power true] ++ configCalls ++ readCalls ++
            (if SB_DEBUG then [PMGR_Event.sleep NTICKS_PER_MILLSECOND] else []) ++
            [PMGR_Event.power false, PMGR_Event.sleep 100000]) ∧
      (∀ e ∈ configCalls, isConfigCall e = true) ∧
      (∀ e ∈ readCalls, isReadCall e = true)) := by
  refine ⟨?_, fun s' c =>
    SB_peripheralManagerTask_iteration_trace cfg SB_DEBUG NTICKS_PER_MILLSECOND s' c⟩
  obtain ⟨ev, h, p⟩ := initPeripherals_extends cfg startBus s
  refine ⟨ev, h, p, ?_, ?_⟩
  · intro hne
    unfold SB_peripheralManagerTask
    simp only
    rw [if_pos (fun h' => hne h'.symm)]
  · intro hok
    have htask : SB_peripheralManagerTask cfg SB_DEBUG NTICKS_PER_MILLSECOND startBus cycles s
        = cycles.foldl (SB_peripheralManagerTask_iteration cfg SB_DEBUG NTICKS_PER_MILLSECOND)
            (initPeripherals cfg startBus s).2 := by
      unfold SB_peripheralManagerTask
      simp only
      rw [if_neg (fun h' => h' hok.symm)]
    obtain ⟨lc, h₁, q₁, q₂, q₃, q₄⟩ := SB_peripheralManagerTask_loop cfg SB_DEBUG
      NTICKS_PER_MILLSECOND cycles (initPeripherals cfg startBus s).2
    refine ⟨htask, lc, ?_, q₁, q₂, q₃, q₄⟩
    rw [htask, h₁, h]

/-- C24, counterexample: with every call
succeeding, the trace of the task begins with the calls of a configuration
phase, from the IO expander configuration to the start of the humidity
conversion, and only then comes the first power enable; the check that every
call to a peripheral follows a power enable fails on the trace. -/
theorem cycle_order_counterexample :
    (SB_peripheralManagerTask sampleCfg false 10 sampleBus [sampleCycle] samplePMGR).trace.take 10
      = [PMGR_Event.ioexpanderConfig, PMGR_Event.tempConfig 0, PMGR_Event.tempResolution 0,
          PMGR_Event.tempConfig 1, PMGR_Event.tempResolution 1, PMGR_Event.tempConfig 2,
          PMGR_Event.tempResolution 2, PMGR_Event.humidityConfig, PMGR_Event.startConversion,
          PMGR_Event.power true] ∧
    poweredCalls false
      (SB_peripheralManagerTask sampleCfg false 10 sampleBus [sampleCycle] samplePMGR).trace
      = false :=
  ⟨by decide, by decide⟩

/-- Witness for C24: two passes of the loop after a start-up phase in which
every call succeeds. -/
theorem SB_peripheralManagerTask_cycle_order_witness :
    (initPeripherals sampleCfg sampleBus samplePMGR).1 = SB_Error.NoError ∧
    ∃ loopCalls,
      (SB_peripheralManagerTask sampleCfg true 10 sampleBus [sampleCycle, sampleCycle]
          samplePMGR).trace
        = (initPeripherals sampleCfg sampleBus samplePMGR).2.trace ++ loopCalls ∧
      poweredCalls false loopCalls = true ∧ powerAfter false loopCalls = false ∧
      loopCalls.count (PMGR_Event.power true) = 2 ∧
      loopCalls.count (PMGR_Event.power false) = 2 := by
  obtain ⟨⟨startCalls, h₁, _, _, h₂⟩, _⟩ :=
    SB_peripheralManagerTask_cycle_order sampleCfg true 10 sampleBus [sampleCycle, sampleCycle]
      samplePMGR
  obtain ⟨_, loopCalls, h₃, q⟩ := h₂ rfl
  exact ⟨rfl, loopCalls, by rw [h₃, h₁], q⟩

/-! ## The ready deadline of the humidity sensor -/

/-- The humidity part of `initPeripherals` sets the deadline when the start
of the conversion succeeds. -/
theorem initPeripherals_hdc1050_deadline (cfg : PMGR_Config) (bus : PMGR_Bus) (s : PMGR_State)
    (hstart : bus.startConversion = SB_Error.NoError) :
    (initPeripherals_hdc1050 cfg bus s).hdc1050Device.readReadyTime
      = cfg.HDC1050_READ_WAIT_TICKS + bus.ticksAtStart := by
  unfold initPeripherals_hdc1050 applyHumiditySensorConfiguration
    hdc1050_startTempHumidityConversion
  simp only [hstart]
  split_ifs <;> rfl

/-- The read of a temperature sensor appends neither a sleep nor a read of
the humidity sensor. -/
theorem readSensorData_mcp9808_other (cfg : PMGR_Config) (bus : PMGR_Bus) (i : Nat)
    (s : PMGR_State) :
    ∃ ev, (readSensorData_mcp9808 cfg bus i s).trace = s.trace ++ ev ∧
      ∀ e ∈ ev, isOtherReadCall e = true := by
  unfold readSensorData_mcp9808 tca9554a_setPinStatus
  simp only [Function.update_same]
  split_ifs <;>
    first
    | exact ⟨[], (List.append_nil _).symm, by simp⟩
    | exact ⟨_, by simp only [List.append_assoc]; rfl, by simp [isOtherReadCall]⟩

/-- The humidity part of `readSensorData` for a sensor that is polled: the
sleep up to the deadline if it lies ahead, the pin change, the read, and
calls that are neither sleeps nor reads of the humidity sensor. -/
theorem readSensorData_hdc1050_calls (cfg : PMGR_Config) (bus : PMGR_Bus) (s : PMGR_State)
    (hstate : s.hdc1050DeviceState.currentState = PState.PState_OK ∨
      s.hdc1050DeviceState.currentState = PState.PState_Intermittent) :
    ∃ pinCalls post,
      (readSensorData_hdc1050 cfg bus s).trace
        = s.trace ++
          (if s.hdc1050Device.readReadyTime > bus.ticksAtRead then
            [PMGR_Event.sleep (s.hdc1050Device.readReadyTime - bus.ticksAtRead)] else []) ++
          pinCalls ++ [PMGR_Event.humidityRead] ++ post ∧
      (∀ e ∈ pinCalls, isOtherReadCall e = true) ∧ (∀ e ∈ post, isOtherReadCall e = true) := by
  refine ⟨if cfg.LAUNCHPAD then []
      else [PMGR_Event.setPinStatus PMGR_Pin.IOEXP_I2CSTATUS_PIN_HUMIDITY true],
    (if bus.humidityRead = SB_Error.NoError then
      [PMGR_Event.publish SB_Characteristic.SB_CHARACTERISTIC_HUMIDITY bus.humidity 0,
        PMGR_Event.publish SB_Characteristic.SB_CHARACTERISTIC_TEMPERATURE
          bus.humidityTemperature 3]
      else []) ++
    (if cfg.LAUNCHPAD then []
      else [PMGR_Event.setPinStatus PMGR_Pin.IOEXP_I2CSTATUS_PIN_HUMIDITY false]), ?_, ?_, ?_⟩
  · unfold readSensorData_hdc1050 tca9554a_setPinStatus hdc1050_readTempHumidity
    simp only [hstate, if_true]
    split_ifs <;> simp
  · rw [← List.all_eq_true]
    split_ifs <;> rfl
  · rw [← List.all_eq_true]
    split_ifs <;> rfl

/-- The ticks slept in a trace in two parts. -/
theorem ticksSlept_append (xs ys : List PMGR_Event) :
    ticksSlept (xs ++ ys) = ticksSlept xs + ticksSlept ys := by
  induction xs with
  | nil => simp [ticksSlept]
  | cons e rest ih =>
    cases e <;> simp [ticksSlept, ih, Nat.add_assoc]

/-- Calls that are not sleeps sleep no tick. -/
theorem ticksSlept_other (ev : List PMGR_Event) (h : ∀ e ∈ ev, isOtherReadCall e = true) :
    ticksSlept ev = 0 := by
  induction ev with
  | nil => rfl
  | cons e rest ih =>
    have hrest := ih (fun x hx => h x (List.mem_cons_of_mem _ hx))
    have he := h e (List.mem_cons_self _ _)
    cases e <;> simp_all [ticksSlept, isOtherReadCall]

/-- C25: when `initPeripherals` gets past the IO expander and the start of
the conversion succeeds, at tick `t0`, the deadline it leaves is
`t0 + HDC1050_READ_WAIT_TICKS`.  In a read phase on any state, with deadline
`d` and the tick count `now` read there: for a humidity sensor that is
polled, `readSensorData` makes the calls of the temperature sensors, then
sleeps `d - now` ticks if `d > now` and does not sleep if not, then changes
the pin if there is one, then issues the read command, once, and then makes
calls none of which is a sleep or a read of the humidity sensor; the ticks
slept between reading the tick count and issuing the read command are
`d - now` or none, so that the read command is issued at a tick of at least
`d`.  For a humidity sensor that is not polled the phase neither sleeps nor
issues the read command. -/
theorem humidity_ready_deadline (cfg : PMGR_Config) (bus readBus : PMGR_Bus) (s : PMGR_State)
    (hio : cfg.IOEXPANDER_PRESENT = false ∨ bus.ioexpanderConfig = SB_Error.NoError)
    (hstart : bus.startConversion = SB_Error.NoError) :
    (initPeripherals cfg bus s).2.hdc1050Device.readReadyTime
      = bus.ticksAtStart + cfg.HDC1050_READ_WAIT_TICKS ∧
    ∀ s₂ : PMGR_State,
      ((s₂.hdc1050DeviceState.currentState = PState.PState_OK ∨
          s₂.hdc1050DeviceState.currentState = PState.PState_Intermittent) →
        ∃ before pinCalls post,
          (readSensorData cfg readBus s₂).2.trace
            = s₂.trace ++ before ++
              (if s₂.hdc1050Device.readReadyTime > readBus.ticksAtRead then
                [PMGR_Event.sleep (s₂.hdc1050Device.readReadyTime - readBus.ticksAtRead)]
                else []) ++
              pinCalls ++ [PMGR_Event.humidityRead] ++ post ∧
          (∀ e ∈ before ++ pinCalls ++ post, isOtherReadCall e = true) ∧
          ticksSlept
              ((if s₂.hdc1050Device.readReadyTime > readBus.ticksAtRead then
                [PMGR_Event.sleep (s₂.hdc1050Device.readReadyTime - readBus.ticksAtRead)]
                else []) ++ pinCalls)
            = s₂.hdc1050Device.readReadyTime - readBus.ticksAtRead ∧
          s₂.hdc1050Device.readReadyTime
            ≤ readBus.ticksAtRead + ticksSlept
                ((if s₂.hdc1050Device.readReadyTime > readBus.ticksAtRead then
                  [PMGR_Event.sleep (s₂.hdc1050Device.readReadyTime - readBus.ticksAtRead)]
                  else []) ++ pinCalls)) ∧
      (¬ (s₂.hdc1050DeviceState.currentState = PState.PState_OK ∨
          s₂.hdc1050DeviceState.currentState = PState.PState_Intermittent) →
        ∃ before,
          (readSensorData cfg readBus s₂).2.trace = s₂.trace ++ before ∧
          ∀ e ∈ before, isOtherReadCall e = true) := by
  refine ⟨?_, fun s₂ => ?_⟩
  · obtain ⟨s₀, _, h⟩ := initPeripherals_past_ioexpander cfg bus s hio
    rw [h, Nat.add_comm]
    exact initPeripherals_hdc1050_deadline cfg bus _ hstart
  · obtain ⟨before, hb, pb⟩ := forLoop_extends isOtherReadCall (readSensorData_mcp9808 cfg readBus)
      (readSensorData_mcp9808_other cfg readBus) cfg.SB_NUM_MCP9808_SENSORS s₂
    have hview := forLoop_keeps hdcView (readSensorData_mcp9808 cfg readBus)
      (readSensorData_mcp9808_hdc cfg readBus) cfg.SB_NUM_MCP9808_SENSORS s₂
    simp only [hdcView, Prod.mk.injEq] at hview
    obtain ⟨hdev, hst, _⟩ := hview
    refine ⟨fun hstate => ?_, fun hstate => ?_⟩
    · obtain ⟨pinCalls, post, ht, pp, pq⟩ := readSensorData_hdc1050_calls cfg readBus
        (forLoop (readSensorData_mcp9808 cfg readBus) cfg.SB_NUM_MCP9808_SENSORS s₂)
        (by rw [hst]; exact hstate)
      rw [hdev, hb] at ht
      refine ⟨before, pinCalls, post, ht, ?_, ?_, ?_⟩
      · intro e he
        rcases List.mem_append.mp he with h' | h'
        · rcases List.mem_append.mp h' with h'' | h''
          · exact pb e h''
          · exact pp e h''
        · exact pq e h'
      · rw [ticksSlept_append, ticksSlept_other pinCalls pp]
        split_ifs with hd
        · simp [ticksSlept]
        · simp only [ticksSlept]
          omega
      · rw [ticksSlept_append, ticksSlept_other pinCalls pp]
        split_ifs with hd
        · simp only [ticksSlept]
          omega
        · simp only [ticksSlept]
          omega
    · refine ⟨before, ?_, pb⟩
      unfold readSensorData
      simp only
      unfold readSensorData_hdc1050
      rw [hst, if_neg hstate, hb]

/-- Witness for C25: the start succeeds at tick `1000`, the wait is `650`
ticks, and the read phase reads tick `1200`: it sleeps `450` ticks. -/
theorem humidity_ready_deadline_witness :
    (initPeripherals sampleCfg sampleBus samplePMGR).2.hdc1050Device.readReadyTime = 1650 ∧
    ((readSensorData sampleCfg sampleBus
        (initPeripherals sampleCfg sampleBus samplePMGR).2).2.trace.filter isSleep
      = [PMGR_Event.sleep 450]) ∧
    ∃ before pinCalls post,
      (readSensorData sampleCfg sampleBus (initPeripherals sampleCfg sampleBus samplePMGR).2).2.trace
        = (initPeripherals sampleCfg sampleBus samplePMGR).2.trace ++ before ++
          (if (initPeripherals sampleCfg sampleBus samplePMGR).2.hdc1050Device.readReadyTime
              > sampleBus.ticksAtRead then
            [PMGR_Event.sleep
              ((initPeripherals sampleCfg sampleBus samplePMGR).2.hdc1050Device.readReadyTime
                - sampleBus.ticksAtRead)]
            else []) ++
          pinCalls ++ [PMGR_Event.humidityRead] ++ post ∧
      (∀ e ∈ before ++ pinCalls ++ post, isOtherReadCall e = true) ∧
      ticksSlept
          ((if (initPeripherals sampleCfg sampleBus samplePMGR).2.hdc1050Device.readReadyTime
              > sampleBus.ticksAtRead then
            [PMGR_Event.sleep
              ((initPeripherals sampleCfg sampleBus samplePMGR).2.hdc1050Device.readReadyTime
                - sampleBus.ticksAtRead)]
            else []) ++ pinCalls)
        = (initPeripherals sampleCfg sampleBus samplePMGR).2.hdc1050Device.readReadyTime
          - sampleBus.ticksAtRead ∧
      (initPeripherals sampleCfg sampleBus samplePMGR).2.hdc1050Device.readReadyTime
        ≤ sampleBus.ticksAtRead + ticksSlept
            ((if (initPeripherals sampleCfg sampleBus samplePMGR).2.hdc1050Device.readReadyTime
                > sampleBus.ticksAtRead then
              [PMGR_Event.sleep
                ((initPeripherals sampleCfg sampleBus samplePMGR).2.hdc1050Device.readReadyTime
                  - sampleBus.ticksAtRead)]
              else []) ++ pinCalls) :=
  ⟨(humidity_ready_deadline sampleCfg sampleBus sampleBus samplePMGR (Or.inr rfl) rfl).1,
    by decide,
    ((humidity_ready_deadline sampleCfg sampleBus sampleBus samplePMGR (Or.inr rfl) rfl).2
      (initPeripherals sampleCfg sampleBus samplePMGR).2).1 (Or.inl rfl)⟩

end SmartBandage
